import Mathlib

/-!
Bill payment core of the Mobile Provider Bill Payment API.

A shallow embedding of `payBill` from `src/controllers/billController.js`
together with the transaction wrapper of `src/config/database.js`, of the
daily quota `rateLimiter` from `src/middleware/rateLimiter.js`, and of the
throttles and the routing of `src/gateway.js` and `src/server.js`.

Modelling conventions.

* JavaScript numbers are `JsNum`: `NaN` or a finite value; the two
  infinities are left out.  `roundDouble` rounds a rational to the nearest
  double.  `payBill` is embedded twice: with exact sums (`payBill`), on which
  the general theorems are stated, and in double precision (`payBillDouble`),
  which rounds as the runtime does.  The two agree where nothing is rounded
  (`payBillDouble_eq_of_whole`).
* Request fields are `JsValue`s: the body is parsed by `express.json()` or
  `express.urlencoded()`, so a field may be absent, a number, a boolean or a
  string.  Arrays and nested objects are not modelled.
* The conversions that JavaScript applies to *strings* (`ToNumber`,
  `parseFloat`, `parseInt`) and the comparison the SQL server applies between
  a parameter and a key column are parameters of the model (`Env`): every
  theorem holds for all of them.
* The SQL text is not interpreted.  Each statement sent to the store is a
  step that either takes effect or throws, as decided by a fault oracle
  (`Faults`).  Work done inside a transaction becomes durable only when the
  `COMMIT` step succeeds.
-/

namespace BillPay

/-! ## JavaScript values -/

/-- A JavaScript number: `NaN` or a finite value. -/
inductive JsNum where
  | nan
  | num (q : ℚ)
  deriving DecidableEq

namespace JsNum

/-- The JavaScript operator `a + b` on numbers. -/
def add : JsNum → JsNum → JsNum
  | num a, num b => num (a + b)
  | _, _ => nan

/-- The JavaScript operator `a - b` on numbers. -/
def sub : JsNum → JsNum → JsNum
  | num a, num b => num (a - b)
  | _, _ => nan

/-- The JavaScript comparison `a >= b`; false when either side is `NaN`. -/
def ge : JsNum → JsNum → Bool
  | num a, num b => decide (b ≤ a)
  | _, _ => false

/-- The JavaScript comparison `a <= b`; false when either side is `NaN`. -/
def le : JsNum → JsNum → Bool
  | num a, num b => decide (a ≤ b)
  | _, _ => false

/-- The JavaScript comparison `a < b`; false when either side is `NaN`. -/
def lt : JsNum → JsNum → Bool
  | num a, num b => decide (a < b)
  | _, _ => false

/-- The JavaScript comparison `a > b`; false when either side is `NaN`. -/
def gt : JsNum → JsNum → Bool
  | num a, num b => decide (b < a)
  | _, _ => false

/-- The function `Math.min(a, b)`: `NaN` when either argument is `NaN`. -/
def min : JsNum → JsNum → JsNum
  | num a, num b => num (Min.min a b)
  | _, _ => nan

/-- The function `isNaN(a)` on a number. -/
def isNaN : JsNum → Bool
  | nan => true
  | num _ => false

end JsNum

/-- A value found in a parsed request body. -/
inductive JsValue where
  | undefined
  | null
  | bool (b : Bool)
  | number (n : JsNum)
  | string (s : String)
  deriving DecidableEq

/-- The coercion `ToBoolean`, as used by `!v` and `v || w`. -/
def JsValue.truthy : JsValue → Bool
  | .undefined => false
  | .null => false
  | .bool b => b
  | .number .nan => false
  | .number (.num q) => decide (q ≠ 0)
  | .string s => decide (s ≠ "")

/-! ## The store -/

/-- A row of the `bills` table. -/
structure Bill where
  bill_id : Nat
  subscriber_no : String
  month : Int
  year : Int
  total_amount : ℚ
  paid_amount : ℚ
  paid_status : Bool
  deriving DecidableEq

/-- A row of the `transactions` table. -/
structure Transaction where
  transaction_id : Nat
  bill_id : Nat
  subscriber_no : JsValue
  amount : ℚ
  status : String
  deriving DecidableEq

/-- The durable content of the two tables `payBill` works on. -/
structure Store where
  bills : List Bill
  transactions : List Transaction
  deriving DecidableEq

/-- What the model leaves open: string conversions of the JavaScript runtime,
the clock, and the SQL server's comparison of a parameter with a key column. -/
structure Env where
  /-- The coercion `ToNumber` applied to a string (used by `amount <= 0`). -/
  stringToNumber : String → JsNum
  /-- The function `parseFloat` applied to a string. -/
  parseFloatString : String → JsNum
  /-- The function `parseInt` applied to a string. -/
  parseIntString : String → JsNum
  /-- The function `parseInt` applied to a number printed in exponent form. -/
  parseIntExponent : ℚ → JsNum
  /-- The value of `new Date().getFullYear()`. -/
  currentYear : Int
  /-- The SQL test `subscriber_no = @param1`. -/
  subscriberEq : String → JsValue → Bool
  /-- The SQL test `year = @param3`. -/
  yearEq : Int → JsValue → Bool

/-- The coercion `ToNumber`. -/
def Env.toNumber (env : Env) : JsValue → JsNum
  | .undefined => .nan
  | .null => .num 0
  | .bool b => .num (if b then 1 else 0)
  | .number n => n
  | .string s => env.stringToNumber s

/-- The function `parseFloat(v)`: the argument is printed and its longest
numeric prefix is read back, so a number is returned unchanged and `true`,
`false`, `null` and `undefined` give `NaN`. -/
def Env.parseFloat (env : Env) : JsValue → JsNum
  | .number n => n
  | .string s => env.parseFloatString s
  | _ => .nan

/-- The function `parseInt(v)`: a number printed in plain decimal form
(zero, or magnitude in `[1e-6, 1e21)`) is truncated towards zero. -/
def Env.parseInt (env : Env) : JsValue → JsNum
  | .number (.num q) =>
    if q = 0 ∨ ((1 : ℚ) / 1000000 ≤ |q| ∧ |q| < 1000000000000000000000) then
      .num ((if 0 ≤ q then ⌊q⌋ else ⌈q⌉ : ℤ) : ℚ)
    else env.parseIntExponent q
  | .string s => env.parseIntString s
  | _ => .nan

/-! ### Double precision

JavaScript numbers are IEEE-754 doubles.  `roundDouble q` is the double
nearest to the rational `q`, a tie going to the even significand; every
arithmetic operation of JavaScript returns the exact result rounded so.
Overflow to an infinity (magnitudes of `2 ^ 1024` and above) is not
represented. -/

/-- The number of binary digits of `n`, with `fuel` halvings allowed. -/
def bitLengthAux : Nat → Nat → Nat
  | 0, _ => 0
  | fuel + 1, n => if n = 0 then 0 else bitLengthAux fuel (n / 2) + 1

/-- The number of binary digits of `n`: `2 ^ (bitLength n - 1) ≤ n < 2 ^ bitLength n`. -/
def bitLength (n : Nat) : Nat := bitLengthAux n n

/-- The binade of `q > 0`: the exponent `e` with `2 ^ e ≤ q < 2 ^ (e + 1)`. -/
def binade (q : ℚ) : ℤ :=
  if (2 : ℚ) ^ ((bitLength q.num.natAbs : ℤ) - (bitLength q.den : ℤ)) ≤ q then
    (bitLength q.num.natAbs : ℤ) - (bitLength q.den : ℤ)
  else (bitLength q.num.natAbs : ℤ) - (bitLength q.den : ℤ) - 1

/-- Rounding to the nearest integer, a tie going to the even one. -/
def roundHalfEven (x : ℚ) : ℤ :=
  if x - ⌊x⌋ < 1 / 2 then ⌊x⌋
  else if 1 / 2 < x - ⌊x⌋ then ⌊x⌋ + 1
  else if ⌊x⌋ % 2 = 0 then ⌊x⌋ else ⌊x⌋ + 1

/-- The spacing of the doubles around `q`: 53 significant binary digits, and
the subnormal spacing `2 ^ (-1074)` below `2 ^ (-1022)`. -/
def ulp (q : ℚ) : ℚ := (2 : ℚ) ^ (max (binade |q|) (-1022) - 52)

/-- The double nearest to `q`. -/
def roundDouble (q : ℚ) : ℚ :=
  if q = 0 then 0
  else if q < 0 then -((roundHalfEven (-q / ulp q) : ℤ) : ℚ) * ulp q
  else ((roundHalfEven (q / ulp q) : ℤ) : ℚ) * ulp q

/-- The JavaScript operator `a + b` on numbers, in double precision. -/
def JsNum.addDouble : JsNum → JsNum → JsNum
  | .num a, .num b => .num (roundDouble (a + b))
  | _, _ => .nan

/-- The JavaScript operator `a - b` on numbers, in double precision. -/
def JsNum.subDouble : JsNum → JsNum → JsNum
  | .num a, .num b => .num (roundDouble (a - b))
  | _, _ => .nan

/-! ### A concrete runtime

String conversions for plain decimal numerals (`12`, `-5`, `+3.25`, `.5`).
On these strings, and on strings that start with no numeral at all, the
functions below agree with ECMAScript: the numeral is read exactly and
rounded to the nearest double.  Exponents, hexadecimal literals, `Infinity`
and surrounding blanks are not covered. -/

/-- The value of a decimal digit character. -/
def digitValue (c : Char) : Option Nat :=
  if 48 ≤ c.toNat ∧ c.toNat ≤ 57 then some (c.toNat - 48) else none

/-- Reads the leading decimal digits of `cs`, continuing the number `acc` read
from `n` digits so far: the number, the digit count and the unread rest. -/
def readDigits : List Char → Nat → Nat → Nat × Nat × List Char
  | [], acc, n => (acc, n, [])
  | c :: cs, acc, n =>
    match digitValue c with
    | some d => readDigits cs (10 * acc + d) (n + 1)
    | none => (acc, n, c :: cs)

/-- Splits a leading sign off: `true` when the sign is `-`. -/
def readSign : List Char → Bool × List Char
  | '-' :: cs => (true, cs)
  | '+' :: cs => (false, cs)
  | cs => (false, cs)

/-- Reads the longest prefix of the form `[+-]digits[.digits]` or
`[+-].digits`: its value and the unread rest, or `none` without a digit. -/
def readDecimal (cs : List Char) : Option (ℚ × List Char) :=
  let (neg, cs1) := readSign cs
  let (ip, ni, cs2) := readDigits cs1 0 0
  let sign : ℚ := if neg then -1 else 1
  match cs2 with
  | '.' :: cs3 =>
    let (fp, nf, cs4) := readDigits cs3 0 0
    if ni = 0 ∧ nf = 0 then none
    else some (sign * ((ip : ℚ) + (fp : ℚ) / (10 : ℚ) ^ nf), cs4)
  | _ => if ni = 0 then none else some (sign * (ip : ℚ), cs2)

/-- The function `parseFloat` on a string: the longest numeric prefix. -/
def decimalParseFloat (s : String) : JsNum :=
  match readDecimal s.data with
  | some (q, _) => .num (roundDouble q)
  | none => .nan

/-- The coercion `ToNumber` on a string: the whole string must be a numeral,
and the empty string is `0`. -/
def decimalToNumber (s : String) : JsNum :=
  if s = "" then .num 0
  else
    match readDecimal s.data with
    | some (q, []) => .num (roundDouble q)
    | _ => .nan

/-- The function `parseInt` on a string: sign and leading digits, as a double. -/
def decimalParseInt (s : String) : JsNum :=
  let (neg, cs1) := readSign s.data
  let (ip, ni, _) := readDigits cs1 0 0
  if ni = 0 then .nan else .num (roundDouble (if neg then -(ip : ℚ) else (ip : ℚ)))

/-- A concrete environment: decimal string conversions, the year 2024, and a
store that compares a key column with a parameter of the same type by
equality.  Not covered: a number that JavaScript prints in exponent form
(`parseInt` reads its leading digits, here it gives `NaN`), and a year passed
as a string (the store would convert it, here it matches no row). -/
def decimalEnv : Env where
  stringToNumber := decimalToNumber
  parseFloatString := decimalParseFloat
  parseIntString := decimalParseInt
  parseIntExponent := fun _ => .nan
  currentYear := 2024
  subscriberEq := fun column param => decide (param = .string column)
  yearEq := fun column param => decide (param = .number (.num (column : ℚ)))

/-- One store step of `payBill`, named by the place in the source that issues it. -/
inductive Step where
  /-- The call `pool.connect()`, which opens the transaction. -/
  | connect
  /-- The statement `BEGIN`. -/
  | begin
  /-- The statement `SELECT ... FOR UPDATE`. -/
  | select
  /-- The statement `ROLLBACK` issued when no bill was found. -/
  | rollbackNotFound
  /-- The statement `UPDATE bills`. -/
  | update
  /-- The statement `INSERT INTO transactions`. -/
  | insert
  /-- The statement `COMMIT`. -/
  | commit
  /-- The statement `ROLLBACK` issued by the `catch` block. -/
  | rollback
  deriving DecidableEq

/-- A fault oracle: `faults step = true` when that step throws. -/
abbrev Faults := Step → Bool

/-- The oracle of a store that never fails. -/
def noFaults : Faults := fun _ => false

/-- A store operation issued by `payBill`, with its parameters. -/
inductive Op where
  | connect
  | begin
  | select (subscriber_no : JsValue) (month : JsNum) (year : JsValue)
  | update (paid_amount : JsNum) (paid_status : Bool) (bill_id : Nat)
  | insert (bill_id : Nat) (subscriber_no : JsValue) (amount : JsNum)
  | commit
  | rollback
  | release
  deriving DecidableEq

/-- What became of the transaction opened by a call. -/
inductive Session where
  /-- No transaction was opened. -/
  | notOpened
  /-- The transaction was committed. -/
  | committed
  /-- The transaction was rolled back. -/
  | rolledBack
  /-- The transaction was left open with uncommitted work `work`. -/
  | leftOpen (work : Store)
  deriving DecidableEq

/-- The `WHERE` clause of the bill query. -/
def billMatches (env : Env) (subscriber_no : JsValue) (monthNum : JsNum) (year : JsValue)
    (b : Bill) : Bool :=
  env.subscriberEq b.subscriber_no subscriber_no
    && decide (monthNum = .num (b.month : ℚ))
    && env.yearEq b.year year

/-- The bill query: the first row for `(subscriber_no, month, year)`. -/
def selectBill (env : Env) (bills : List Bill) (subscriber_no : JsValue) (monthNum : JsNum)
    (year : JsValue) : Option Bill :=
  bills.find? (billMatches env subscriber_no monthNum year)

/-- The statement `UPDATE bills SET paid_amount, paid_status WHERE bill_id`. -/
def updateBill (bills : List Bill) (bill_id : Nat) (paid_amount : ℚ) (paid_status : Bool) :
    List Bill :=
  bills.map fun b =>
    if b.bill_id = bill_id then { b with paid_amount := paid_amount, paid_status := paid_status }
    else b

/-- The identifier the store gives to the next row of `transactions`. -/
def nextTransactionId (transactions : List Transaction) : Nat :=
  transactions.length + 1

/-! ## Responses -/

/-- The `data` object of a successful payment response. -/
structure PaymentData where
  transaction_id : Nat
  transaction_status : String
  bill_id : Nat
  amount_paid : JsNum
  remaining_amount : JsNum
  bill_status : String
  deriving DecidableEq

/-- The HTTP response of `payBill`. -/
inductive Response where
  /-- The response `res.status(status).json({ success: false, message })`. -/
  | error (status : Nat) (message : String)
  /-- The response `res.json({ success: true, data })`. -/
  | success (data : PaymentData)
  deriving DecidableEq

/-- The HTTP status code of a response. -/
def Response.status : Response → Nat
  | .error status _ => status
  | .success _ => 200

/-- The payload of a successful response. -/
def Response.data? : Response → Option PaymentData
  | .error _ _ => none
  | .success data => some data

/-- The result of one call: the response, the durable store afterwards, the
state of the call's transaction and the store operations issued, in order. -/
structure Outcome where
  res : Response
  store : Store
  session : Session
  ops : List Op
  deriving DecidableEq

/-- The body of a pay request. -/
structure PayBody where
  subscriber_no : JsValue
  month : JsValue
  amount : JsValue
  year : JsValue
  deriving DecidableEq

/-! ## payBill -/

/-- A validation failure: answered before any store operation. -/
def reject (s : Store) (status : Nat) (message : String) : Outcome :=
  { res := .error status message, store := s, session := .notOpened, ops := [] }

/-- The inner `catch` and `finally` blocks followed by the outer `catch`:
`ROLLBACK` is issued, the client is released and the answer is 500.  Here
`work` is the uncommitted state of the transaction and `ops` the operations
issued so far. -/
def payBillCatch (faults : Faults) (s work : Store) (ops : List Op) : Outcome :=
  { res := .error 500 "An error occurred while processing the payment."
    store := s
    session := if faults .rollback then .leftOpen work else .rolledBack
    ops := ops ++ [.rollback, .release] }

/-- The expression `req.body.year || new Date().getFullYear()`. -/
def yearOf (env : Env) (body : PayBody) : JsValue :=
  if body.year.truthy then body.year else .number (.num (env.currentYear : ℚ))

/-- The part of `payBill` that follows the bill query when it returned the
row `bill` (source lines 325 to 367): the new balance is computed, the bill is
updated, the transaction record is inserted and the work is committed.  Here
`ops` are the operations issued so far. -/
def payBillFound (env : Env) (faults : Faults) (s : Store) (body : PayBody) (ops : List Op)
    (bill : Bill) : Outcome :=
  let paymentAmount := env.parseFloat body.amount
  let newPaidAmount := (JsNum.num bill.paid_amount).add paymentAmount
  let totalAmount := JsNum.num bill.total_amount
  let isFullyPaid := newPaidAmount.ge totalAmount
  let finalPaidAmount := newPaidAmount.min totalAmount
  let upd := Op.update finalPaidAmount isFullyPaid bill.bill_id
  let ins := Op.insert bill.bill_id body.subscriber_no paymentAmount
  match finalPaidAmount, paymentAmount with
  | .num paid, .num amount =>
    if faults .update then
      payBillCatch faults s s (ops ++ [upd])
    else
      let w1 : Store := { s with bills := updateBill s.bills bill.bill_id paid isFullyPaid }
      if faults .insert then
        payBillCatch faults s w1 (ops ++ [upd, ins])
      else
        let transaction_id := nextTransactionId w1.transactions
        let w2 : Store :=
          { w1 with
            transactions := w1.transactions ++
              [{ transaction_id := transaction_id, bill_id := bill.bill_id
                 subscriber_no := body.subscriber_no, amount := amount
                 status := "completed" }] }
        if faults .commit then
          payBillCatch faults s w2 (ops ++ [upd, ins, .commit])
        else
          { res := .success
              { transaction_id := transaction_id
                transaction_status := "completed"
                bill_id := bill.bill_id
                amount_paid := paymentAmount
                remaining_amount :=
                  if isFullyPaid then .num 0 else totalAmount.sub finalPaidAmount
                bill_status := if isFullyPaid then "fully_paid" else "partially_paid" }
            store := w2, session := .committed
            ops := ops ++ [upd, ins, .commit, .release] }
  | _, _ =>
    -- a decimal column cannot hold `NaN`: the `UPDATE` statement throws
    payBillCatch faults s s (ops ++ [upd])

/-- The transaction of `payBill` (source lines 294 to 374), entered once the
request passed validation with month `monthNum` and year `year`. -/
def payBillTransaction (env : Env) (faults : Faults) (s : Store) (body : PayBody)
    (monthNum : JsNum) (year : JsValue) : Outcome :=
  let sel := Op.select body.subscriber_no monthNum year
  if faults .connect then
    { res := .error 500 "An error occurred while processing the payment."
      store := s, session := .notOpened, ops := [.connect] }
  else if faults .begin then
    payBillCatch faults s s [.connect, .begin]
  else if faults .select then
    payBillCatch faults s s [.connect, .begin, sel]
  else
    match selectBill env s.bills body.subscriber_no monthNum year with
    | none =>
      if faults .rollbackNotFound then
        payBillCatch faults s s [.connect, .begin, sel, .rollback]
      else
        { res := .error 404 "Bill not found for the specified subscriber and month."
          store := s, session := .rolledBack
          ops := [.connect, .begin, sel, .rollback, .release] }
    | some bill => payBillFound env faults s body [.connect, .begin, sel] bill

/-- The handler `payBill` of `billController.js`. -/
def payBill (env : Env) (faults : Faults) (s : Store) (body : PayBody) : Outcome :=
  if !body.subscriber_no.truthy || !body.month.truthy then
    reject s 400 "subscriber_no and month are required parameters."
  else if !body.amount.truthy || (env.toNumber body.amount).le (.num 0) then
    reject s 400 "amount is required and must be greater than 0."
  else
    let monthNum := env.parseInt body.month
    if monthNum.isNaN || monthNum.lt (.num 1) || monthNum.gt (.num 12) then
      reject s 400 "Month must be a number between 1 and 12."
    else
      payBillTransaction env faults s body monthNum (yearOf env body)

/-- The outcome of a call that went through: the bill `bill` was found, the
amount was read as `a`, and every store step succeeded. -/
def paidOutcome (env : Env) (s : Store) (body : PayBody) (bill : Bill) (a : ℚ) : Outcome :=
  let monthNum := env.parseInt body.month
  let year := yearOf env body
  let isFullyPaid := decide (bill.total_amount ≤ bill.paid_amount + a)
  let finalPaidAmount := min (bill.paid_amount + a) bill.total_amount
  { res := .success
      { transaction_id := nextTransactionId s.transactions
        transaction_status := "completed"
        bill_id := bill.bill_id
        amount_paid := .num a
        remaining_amount :=
          if isFullyPaid then .num 0 else .num (bill.total_amount - finalPaidAmount)
        bill_status := if isFullyPaid then "fully_paid" else "partially_paid" }
    store :=
      { bills := updateBill s.bills bill.bill_id finalPaidAmount isFullyPaid
        transactions := s.transactions ++
          [{ transaction_id := nextTransactionId s.transactions, bill_id := bill.bill_id
             subscriber_no := body.subscriber_no, amount := a, status := "completed" }] }
    session := .committed
    ops := [.connect, .begin, .select body.subscriber_no monthNum year,
            .update (.num finalPaidAmount) isFullyPaid bill.bill_id,
            .insert bill.bill_id body.subscriber_no (.num a), .commit, .release] }

/-- The store steps on the path of a payment that goes through. -/
def Faults.payPathClear (faults : Faults) : Prop :=
  faults .connect = false ∧ faults .begin = false ∧ faults .select = false ∧
    faults .update = false ∧ faults .insert = false ∧ faults .commit = false

instance (faults : Faults) : Decidable faults.payPathClear := by
  unfold Faults.payPathClear; infer_instance

/-- The request passes the three validation guards of `payBill`. -/
def passesValidation (env : Env) (body : PayBody) : Bool :=
  body.subscriber_no.truthy && body.month.truthy && body.amount.truthy
    && !(env.toNumber body.amount).le (.num 0)
    && !((env.parseInt body.month).isNaN || (env.parseInt body.month).lt (.num 1)
          || (env.parseInt body.month).gt (.num 12))

/-- The request names a subscriber and a month that `parseInt` reads as a
number from 1 to 12: the first and third guards of `payBill` let it pass. -/
def namesBill (env : Env) (body : PayBody) : Prop :=
  body.subscriber_no.truthy = true ∧ body.month.truthy = true ∧
    (env.parseInt body.month).isNaN = false ∧
    (env.parseInt body.month).lt (.num 1) = false ∧
    (env.parseInt body.month).gt (.num 12) = false

instance (env : Env) (body : PayBody) : Decidable (namesBill env body) := by
  unfold namesBill; infer_instance

/-- The operation writes to a table: `UPDATE bills` or `INSERT INTO transactions`. -/
def Op.isWrite : Op → Bool
  | .update _ _ _ => true
  | .insert _ _ _ => true
  | _ => false

/-- The request `body` with its amount replaced by the number `a`. -/
def withAmount (body : PayBody) (a : ℚ) : PayBody :=
  { body with amount := .number (.num a) }

/-! ### Sample data -/

/-- A bill of 200 for subscriber `5551234567`, March 2024, nothing paid. -/
def sampleBill : Bill :=
  { bill_id := 1, subscriber_no := "5551234567", month := 3, year := 2024
    total_amount := 200, paid_amount := 0, paid_status := false }

/-- A store holding `sampleBill` and no transaction record. -/
def sampleStore : Store := { bills := [sampleBill], transactions := [] }

/-- A pay request for `sampleBill` with amount `amount`; the year is left out. -/
def sampleBody (amount : JsValue) : PayBody :=
  { subscriber_no := .string "5551234567", month := .number (.num 3), amount := amount
    year := .undefined }

/-- The oracle of a store on which exactly the step `step` throws. -/
def failsAt (step : Step) : Faults := fun t => decide (t = step)

/-- A bill whose total is 0, for subscriber `5551234567`, April 2024. -/
def zeroBill : Bill :=
  { bill_id := 2, subscriber_no := "5551234567", month := 4, year := 2024
    total_amount := 0, paid_amount := 0, paid_status := false }

/-- A pay request for `zeroBill` with amount `amount`; the year is left out. -/
def zeroBody (amount : JsValue) : PayBody :=
  { subscriber_no := .string "5551234567", month := .number (.num 4), amount := amount
    year := .undefined }

/-! ## The daily quota (`src/middleware/rateLimiter.js`)

The table `rate_limits` is a list of rows.  A key column is compared with a
query parameter by equality of the value that was written to it.  Each of the
three statements either takes effect or throws, as a fault oracle decides.
The header `X-RateLimit-Reset`, which only depends on the clock, is left out. -/

/-- The JavaScript operator `a || b` on values. -/
def JsValue.or (a b : JsValue) : JsValue :=
  if a.truthy then a else b

/-- A row of the `rate_limits` table. -/
structure RateLimitRow where
  subscriber_no : JsValue
  endpoint : String
  date : String
  call_count : Int
  deriving DecidableEq

/-- What `rateLimiter` reads from the request: the three places a subscriber
number may come from, and `req.path`.  The body field is `none` when
`req.body` is `undefined`, in which case reading `req.body.subscriber_no`
throws. -/
structure LimiterRequest where
  query_subscriber_no : JsValue
  body_subscriber_no : Option JsValue
  params_subscriber_no : JsValue
  path : String
  deriving DecidableEq

/-- The expression
`req.query.subscriber_no || req.body.subscriber_no || req.params.subscriber_no`;
`none` when evaluating it throws. -/
def subscriberNoOf (req : LimiterRequest) : Option JsValue :=
  if req.query_subscriber_no.truthy then some req.query_subscriber_no
  else
    match req.body_subscriber_no with
    | none => none
    | some b => some (b.or req.params_subscriber_no)

/-- One store statement of `rateLimiter`. -/
inductive LimiterStep where
  /-- The statement `SELECT call_count FROM rate_limits`. -/
  | check
  /-- The statement `UPDATE rate_limits SET call_count = call_count + 1`. -/
  | update
  /-- The statement `INSERT INTO rate_limits`. -/
  | insert
  deriving DecidableEq

/-- A fault oracle for `rateLimiter`: `faults step = true` when that statement throws. -/
abbrev LimiterFaults := LimiterStep → Bool

/-- The oracle of a counter store that never fails. -/
def noLimiterFaults : LimiterFaults := fun _ => false

/-- A statement issued by `rateLimiter`, with its key parameters. -/
inductive LimiterOp where
  | check (subscriber_no : JsValue) (endpoint : String) (date : String)
  | update (subscriber_no : JsValue) (endpoint : String) (date : String)
  | insert (subscriber_no : JsValue) (endpoint : String) (date : String)
  deriving DecidableEq

/-- A response sent by `rateLimiter` itself. -/
structure LimiterReply where
  status : Nat
  message : String
  limit : Option Int
  remaining : Option Int
  deriving DecidableEq

/-- The headers `X-RateLimit-Limit` and `X-RateLimit-Remaining`. -/
structure RateLimitHeaders where
  limit : Int
  remaining : Int
  deriving DecidableEq

/-- The result of one `rateLimiter` call: the response it sent (if any), how
often it called `next`, the headers it set, the table afterwards and the
statements it issued. -/
structure LimiterOutcome where
  res : Option LimiterReply
  nextCalls : Nat
  headers : Option RateLimitHeaders
  table : List RateLimitRow
  ops : List LimiterOp
  deriving DecidableEq

/-- The `WHERE` clause `subscriber_no = $1 AND endpoint = $2 AND date = $3`. -/
def rateKeyMatches (subscriberNo : JsValue) (endpoint today : String) (r : RateLimitRow) :
    Bool :=
  decide (r.subscriber_no = subscriberNo) && decide (r.endpoint = endpoint)
    && decide (r.date = today)

/-- The rows returned by `checkQuery`. -/
def checkRows (table : List RateLimitRow) (subscriberNo : JsValue) (endpoint today : String) :
    List RateLimitRow :=
  table.filter (rateKeyMatches subscriberNo endpoint today)

/-- The value of `currentCount`: the count of the first returned row, `0` without a row. -/
def currentCountOf (rows : List RateLimitRow) : Int :=
  match rows with
  | [] => 0
  | r :: _ => r.call_count

/-- The statement `UPDATE rate_limits SET call_count = call_count + 1 WHERE ...`. -/
def incrementRows (table : List RateLimitRow) (subscriberNo : JsValue)
    (endpoint today : String) : List RateLimitRow :=
  table.map fun r =>
    if rateKeyMatches subscriberNo endpoint today r then { r with call_count := r.call_count + 1 }
    else r

/-- The `catch` block of `rateLimiter`: the error is logged and `next()` is called. -/
def limiterCatch (table : List RateLimitRow) (ops : List LimiterOp) : LimiterOutcome :=
  { res := none, nextCalls := 1, headers := none, table := table, ops := ops }

/-- The middleware `rateLimiter` with the constant `LIMIT` as a parameter;
`today` is the value of `new Date().toISOString().split('T')[0]`. -/
def rateLimiterWith (LIMIT : Int) (faults : LimiterFaults) (today : String)
    (table : List RateLimitRow) (req : LimiterRequest) : LimiterOutcome :=
  match subscriberNoOf req with
  | none => limiterCatch table []
  | some subscriberNo =>
    let endpoint := req.path
    if !subscriberNo.truthy then
      { res := some { status := 400
                      message := "Subscriber number is required for rate limiting."
                      limit := none, remaining := none }
        nextCalls := 0, headers := none, table := table, ops := [] }
    else if faults .check then
      limiterCatch table [.check subscriberNo endpoint today]
    else
      let rows := checkRows table subscriberNo endpoint today
      let currentCount := currentCountOf rows
      if LIMIT ≤ currentCount then
        { res := some { status := 429
                        message := "Rate limit exceeded. Maximum " ++ toString LIMIT ++
                          " calls per subscriber per day."
                        limit := some LIMIT, remaining := some 0 }
          nextCalls := 0, headers := none, table := table
          ops := [.check subscriberNo endpoint today] }
      else
        let headers : RateLimitHeaders :=
          { limit := LIMIT, remaining := max 0 (LIMIT - currentCount - 1) }
        match rows with
        | _ :: _ =>
          if faults .update then
            limiterCatch table [.check subscriberNo endpoint today,
              .update subscriberNo endpoint today]
          else
            { res := none, nextCalls := 1, headers := some headers
              table := incrementRows table subscriberNo endpoint today
              ops := [.check subscriberNo endpoint today, .update subscriberNo endpoint today] }
        | [] =>
          if faults .insert then
            limiterCatch table [.check subscriberNo endpoint today,
              .insert subscriberNo endpoint today]
          else
            { res := none, nextCalls := 1, headers := some headers
              table := table ++ [{ subscriber_no := subscriberNo, endpoint := endpoint
                                   date := today, call_count := 1 }]
              ops := [.check subscriberNo endpoint today, .insert subscriberNo endpoint today] }

/-- The constant `LIMIT` of `rateLimiter`. -/
def LIMIT : Int := 100

/-- The middleware `rateLimiter` of `rateLimiter.js`. -/
def rateLimiter (faults : LimiterFaults) (today : String) (table : List RateLimitRow)
    (req : LimiterRequest) : LimiterOutcome :=
  rateLimiterWith LIMIT faults today table req

/-- The decision a call amounts to: admitted or not, the ceiling and the
remaining quota it reports. -/
structure Decision where
  allow : Bool
  limit : Int
  remaining : Int
  deriving DecidableEq

/-- The decision read off an outcome: an admitted call reports through the
headers, a denied call through the body of the 429 response. -/
def LimiterOutcome.decision (o : LimiterOutcome) : Option Decision :=
  match o.res, o.headers with
  | none, some h =>
    if o.nextCalls = 1 then some { allow := true, limit := h.limit, remaining := h.remaining }
    else none
  | some r, _ =>
    match r.limit, r.remaining with
    | some l, some rem =>
      if o.nextCalls = 0 ∧ r.status = 429 then some { allow := false, limit := l, remaining := rem }
      else none
    | _, _ => none
  | none, none => none

/-- Successive calls `count` times with the same request on the same day,
against a counter store that does not fail: the outcomes in order. -/
def rateLimiterSeq (LIMIT : Int) (today : String) (req : LimiterRequest) :
    Nat → List RateLimitRow → List LimiterOutcome
  | 0, _ => []
  | count + 1, table =>
    rateLimiterWith LIMIT noLimiterFaults today table req ::
      rateLimiterSeq LIMIT today req count
        (rateLimiterWith LIMIT noLimiterFaults today table req).table

/-- The statement that writes the counter when the call is admitted: `UPDATE`
when the check returned a row, `INSERT` otherwise. -/
def writeStep (rows : List RateLimitRow) : LimiterStep :=
  match rows with
  | _ :: _ => .update
  | [] => .insert

/-- A query for the bill of subscriber `5551234567` on the path `/query`. -/
def sampleQuery : LimiterRequest :=
  { query_subscriber_no := .string "5551234567", body_subscriber_no := some .undefined
    params_subscriber_no := .undefined, path := "/query" }

/-! ## The gateway (`src/gateway.js`, `src/server.js`, `src/routes`) -/

/-- The options object passed to `rateLimit(...)`. -/
structure RateLimitOptions where
  windowMs : Nat
  max : Nat
  deriving DecidableEq

/-- The fixed window of one client: its start (in milliseconds) and the
number of requests counted since. -/
structure RateWindow where
  windowStart : Nat
  count : Nat
  deriving DecidableEq

/-- The state of a fixed-window limiter: the window recorded for each client key. -/
abbrev ThrottleState := String → Option RateWindow

/-- The decision of a throttle, as in section 6 of the specification. -/
structure ThrottleDecision where
  allow : Bool
  limit : Nat
  remaining : Nat
  resetAt : Nat
  deriving DecidableEq

/-- The window a request at time `now` falls into: the recorded one while it
lasts, otherwise a new window starting at `now`. -/
def liveWindow (options : RateLimitOptions) (state : ThrottleState) (clientKey : String)
    (now : Nat) : RateWindow :=
  match state clientKey with
  | some w =>
    if now < w.windowStart + options.windowMs then w else { windowStart := now, count := 0 }
  | none => { windowStart := now, count := 0 }

/-- Modelled from the spec: the middleware built by `rateLimit(options)` of the
package `express-rate-limit`, which is not among the sources.  Section 4.1:
a fixed window per client key, starting at the first request; requests are
counted since the window start; once the count has reached the ceiling the
request is denied for the remainder of the window, with the reset time at the
end of the window. -/
def fixedWindowAdmit (options : RateLimitOptions) (state : ThrottleState) (clientKey : String)
    (now : Nat) : ThrottleDecision × ThrottleState :=
  let w := liveWindow options state clientKey now
  if options.max ≤ w.count then
    ({ allow := false, limit := options.max, remaining := 0
       resetAt := w.windowStart + options.windowMs },
      Function.update state clientKey (some w))
  else
    ({ allow := true, limit := options.max, remaining := options.max - (w.count + 1)
       resetAt := w.windowStart + options.windowMs },
      Function.update state clientKey (some { w with count := w.count + 1 }))

/-- The result of one throttle call: the decision, the response sent by the
`handler` option on denial, how often `next` was called and the new state. -/
structure ThrottleOutcome where
  decision : ThrottleDecision
  res : Option Response
  nextCalls : Nat
  state : ThrottleState

/-- The options of `globalRateLimiter`: 100 requests per 15 minutes. -/
def globalRateLimiterOptions : RateLimitOptions :=
  { windowMs := 15 * 60 * 1000, max := 100 }

/-- The middleware `globalRateLimiter`: the fixed-window limiter with the
options and the `handler` of `gateway.js`; the client key is `req.ip`. -/
def globalRateLimiter (state : ThrottleState) (ip : String) (now : Nat) : ThrottleOutcome :=
  let r := fixedWindowAdmit globalRateLimiterOptions state ip now
  if r.1.allow then
    { decision := r.1, res := none, nextCalls := 1, state := r.2 }
  else
    { decision := r.1
      res := some (.error 429 "Too many requests from this IP, please try again later.")
      nextCalls := 0, state := r.2 }

/-- Successive requests of one client through `globalRateLimiter` at the given
times: the outcomes in order. -/
def globalRateLimiterSeq (state : ThrottleState) (ip : String) : List Nat → List ThrottleOutcome
  | [] => []
  | now :: rest =>
    globalRateLimiter state ip now ::
      globalRateLimiterSeq (globalRateLimiter state ip now).state ip rest

/-- What the `skip` option of `authRateLimiter` reads from the request. -/
structure GatewayRequest where
  /-- The value of `req.ip`. -/
  ip : JsValue
  /-- The value of `req.connection.remoteAddress`. -/
  remoteAddress : JsValue
  /-- The value of `req.headers['x-forwarded-for']`. -/
  xForwardedFor : JsValue
  deriving DecidableEq

/-- The comparison `v === s` with a string literal `s`. -/
def JsValue.isString (v : JsValue) (s : String) : Bool :=
  decide (v = .string s)

/-- The `skip` option of `authRateLimiter`. -/
def authRateLimiterSkip (req : GatewayRequest) : Bool :=
  let ip := (req.ip.or req.remoteAddress).or req.xForwardedFor
  ip.isString "::1" || ip.isString "127.0.0.1" || ip.isString "localhost"

/-- The addresses `authRateLimiter` skips. -/
def skippedAddresses : List String := ["::1", "127.0.0.1", "localhost"]

/-- HTTP methods. -/
inductive Method where
  | GET
  | POST
  | PUT
  | DELETE
  deriving DecidableEq

/-- A request as the routers see it: the method and the path, split into segments. -/
structure HttpRequest where
  method : Method
  path : List String
  deriving DecidableEq

/-- The middlewares and handlers of the gateway and of the API application.
The body parsers and `cors`, which always pass the request on, are left out. -/
inductive Stage where
  | gatewayLogger
  | authRateLimiter
  | globalRateLimiter
  | gatewayHealth
  | apiDocs
  | requestLogger
  | health
  | authenticate
  | rateLimiter
  | pagination
  | requireBanking
  | requireAdmin
  | upload
  | login
  | queryBill
  | queryBillDetailed
  | queryUnpaidBills
  | payBill
  | addBill
  | addBillBatch
  | root
  | notFound
  deriving DecidableEq

/-- The business handlers: login, the bill queries, pay and the admin handlers. -/
def Stage.isBusinessHandler : Stage → Bool
  | .login => true
  | .queryBill => true
  | .queryBillDetailed => true
  | .queryUnpaidBills => true
  | .payBill => true
  | .addBill => true
  | .addBillBatch => true
  | _ => false

/-- Mounting with `use(mount, ...)`: the rest of the path when it starts with
the segments of `mount`.  Segments are compared as written; Express ignores
case by default, so a path is taken in the case of the routes. -/
def stripMount : List String → List String → Option (List String)
  | [], path => some path
  | _ :: _, [] => none
  | m :: ms, p :: ps => if m = p then stripMount ms ps else none

/-- The routes of `routes/bills.js`. -/
def billRoutes (method : Method) (path : List String) : Option (List Stage) :=
  match method, path with
  | .GET, ["query"] => some [.authenticate, .rateLimiter, .queryBill]
  | .GET, ["query", "detailed"] => some [.authenticate, .pagination, .queryBillDetailed]
  | .GET, ["unpaid"] => some [.authenticate, .requireBanking, .queryUnpaidBills]
  | .POST, ["pay"] => some [.payBill]
  | _, _ => none

/-- The routes of `routes/admin.js`. -/
def adminRoutes (method : Method) (path : List String) : Option (List Stage) :=
  match method, path with
  | .POST, ["bills"] => some [.authenticate, .requireAdmin, .addBill]
  | .POST, ["bills", "batch"] =>
    some [.authenticate, .requireAdmin, .upload, .addBillBatch]
  | _, _ => none

/-- Modelled from the spec: the router `routes/auth.js`, which is not among the
sources.  Its login route is the one its callers use (`gateway.js` mounts
`authRateLimiter` on `/api/v1/auth/login`, `test-api.js` posts to it). -/
def authRoutes (method : Method) (path : List String) : Option (List Stage) :=
  match method, path with
  | .POST, ["login"] => some [.login]
  | _, _ => none

/-- A router mounted with `app.use(mount, router)`: its stages when the path
is under `mount` and one of its routes matches. -/
def mountRouter (mount : List String) (router : Method → List String → Option (List Stage))
    (req : HttpRequest) : Option (List Stage) :=
  match stripMount mount req.path with
  | some rest => router req.method rest
  | none => none

/-- The application of `server.js`: the stages a request runs through, in
order, when every middleware passes it on. -/
def apiApp (req : HttpRequest) : List Stage :=
  .requestLogger ::
    (if req.method = .GET ∧ req.path = ["health"] then [.health]
     else if (stripMount ["api-docs"] req.path).isSome then [.apiDocs]
     else
      ((mountRouter ["api", "v1", "auth"] authRoutes req).orElse fun _ =>
        (mountRouter ["api", "v1", "bills"] billRoutes req).orElse fun _ =>
        (mountRouter ["api", "v1", "admin"] adminRoutes req).orElse fun _ =>
        (mountRouter ["v1", "auth"] authRoutes req).orElse fun _ =>
        (mountRouter ["v1", "bills"] billRoutes req).orElse fun _ =>
        (mountRouter ["v1", "admin"] adminRoutes req)).getD
          (if req.method = .GET ∧ req.path = [] then [.root] else [.notFound]))

/-- The gateway of `gateway.js`: the stages a request runs through, in order,
when every middleware passes it on. -/
def gateway (req : HttpRequest) : List Stage :=
  [.gatewayLogger]
    ++ (if (stripMount ["api", "v1", "auth", "login"] req.path).isSome then [.authRateLimiter]
        else [])
    ++ (if (stripMount ["api"] req.path).isSome then [.globalRateLimiter] else [])
    ++ (if req.method = .GET ∧ req.path = ["health"] then [.gatewayHealth]
        else if (stripMount ["api-docs"] req.path).isSome then [.apiDocs]
        else apiApp req)

/-- The stages that run before the first business handler. -/
def stagesBeforeHandler (stages : List Stage) : List Stage :=
  stages.takeWhile fun st => !st.isBusinessHandler

/-! ## The daily quota: successive and interleaved calls -/

/-- The count `rateLimiter` reads for a key: that of the first row stored
under the key, `0` when there is none. -/
def keyCount (table : List RateLimitRow) (subscriberNo : JsValue) (endpoint date : String) :
    Int :=
  currentCountOf (checkRows table subscriberNo endpoint date)

/-- The table after successive `rateLimiter` calls; each call comes with its
fault oracle, its date and its request. -/
def rateLimiterRun (LIMIT : Int) :
    List RateLimitRow → List (LimiterFaults × String × LimiterRequest) → List RateLimitRow
  | table, [] => table
  | table, (faults, today, req) :: rest =>
    rateLimiterRun LIMIT (rateLimiterWith LIMIT faults today table req).table rest

/-- The key a statement of `rateLimiter` addresses. -/
def LimiterOp.key : LimiterOp → JsValue × String × String
  | .check s e d => (s, e, d)
  | .update s e d => (s, e, d)
  | .insert s e d => (s, e, d)

/-- A row of `rate_limits` for subscriber `5551234567` on `/query`. -/
def sampleRow (date : String) (count : Int) : RateLimitRow :=
  { subscriber_no := .string "5551234567", endpoint := "/query", date := date
    call_count := count }

/-- The first part of `rateLimiter`, up to the `await` on `checkQuery`: the
call is over already (left), or it goes on with the subscriber number and the
rows it has read (right). -/
def rateLimiterRead (faults : LimiterFaults) (today : String) (table : List RateLimitRow)
    (req : LimiterRequest) : LimiterOutcome ⊕ (JsValue × List RateLimitRow) :=
  match subscriberNoOf req with
  | none => .inl (limiterCatch table [])
  | some subscriberNo =>
    if !subscriberNo.truthy then
      .inl { res := some { status := 400
                           message := "Subscriber number is required for rate limiting."
                           limit := none, remaining := none }
             nextCalls := 0, headers := none, table := table, ops := [] }
    else if faults .check then
      .inl (limiterCatch table [.check subscriberNo req.path today])
    else .inr (subscriberNo, checkRows table subscriberNo req.path today)

/-- The second part of `rateLimiter`, after the `await` on `checkQuery`: the
decision is taken on the rows read earlier, and the `UPDATE` or `INSERT` is
applied to the table as it is when the statement runs. -/
def rateLimiterWrite (LIMIT : Int) (faults : LimiterFaults) (today : String)
    (table : List RateLimitRow) (req : LimiterRequest) (subscriberNo : JsValue)
    (rows : List RateLimitRow) : LimiterOutcome :=
  let endpoint := req.path
  let currentCount := currentCountOf rows
  if LIMIT ≤ currentCount then
    { res := some { status := 429
                    message := "Rate limit exceeded. Maximum " ++ toString LIMIT ++
                      " calls per subscriber per day."
                    limit := some LIMIT, remaining := some 0 }
      nextCalls := 0, headers := none, table := table
      ops := [.check subscriberNo endpoint today] }
  else
    let headers : RateLimitHeaders :=
      { limit := LIMIT, remaining := max 0 (LIMIT - currentCount - 1) }
    match rows with
    | _ :: _ =>
      if faults .update then
        limiterCatch table [.check subscriberNo endpoint today,
          .update subscriberNo endpoint today]
      else
        { res := none, nextCalls := 1, headers := some headers
          table := incrementRows table subscriberNo endpoint today
          ops := [.check subscriberNo endpoint today, .update subscriberNo endpoint today] }
    | [] =>
      if faults .insert then
        limiterCatch table [.check subscriberNo endpoint today,
          .insert subscriberNo endpoint today]
      else
        { res := none, nextCalls := 1, headers := some headers
          table := table ++ [{ subscriber_no := subscriberNo, endpoint := endpoint
                               date := today, call_count := 1 }]
          ops := [.check subscriberNo endpoint today, .insert subscriberNo endpoint today] }

/-- Two simultaneous calls on a working store, interleaved so that both run
their `SELECT` before either runs its `UPDATE` or `INSERT`: the outcome of
each, the second one writing to the table the first one left. -/
def rateLimiterRace (LIMIT : Int) (today : String) (table : List RateLimitRow)
    (reqA reqB : LimiterRequest) : LimiterOutcome × LimiterOutcome :=
  match rateLimiterRead noLimiterFaults today table reqA,
      rateLimiterRead noLimiterFaults today table reqB with
  | .inr (vA, rowsA), .inr (vB, rowsB) =>
    let oA := rateLimiterWrite LIMIT noLimiterFaults today table reqA vA rowsA
    (oA, rateLimiterWrite LIMIT noLimiterFaults today oA.table reqB vB rowsB)
  | .inl oA, _ => (oA, rateLimiterWith LIMIT noLimiterFaults today oA.table reqB)
  | .inr (vA, rowsA), .inl oB =>
    (rateLimiterWrite LIMIT noLimiterFaults today oB.table reqA vA rowsA, oB)

/-! ## Pagination and the bill queries
(`src/middleware/pagination.js`, `queryBill` and `queryBillDetailed` of
`src/controllers/billController.js`) -/

/-- The expression `parseInt(v) || d`: `d` when `parseInt(v)` is `NaN` or `0`. -/
def Env.parseIntOr (env : Env) (v : JsValue) (d : ℚ) : ℚ :=
  match env.parseInt v with
  | .nan => d
  | .num q => if q = 0 then d else q

/-- The object `req.pagination`. -/
structure Pagination where
  page : ℚ
  limit : ℚ
  offset : ℚ
  deriving DecidableEq

/-- The result of the pagination middleware: the response it sent (if any),
how often it called `next`, and `req.pagination` when it set it. -/
structure PaginationOutcome where
  res : Option Response
  nextCalls : Nat
  pagination : Option Pagination
  deriving DecidableEq

/-- The middleware `pagination`; `queryPage` and `queryLimit` are
`req.query.page` and `req.query.limit`.  The offset `(page - 1) * limit` is
computed in double precision. -/
def pagination (env : Env) (queryPage queryLimit : JsValue) : PaginationOutcome :=
  let page := env.parseIntOr queryPage 1
  let limit := env.parseIntOr queryLimit 10
  if page < 1 then
    { res := some (.error 400 "Page number must be greater than 0.")
      nextCalls := 0, pagination := none }
  else if limit < 1 ∨ limit > 100 then
    { res := some (.error 400 "Limit must be between 1 and 100.")
      nextCalls := 0, pagination := none }
  else
    { res := none, nextCalls := 1
      pagination := some
        { page := page, limit := limit
          offset := roundDouble (roundDouble (page - 1) * limit) } }

/-- The query string of the bill queries. -/
structure BillQuery where
  subscriber_no : JsValue
  month : JsValue
  year : JsValue
  deriving DecidableEq

/-- A row of the `bill_details` table. -/
structure BillDetail where
  detail_id : Nat
  bill_id : Nat
  service_type : String
  description : String
  amount : ℚ
  deriving DecidableEq

/-- An entry of `bill_details` in the response of `queryBillDetailed`. -/
structure DetailItem where
  service_type : String
  description : String
  amount : JsNum
  deriving DecidableEq

/-- The object `pagination` in the response of `queryBillDetailed`. -/
structure PaginationMeta where
  page : ℚ
  limit : ℚ
  total : Nat
  totalPages : ℤ
  hasNext : Bool
  hasPrev : Bool
  deriving DecidableEq

/-- The pagination metadata of `queryBillDetailed` (source lines 162 to 182):
`totalPages = Math.ceil(total / limit)`, `hasNext = page < totalPages`,
`hasPrev = page > 1`.  The limit is not 0 here (the middleware admits 1 to
100 only). -/
def paginationMeta (page limit : ℚ) (total : Nat) : PaginationMeta :=
  let totalPages : ℤ := ⌈(total : ℚ) / limit⌉
  { page := page, limit := limit, total := total, totalPages := totalPages
    hasNext := decide (page < (totalPages : ℚ)), hasPrev := decide (page > 1) }

/-- A statement issued by the bill queries. -/
inductive QueryOp where
  /-- The bill query, with its three parameters. -/
  | bill (subscriber_no : JsValue) (month : JsNum) (year : JsValue)
  /-- The query for a page of bill details. -/
  | details (bill_id : Nat) (limit offset : ℚ)
  /-- The query counting the bill details. -/
  | count (bill_id : Nat)
  deriving DecidableEq

/-- The response of a bill query. -/
inductive QueryResponse where
  /-- The response `res.status(status).json({ success: false, message })`. -/
  | error (status : Nat) (message : String)
  /-- The success response of `queryBill`. -/
  | bill (bill_total : JsNum) (paid_status : Bool)
  /-- The success response of `queryBillDetailed`. -/
  | detailed (bill_total : JsNum) (bill_details : List DetailItem) (pagination : PaginationMeta)
  deriving DecidableEq

/-- The HTTP status code of a query response. -/
def QueryResponse.status : QueryResponse → Nat
  | .error status _ => status
  | _ => 200

/-- The result of a bill query: the response and the statements issued. -/
structure QueryOutcome where
  res : QueryResponse
  ops : List QueryOp
  deriving DecidableEq

/-- The expression `req.query.year || new Date().getFullYear()`. -/
def queryYear (env : Env) (query : BillQuery) : JsValue :=
  if query.year.truthy then query.year else .number (.num (env.currentYear : ℚ))

/-- The handler `queryBill`; `fails` says whether the bill query throws. -/
def queryBill (env : Env) (fails : Bool) (bills : List Bill) (query : BillQuery) :
    QueryOutcome :=
  if !query.subscriber_no.truthy || !query.month.truthy then
    { res := .error 400 "subscriber_no and month are required parameters.", ops := [] }
  else
    let monthNum := env.parseInt query.month
    if monthNum.isNaN || monthNum.lt (.num 1) || monthNum.gt (.num 12) then
      { res := .error 400 "Month must be a number between 1 and 12.", ops := [] }
    else
      let year := queryYear env query
      let ops := [QueryOp.bill query.subscriber_no monthNum year]
      if fails then
        { res := .error 500 "An error occurred while querying the bill.", ops := ops }
      else
        match selectBill env bills query.subscriber_no monthNum year with
        | none =>
          { res := .error 404 "Bill not found for the specified subscriber and month."
            ops := ops }
        | some bill =>
          { res := .bill (.num bill.total_amount) bill.paid_status, ops := ops }

/-- The query for a page of details: the rows of the bill, ordered by
`detail_id`, `limit` rows from position `offset`. -/
def selectDetails (details : List BillDetail) (bill_id : Nat) (limit offset : ℚ) :
    List BillDetail :=
  (((details.filter fun d => d.bill_id = bill_id).insertionSort
      fun a b => a.detail_id ≤ b.detail_id).drop ⌊offset⌋.toNat).take ⌊limit⌋.toNat

/-- The query counting the details of the bill. -/
def countDetails (details : List BillDetail) (bill_id : Nat) : Nat :=
  (details.filter fun d => d.bill_id = bill_id).length

/-- The handler `queryBillDetailed`.  The three flags say whether the bill
query, the details query and the count query throw; `paging` is
`req.pagination`, `none` when the middleware has not set it. -/
def queryBillDetailed (env : Env) (failsBill failsDetails failsCount : Bool)
    (bills : List Bill) (details : List BillDetail) (query : BillQuery)
    (paging : Option Pagination) : QueryOutcome :=
  if !query.subscriber_no.truthy || !query.month.truthy then
    { res := .error 400 "subscriber_no and month are required parameters.", ops := [] }
  else
    let monthNum := env.parseInt query.month
    if monthNum.isNaN || monthNum.lt (.num 1) || monthNum.gt (.num 12) then
      { res := .error 400 "Month must be a number between 1 and 12.", ops := [] }
    else
      let year := queryYear env query
      let billOp := QueryOp.bill query.subscriber_no monthNum year
      if failsBill then
        { res := .error 500 "An error occurred while querying the detailed bill."
          ops := [billOp] }
      else
        match selectBill env bills query.subscriber_no monthNum year with
        | none =>
          { res := .error 404 "Bill not found for the specified subscriber and month."
            ops := [billOp] }
        | some bill =>
          match paging with
          | none =>
            { res := .error 500 "An error occurred while querying the detailed bill."
              ops := [billOp] }
          | some p =>
            let ops := [billOp, .details bill.bill_id p.limit p.offset, .count bill.bill_id]
            if failsDetails || failsCount then
              { res := .error 500 "An error occurred while querying the detailed bill."
                ops := ops }
            else
              let total := countDetails details bill.bill_id
              { res := .detailed (.num bill.total_amount)
                  ((selectDetails details bill.bill_id p.limit p.offset).map fun row =>
                    { service_type := row.service_type, description := row.description
                      amount := .num row.amount })
                  (paginationMeta p.page p.limit total)
                ops := ops }

/-- The month guard shared by `payBill`, `queryBill` and `queryBillDetailed`:
the month is missing, or `parseInt` reads it as `NaN` or outside 1 to 12. -/
def monthRejected (env : Env) (month : JsValue) : Bool :=
  !month.truthy || (env.parseInt month).isNaN || (env.parseInt month).lt (.num 1)
    || (env.parseInt month).gt (.num 12)

/-- The functions `parseInt` of the runtime return `NaN` or an integer. -/
def Env.parseIntIntegral (env : Env) : Prop :=
  (∀ s, env.parseIntString s = .nan ∨ ∃ k : ℤ, env.parseIntString s = .num (k : ℚ)) ∧
    ∀ q, env.parseIntExponent q = .nan ∨ ∃ k : ℤ, env.parseIntExponent q = .num (k : ℚ)

/-- A query for the bill of `sampleBill`, with month `month`. -/
def sampleBillQuery (month : JsValue) : BillQuery :=
  { subscriber_no := .string "5551234567", month := month, year := .undefined }

/-- A pay request of 80 for `sampleBill`, with month `month`. -/
def sampleMonthBody (month : JsValue) : PayBody :=
  { subscriber_no := .string "5551234567", month := month, amount := .number (.num 80)
    year := .undefined }

/-- Three detail rows of `sampleBill`. -/
def sampleDetails : List BillDetail :=
  [{ detail_id := 2, bill_id := 1, service_type := "sms", description := "SMS", amount := 20 },
   { detail_id := 1, bill_id := 1, service_type := "voice", description := "Calls", amount := 150 },
   { detail_id := 3, bill_id := 1, service_type := "data", description := "Internet", amount := 30 }]

/-! ## payBill in double precision

`payBill` above adds and subtracts amounts exactly.  The handler itself
computes with doubles: `parseFloat` of a stored decimal is the nearest double,
and `+` and `-` round their result.  The definitions below are the same
handler with that arithmetic; a row keeps the number the `UPDATE` statement
was sent. -/

/-- The part of `payBill` that follows the bill query when it returned the
row `bill` (source lines 325 to 367), in double precision. -/
def payBillFoundDouble (env : Env) (faults : Faults) (s : Store) (body : PayBody)
    (ops : List Op) (bill : Bill) : Outcome :=
  let paymentAmount := env.parseFloat body.amount
  let newPaidAmount := (JsNum.num (roundDouble bill.paid_amount)).addDouble paymentAmount
  let totalAmount := JsNum.num (roundDouble bill.total_amount)
  let isFullyPaid := newPaidAmount.ge totalAmount
  let finalPaidAmount := newPaidAmount.min totalAmount
  let upd := Op.update finalPaidAmount isFullyPaid bill.bill_id
  let ins := Op.insert bill.bill_id body.subscriber_no paymentAmount
  match finalPaidAmount, paymentAmount with
  | .num paid, .num amount =>
    if faults .update then
      payBillCatch faults s s (ops ++ [upd])
    else
      let w1 : Store := { s with bills := updateBill s.bills bill.bill_id paid isFullyPaid }
      if faults .insert then
        payBillCatch faults s w1 (ops ++ [upd, ins])
      else
        let transaction_id := nextTransactionId w1.transactions
        let w2 : Store :=
          { w1 with
            transactions := w1.transactions ++
              [{ transaction_id := transaction_id, bill_id := bill.bill_id
                 subscriber_no := body.subscriber_no, amount := amount
                 status := "completed" }] }
        if faults .commit then
          payBillCatch faults s w2 (ops ++ [upd, ins, .commit])
        else
          { res := .success
              { transaction_id := transaction_id
                transaction_status := "completed"
                bill_id := bill.bill_id
                amount_paid := paymentAmount
                remaining_amount :=
                  if isFullyPaid then .num 0 else totalAmount.subDouble finalPaidAmount
                bill_status := if isFullyPaid then "fully_paid" else "partially_paid" }
            store := w2, session := .committed
            ops := ops ++ [upd, ins, .commit, .release] }
  | _, _ =>
    -- a decimal column cannot hold `NaN`: the `UPDATE` statement throws
    payBillCatch faults s s (ops ++ [upd])

/-- The transaction of `payBill` (source lines 294 to 374), in double precision. -/
def payBillTransactionDouble (env : Env) (faults : Faults) (s : Store) (body : PayBody)
    (monthNum : JsNum) (year : JsValue) : Outcome :=
  let sel := Op.select body.subscriber_no monthNum year
  if faults .connect then
    { res := .error 500 "An error occurred while processing the payment."
      store := s, session := .notOpened, ops := [.connect] }
  else if faults .begin then
    payBillCatch faults s s [.connect, .begin]
  else if faults .select then
    payBillCatch faults s s [.connect, .begin, sel]
  else
    match selectBill env s.bills body.subscriber_no monthNum year with
    | none =>
      if faults .rollbackNotFound then
        payBillCatch faults s s [.connect, .begin, sel, .rollback]
      else
        { res := .error 404 "Bill not found for the specified subscriber and month."
          store := s, session := .rolledBack
          ops := [.connect, .begin, sel, .rollback, .release] }
    | some bill => payBillFoundDouble env faults s body [.connect, .begin, sel] bill

/-- The handler `payBill` of `billController.js`, in double precision. -/
def payBillDouble (env : Env) (faults : Faults) (s : Store) (body : PayBody) : Outcome :=
  if !body.subscriber_no.truthy || !body.month.truthy then
    reject s 400 "subscriber_no and month are required parameters."
  else if !body.amount.truthy || (env.toNumber body.amount).le (.num 0) then
    reject s 400 "amount is required and must be greater than 0."
  else
    let monthNum := env.parseInt body.month
    if monthNum.isNaN || monthNum.lt (.num 1) || monthNum.gt (.num 12) then
      reject s 400 "Month must be a number between 1 and 12."
    else
      payBillTransactionDouble env faults s body monthNum (yearOf env body)

/-- The durable store after successive calls of `payBill` in double precision. -/
def storeAfterDouble (env : Env) : Store → List (Faults × PayBody) → Store
  | s, [] => s
  | s, (faults, body) :: rest =>
    storeAfterDouble env (payBillDouble env faults s body).store rest

/-- The bill of subscriber `5551234567` for March 2024 with the decimal
amounts `total` and `paid`, not marked as paid. -/
def decimalBill (total paid : ℚ) : Bill :=
  { bill_id := 1, subscriber_no := "5551234567", month := 3, year := 2024
    total_amount := total, paid_amount := paid, paid_status := false }

/-- A store that holds `decimalBill total paid` and no transaction. -/
def decimalStore (total paid : ℚ) : Store :=
  { bills := [decimalBill total paid], transactions := [] }

/-- A pay request for the bill of March 2024 whose amount is the JSON number
written as the decimal `amount`: the parsed body holds the nearest double. -/
def decimalBody (amount : ℚ) : PayBody :=
  sampleBody (.number (.num (roundDouble amount)))

/-! ## Auxiliary lemmas -/

/-! ### Double precision: lemmas -/

/-- The bounds on the number of binary digits, with enough fuel. -/
theorem bitLengthAux_spec : ∀ fuel n, n ≤ fuel →
    n < 2 ^ bitLengthAux fuel n ∧ (n ≠ 0 → 2 ^ (bitLengthAux fuel n - 1) ≤ n)
  | 0, n, h => by
    have : n = 0 := by omega
    subst this
    simp [bitLengthAux]
  | fuel + 1, n, h => by
    unfold bitLengthAux
    by_cases hn : n = 0
    · simp [hn]
    · rw [if_neg hn]
      have hle : n / 2 ≤ fuel := by omega
      obtain ⟨h1, h2⟩ := bitLengthAux_spec fuel (n / 2) hle
      refine ⟨?_, fun _ => ?_⟩
      · rw [pow_succ]; omega
      · simp only [Nat.add_sub_cancel]
        by_cases h0 : n / 2 = 0
        · have hb : bitLengthAux fuel (n / 2) = 0 := by
            rw [h0]; cases fuel <;> simp [bitLengthAux]
          rw [hb]; simp; omega
        · have h3 := h2 h0
          have hpos : 0 < bitLengthAux fuel (n / 2) := by
            by_contra hc
            have hz : bitLengthAux fuel (n / 2) = 0 := by omega
            rw [hz] at h1
            simp at h1
            exact h0 h1
          have : bitLengthAux fuel (n / 2) = (bitLengthAux fuel (n / 2) - 1) + 1 := by omega
          rw [this, pow_succ]
          omega

/-- A number is below `2` to the power of its number of binary digits. -/
theorem bitLength_lt (n : Nat) : n < 2 ^ bitLength n :=
  (bitLengthAux_spec n n le_rfl).1

/-- A positive number is at least `2` to the power of its digits but one. -/
theorem bitLength_le (n : Nat) (h : n ≠ 0) : 2 ^ (bitLength n - 1) ≤ n :=
  (bitLengthAux_spec n n le_rfl).2 h

/-- A positive number has at least one binary digit. -/
theorem bitLength_pos (n : Nat) (h : n ≠ 0) : 0 < bitLength n := by
  by_contra hc
  have hz : bitLength n = 0 := by omega
  have := bitLength_lt n
  rw [hz] at this
  simp at this
  exact h this

/-- The binade of `q > 0` starts at or below `q`. -/
theorem binade_le (q : ℚ) (hq : 0 < q) : (2 : ℚ) ^ binade q ≤ q := by
  unfold binade
  split_ifs with h
  · exact h
  · have hnum : 0 < q.num := Rat.num_pos.mpr hq
    have hn0 : q.num.natAbs ≠ 0 := by
      intro h0
      have := Int.natAbs_eq_zero.mp h0
      omega
    have hd0 : q.den ≠ 0 := q.den_nz
    have h1 := bitLength_le q.num.natAbs hn0
    have h2 := bitLength_lt q.den
    have hp := bitLength_pos q.num.natAbs hn0
    have hq' : q = (q.num.natAbs : ℚ) / (q.den : ℚ) := by
      have hcast : ((q.num.natAbs : ℕ) : ℚ) = ((q.num : ℤ) : ℚ) := by
        rw [Nat.cast_natAbs, abs_of_pos hnum]
      rw [hcast]
      exact (Rat.num_div_den q).symm
    have he : (bitLength q.num.natAbs : ℤ) - (bitLength q.den : ℤ) - 1
        = ((bitLength q.num.natAbs - 1 : ℕ) : ℤ) - (bitLength q.den : ℤ) := by
      omega
    rw [he, zpow_sub₀ (by norm_num : (2 : ℚ) ≠ 0), zpow_natCast, zpow_natCast]
    have hdpos : (0 : ℚ) < (q.den : ℚ) := by exact_mod_cast Nat.pos_of_ne_zero hd0
    have h1' : ((2 : ℚ) ^ (bitLength q.num.natAbs - 1)) ≤ (q.num.natAbs : ℚ) := by
      exact_mod_cast h1
    have h2' : (q.den : ℚ) ≤ (2 : ℚ) ^ bitLength q.den := by
      exact_mod_cast h2.le
    calc (2 : ℚ) ^ (bitLength q.num.natAbs - 1) / (2 : ℚ) ^ bitLength q.den
        ≤ (q.num.natAbs : ℚ) / (2 : ℚ) ^ bitLength q.den := by
          apply div_le_div_of_nonneg_right h1' (by positivity)
      _ ≤ (q.num.natAbs : ℚ) / (q.den : ℚ) := by
          apply div_le_div_of_nonneg_left (by positivity) hdpos h2'
      _ = q := hq'.symm

/-- An integer is rounded to itself. -/
theorem roundHalfEven_intCast (m : ℤ) : roundHalfEven (m : ℚ) = m := by
  unfold roundHalfEven
  simp

/-- Rounding keeps a number that is not negative so. -/
theorem roundHalfEven_nonneg (x : ℚ) (hx : 0 ≤ x) : 0 ≤ roundHalfEven x := by
  have hf : 0 ≤ ⌊x⌋ := Int.floor_nonneg.mpr hx
  unfold roundHalfEven
  split_ifs <;> omega

/-- The spacing of the doubles is positive. -/
theorem ulp_pos (q : ℚ) : 0 < ulp q := by
  unfold ulp
  positivity

/-- The double nearest to a number that is not negative is not negative. -/
theorem roundDouble_nonneg (q : ℚ) (hq : 0 ≤ q) : 0 ≤ roundDouble q := by
  unfold roundDouble
  split_ifs with h0 hneg
  · exact le_rfl
  · exact absurd hq (not_le.mpr hneg)
  · have h1 : 0 ≤ q / ulp q := div_nonneg hq (ulp_pos q).le
    have h2 := roundHalfEven_nonneg _ h1
    have h3 : (0 : ℚ) ≤ ((roundHalfEven (q / ulp q) : ℤ) : ℚ) := by exact_mod_cast h2
    exact mul_nonneg h3 (ulp_pos q).le

/-- An integer whose binade is at most 52 is a double. -/
theorem roundDouble_intCast_of_binade_le (n : ℤ) (h : binade |(n : ℚ)| ≤ 52) :
    roundDouble (n : ℚ) = n := by
  have hk : ∃ k : ℕ, ulp (n : ℚ) = ((2 : ℚ) ^ k)⁻¹ := by
    refine ⟨(52 - max (binade |(n : ℚ)|) (-1022)).toNat, ?_⟩
    unfold ulp
    have hle : max (binade |(n : ℚ)|) (-1022) ≤ 52 := max_le h (by norm_num)
    rw [← zpow_natCast, ← zpow_neg]
    congr 1
    rw [Int.toNat_of_nonneg (by omega)]
    ring
  obtain ⟨k, hk⟩ := hk
  unfold roundDouble
  split_ifs with h0 hneg
  · exact h0.symm
  · rw [hk]
    have : -(n : ℚ) / ((2 : ℚ) ^ k)⁻¹ = ((-n * 2 ^ k : ℤ) : ℚ) := by
      push_cast; field_simp
    rw [this, roundHalfEven_intCast]
    push_cast
    field_simp
  · rw [hk]
    have : (n : ℚ) / ((2 : ℚ) ^ k)⁻¹ = ((n * 2 ^ k : ℤ) : ℚ) := by
      push_cast; field_simp
    rw [this, roundHalfEven_intCast]
    push_cast
    field_simp

/-- A number below `2 ^ k` has a binade below `k`. -/
theorem binade_lt_of_lt (q : ℚ) (hq : 0 < q) (k : ℤ) (h : q < (2 : ℚ) ^ k) : binade q < k := by
  have h1 := binade_le q hq
  have h2 : (2 : ℚ) ^ binade q < (2 : ℚ) ^ k := lt_of_le_of_lt h1 h
  exact (zpow_lt_zpow_iff_right₀ (by norm_num : (1 : ℚ) < 2)).mp h2

/-- Integers below `2 ^ 53` in magnitude are doubles. -/
theorem roundDouble_intCast (n : ℤ) (h : |n| < 2 ^ 53) : roundDouble (n : ℚ) = n := by
  by_cases h0 : n = 0
  · subst h0; simp [roundDouble]
  apply roundDouble_intCast_of_binade_le
  have hpos : (0 : ℚ) < |(n : ℚ)| := abs_pos.mpr (by exact_mod_cast h0)
  have hlt : |(n : ℚ)| < (2 : ℚ) ^ (53 : ℤ) := by
    have h1 : ((|n| : ℤ) : ℚ) < ((2 ^ 53 : ℤ) : ℚ) := by exact_mod_cast h
    have h2 : ((|n| : ℤ) : ℚ) = |(n : ℚ)| := by simp
    rw [h2] at h1
    calc |(n : ℚ)| < ((2 ^ 53 : ℤ) : ℚ) := h1
      _ = (2 : ℚ) ^ (53 : ℤ) := by norm_num
  have := binade_lt_of_lt _ hpos 53 hlt
  omega

/-- The double nearest to an integer is an integer. -/
theorem roundDouble_intCast_isInt (n : ℤ) : ∃ k : ℤ, roundDouble (n : ℚ) = k := by
  by_cases h : binade |(n : ℚ)| ≤ 52
  · exact ⟨n, roundDouble_intCast_of_binade_le n h⟩
  · have hk : ulp (n : ℚ) = (((2 : ℤ) ^ (max (binade |(n : ℚ)|) (-1022) - 52).toNat : ℤ) : ℚ) := by
      unfold ulp
      have hle : 0 ≤ max (binade |(n : ℚ)|) (-1022) - 52 := by
        have := le_max_left (binade |(n : ℚ)|) (-1022)
        omega
      push_cast
      rw [← zpow_natCast, Int.toNat_of_nonneg hle]
    unfold roundDouble
    split_ifs with h0 hneg
    · exact ⟨0, by simp⟩
    · rw [hk]
      exact ⟨-(roundHalfEven (-(n : ℚ) / (((2 : ℤ) ^ (max (binade |(n : ℚ)|) (-1022) - 52).toNat
        : ℤ) : ℚ))) * (2 : ℤ) ^ (max (binade |(n : ℚ)|) (-1022) - 52).toNat, by push_cast; rfl⟩
    · rw [hk]
      exact ⟨(roundHalfEven ((n : ℚ) / (((2 : ℤ) ^ (max (binade |(n : ℚ)|) (-1022) - 52).toNat
        : ℤ) : ℚ))) * (2 : ℤ) ^ (max (binade |(n : ℚ)|) (-1022) - 52).toNat, by push_cast; rfl⟩


/-- The binade of `q > 0` ends above `q`. -/
theorem lt_binade (q : ℚ) (hq : 0 < q) : q < (2 : ℚ) ^ (binade q + 1) := by
  unfold binade
  split_ifs with h
  · have hnum : 0 < q.num := Rat.num_pos.mpr hq
    have hd0 : q.den ≠ 0 := q.den_nz
    have h1 := bitLength_lt q.num.natAbs
    have h2 := bitLength_le q.den hd0
    have hp := bitLength_pos q.den hd0
    have hq' : q = (q.num.natAbs : ℚ) / (q.den : ℚ) := by
      have hcast : ((q.num.natAbs : ℕ) : ℚ) = ((q.num : ℤ) : ℚ) := by
        rw [Nat.cast_natAbs, abs_of_pos hnum]
      rw [hcast]
      exact (Rat.num_div_den q).symm
    have he : (bitLength q.num.natAbs : ℤ) - (bitLength q.den : ℤ) + 1
        = (bitLength q.num.natAbs : ℤ) - ((bitLength q.den - 1 : ℕ) : ℤ) := by
      omega
    rw [he, zpow_sub₀ (by norm_num : (2 : ℚ) ≠ 0), zpow_natCast, zpow_natCast]
    have hdpos : (0 : ℚ) < (q.den : ℚ) := by exact_mod_cast Nat.pos_of_ne_zero hd0
    have h1' : (q.num.natAbs : ℚ) < (2 : ℚ) ^ bitLength q.num.natAbs := by
      exact_mod_cast h1
    have h2' : (2 : ℚ) ^ (bitLength q.den - 1) ≤ (q.den : ℚ) := by
      exact_mod_cast h2
    calc q = (q.num.natAbs : ℚ) / (q.den : ℚ) := hq'
      _ < (2 : ℚ) ^ bitLength q.num.natAbs / (q.den : ℚ) := by
          apply div_lt_div_of_pos_right h1' hdpos
      _ ≤ (2 : ℚ) ^ bitLength q.num.natAbs / (2 : ℚ) ^ (bitLength q.den - 1) := by
          apply div_le_div_of_nonneg_left (by positivity) (by positivity) h2'
  · rw [sub_add_cancel]
    exact not_le.mp h

/-- Rounding to an integer moves a number by at most one half. -/
theorem roundHalfEven_error (x : ℚ) : |((roundHalfEven x : ℤ) : ℚ) - x| ≤ 1 / 2 := by
  have h1 := Int.floor_le x
  have h2 := Int.lt_floor_add_one x
  unfold roundHalfEven
  rw [abs_le]
  split_ifs with a b c
  · constructor <;> linarith
  · push_cast; constructor <;> linarith
  · push_neg at a b
    constructor <;> linarith
  · push_neg at a b
    push_cast
    constructor <;> linarith

/-- The double nearest to `q` is within half a spacing of `q`. -/
theorem roundDouble_error (q : ℚ) : |roundDouble q - q| ≤ ulp q / 2 := by
  have hu := ulp_pos q
  unfold roundDouble
  split_ifs with h0 hneg
  · rw [h0, sub_self, abs_zero]
    exact (half_pos (ulp_pos 0)).le
  · have h := roundHalfEven_error (-q / ulp q)
    have e : -((roundHalfEven (-q / ulp q) : ℤ) : ℚ) * ulp q - q
        = -((((roundHalfEven (-q / ulp q) : ℤ) : ℚ) - -q / ulp q) * ulp q) := by
      field_simp
      ring
    rw [e, abs_neg, abs_mul, abs_of_pos hu]
    calc |((roundHalfEven (-q / ulp q) : ℤ) : ℚ) - -q / ulp q| * ulp q
        ≤ 1 / 2 * ulp q := mul_le_mul_of_nonneg_right h hu.le
      _ = ulp q / 2 := by ring
  · have h := roundHalfEven_error (q / ulp q)
    have e : ((roundHalfEven (q / ulp q) : ℤ) : ℚ) * ulp q - q
        = (((roundHalfEven (q / ulp q) : ℤ) : ℚ) - q / ulp q) * ulp q := by
      field_simp
    rw [e, abs_mul, abs_of_pos hu]
    calc |((roundHalfEven (q / ulp q) : ℤ) : ℚ) - q / ulp q| * ulp q
        ≤ 1 / 2 * ulp q := mul_le_mul_of_nonneg_right h hu.le
      _ = ulp q / 2 := by ring

/-- The bill query looks at the key columns only. -/
theorem billMatches_update (env : Env) (sub : JsValue) (m : JsNum) (y : JsValue) (b : Bill)
    (p : ℚ) (st : Bool) :
    billMatches env sub m y { b with paid_amount := p, paid_status := st }
      = billMatches env sub m y b := rfl

/-- Updating balances does not change which row the bill query finds. -/
theorem selectBill_updateBill (env : Env) (bills : List Bill) (id : Nat) (p : ℚ) (st : Bool)
    (sub : JsValue) (m : JsNum) (y : JsValue) :
    selectBill env (updateBill bills id p st) sub m y
      = (selectBill env bills sub m y).map fun b =>
          if b.bill_id = id then { b with paid_amount := p, paid_status := st } else b := by
  have hcomp : (billMatches env sub m y ∘ fun b : Bill =>
      if b.bill_id = id then { b with paid_amount := p, paid_status := st } else b)
      = billMatches env sub m y := by
    funext b
    by_cases hid : b.bill_id = id
    · simp only [Function.comp, hid, if_true]; rfl
    · simp only [Function.comp, hid, if_false]
  unfold selectBill updateBill
  rw [List.find?_map, hcomp]

/-- The row found by the bill query carries the identifier that is updated. -/
theorem selectBill_updateBill_self (env : Env) (bills : List Bill) (bill : Bill) (p : ℚ)
    (st : Bool) (sub : JsValue) (m : JsNum) (y : JsValue)
    (h : selectBill env bills sub m y = some bill) :
    selectBill env (updateBill bills bill.bill_id p st) sub m y
      = some { bill with paid_amount := p, paid_status := st } := by
  rw [selectBill_updateBill, h]; simp

/-- A call that passes validation, meets no fault on its path, finds `bill`
and reads the amount as `a` goes through. -/
theorem payBill_eq_paidOutcome (env : Env) (faults : Faults) (s : Store) (body : PayBody)
    (bill : Bill) (a : ℚ) (hv : passesValidation env body = true)
    (hf : faults.payPathClear)
    (hbill : selectBill env s.bills body.subscriber_no (env.parseInt body.month)
      (yearOf env body) = some bill)
    (ha : env.parseFloat body.amount = .num a) :
    payBill env faults s body = paidOutcome env s body bill a := by
  obtain ⟨f1, f2, f3, f4, f5, f6⟩ := hf
  simp only [passesValidation, Bool.and_eq_true, Bool.not_eq_true', Bool.or_eq_false_iff] at hv
  obtain ⟨⟨⟨⟨v1, v2⟩, v3⟩, v4⟩, ⟨v5, v6⟩, v7⟩ := hv
  simp [payBill, payBillTransaction, payBillFound, paidOutcome, v1, v2, v3, v4, v5, v6, v7,
    f1, f2, f3, f4, f5, f6, hbill, ha, JsNum.add, JsNum.min, JsNum.ge, JsNum.sub]

/-- A call that found `bill` and was answered with status 200 met no fault
after the query and read a finite amount. -/
theorem payBillFound_success_inv (env : Env) (faults : Faults) (s : Store) (body : PayBody)
    (ops : List Op) (bill : Bill)
    (hok : (payBillFound env faults s body ops bill).res.status = 200) :
    faults .update = false ∧ faults .insert = false ∧ faults .commit = false ∧
      ∃ a, env.parseFloat body.amount = .num a := by
  unfold payBillFound at hok
  cases hp : env.parseFloat body.amount with
  | nan => simp [hp, JsNum.add, JsNum.min, payBillCatch, Response.status] at hok
  | num a =>
    simp only [hp, JsNum.add, JsNum.min] at hok
    by_cases f4 : faults .update = true
    · simp [f4, payBillCatch, Response.status] at hok
    by_cases f5 : faults .insert = true
    · simp [f4, f5, payBillCatch, Response.status] at hok
    by_cases f6 : faults .commit = true
    · simp [f4, f5, f6, payBillCatch, Response.status] at hok
    simp only [Bool.not_eq_true] at f4 f5 f6
    exact ⟨f4, f5, f6, a, rfl⟩

/-- A transaction answered with status 200 met no fault on its path, found a
bill and read a finite amount. -/
theorem payBillTransaction_success_inv (env : Env) (faults : Faults) (s : Store)
    (body : PayBody) (m : JsNum) (y : JsValue)
    (hok : (payBillTransaction env faults s body m y).res.status = 200) :
    faults.payPathClear ∧
      ∃ bill a, selectBill env s.bills body.subscriber_no m y = some bill ∧
        env.parseFloat body.amount = .num a := by
  unfold payBillTransaction at hok
  by_cases f1 : faults .connect = true
  · simp [f1, Response.status] at hok
  by_cases f2 : faults .begin = true
  · simp [f1, f2, payBillCatch, Response.status] at hok
  by_cases f3 : faults .select = true
  · simp [f1, f2, f3, payBillCatch, Response.status] at hok
  simp only [Bool.not_eq_true] at f1 f2 f3
  simp only [f1, f2, f3] at hok
  cases hsel : selectBill env s.bills body.subscriber_no m y with
  | none =>
    by_cases f : faults .rollbackNotFound = true
    · simp [hsel, f, payBillCatch, Response.status] at hok
    · simp [hsel, f, Response.status] at hok
  | some bill =>
    simp only [hsel] at hok
    obtain ⟨f4, f5, f6, a, ha⟩ := payBillFound_success_inv env faults s body _ bill (by simpa using hok)
    exact ⟨⟨f1, f2, f3, f4, f5, f6⟩, bill, a, rfl, ha⟩

/-- A call answered with status 200 passed validation, met no fault on its
path, found a bill and read a finite amount. -/
theorem payBill_success_inv (env : Env) (faults : Faults) (s : Store) (body : PayBody)
    (hok : (payBill env faults s body).res.status = 200) :
    passesValidation env body = true ∧ faults.payPathClear ∧
      ∃ bill a, selectBill env s.bills body.subscriber_no (env.parseInt body.month)
          (yearOf env body) = some bill ∧ env.parseFloat body.amount = .num a := by
  unfold payBill at hok
  by_cases h1 : (!body.subscriber_no.truthy || !body.month.truthy) = true
  · simp [h1, reject, Response.status] at hok
  by_cases h2 : (!body.amount.truthy || (env.toNumber body.amount).le (.num 0)) = true
  · simp [h1, h2, reject, Response.status] at hok
  by_cases h3 : ((env.parseInt body.month).isNaN || (env.parseInt body.month).lt (.num 1)
      || (env.parseInt body.month).gt (.num 12)) = true
  · simp [h1, h2, h3, reject, Response.status] at hok
  simp only [h1, h2, h3, if_false] at hok
  refine ⟨?_, payBillTransaction_success_inv env faults s body _ _ hok⟩
  simp only [Bool.not_eq_true, Bool.or_eq_false_iff, Bool.not_eq_false'] at h1 h2 h3
  simp [passesValidation, h1, h2, h3]

/-- A call answered with status 200 is the outcome `paidOutcome`. -/
theorem payBill_success_eq (env : Env) (faults : Faults) (s : Store) (body : PayBody)
    (bill : Bill) (a : ℚ)
    (hbill : selectBill env s.bills body.subscriber_no (env.parseInt body.month)
      (yearOf env body) = some bill)
    (ha : env.parseFloat body.amount = .num a)
    (hok : (payBill env faults s body).res.status = 200) :
    payBill env faults s body = paidOutcome env s body bill a := by
  obtain ⟨hv, hf, _⟩ := payBill_success_inv env faults s body hok
  exact payBill_eq_paidOutcome env faults s body bill a hv hf hbill ha

/-- A request that names its bill and carries a number above zero passes validation. -/
theorem passesValidation_of_pos (env : Env) (body : PayBody) (a : ℚ)
    (hreq : namesBill env body) (hamount : body.amount = .number (.num a)) (ha : 0 < a) :
    passesValidation env body = true := by
  obtain ⟨h1, h2, h3, h4, h5⟩ := hreq
  have hne : a ≠ 0 := ne_of_gt ha
  have hle : ¬ a ≤ 0 := not_le.mpr ha
  have h6 : body.amount.truthy = true := by rw [hamount]; simp [JsValue.truthy, hne]
  have h7 : (env.toNumber body.amount).le (.num 0) = false := by
    rw [hamount]; simp [Env.toNumber, JsNum.le, ha]
  simp [passesValidation, h1, h2, h3, h4, h5, h6, h7]

/-- The `catch` path answers 500, leaves the durable store as it was and never
commits; the transaction is rolled back when `ROLLBACK` succeeds. -/
theorem payBillCatch_spec (faults : Faults) (s work : Store) (ops : List Op) :
    (payBillCatch faults s work ops).res
        = .error 500 "An error occurred while processing the payment." ∧
      (payBillCatch faults s work ops).store = s ∧
      (payBillCatch faults s work ops).session ≠ .committed ∧
      (faults .rollback = false → (payBillCatch faults s work ops).session = .rolledBack) := by
  refine ⟨rfl, rfl, ?_, fun h => by simp [payBillCatch, h]⟩
  unfold payBillCatch
  split_ifs <;> simp

/-- After the bill was found, nothing becomes durable unless the answer is 200. -/
theorem payBillFound_store_eq_of_error (env : Env) (faults : Faults) (s : Store)
    (body : PayBody) (ops : List Op) (bill : Bill)
    (herr : (payBillFound env faults s body ops bill).res.status ≠ 200) :
    (payBillFound env faults s body ops bill).store = s := by
  unfold payBillFound at herr ⊢
  cases hp : env.parseFloat body.amount with
  | nan => simp [JsNum.add, JsNum.min, payBillCatch]
  | num a =>
    simp only [hp, JsNum.add, JsNum.min] at herr ⊢
    by_cases f4 : faults .update = true
    · simp [f4, payBillCatch]
    by_cases f5 : faults .insert = true
    · simp [f4, f5, payBillCatch]
    by_cases f6 : faults .commit = true
    · simp [f4, f5, f6, payBillCatch]
    · simp [f4, f5, f6, Response.status] at herr

/-- The transaction makes nothing durable unless the answer is 200. -/
theorem payBillTransaction_store_eq_of_error (env : Env) (faults : Faults) (s : Store)
    (body : PayBody) (m : JsNum) (y : JsValue)
    (herr : (payBillTransaction env faults s body m y).res.status ≠ 200) :
    (payBillTransaction env faults s body m y).store = s := by
  unfold payBillTransaction at herr ⊢
  by_cases f1 : faults .connect = true
  · simp [f1]
  by_cases f2 : faults .begin = true
  · simp [f1, f2, payBillCatch]
  by_cases f3 : faults .select = true
  · simp [f1, f2, f3, payBillCatch]
  simp only [Bool.not_eq_true] at f1 f2 f3
  simp only [f1, f2, f3] at herr ⊢
  cases hsel : selectBill env s.bills body.subscriber_no m y with
  | none =>
    by_cases f : faults .rollbackNotFound = true
    · simp [f, payBillCatch]
    · simp [f]
  | some bill =>
    simp only [hsel] at herr
    simpa using payBillFound_store_eq_of_error env faults s body _ bill (by simpa using herr)

/-- No call writes to the durable store unless it is answered with status 200. -/
theorem payBill_store_eq_of_error (env : Env) (faults : Faults) (s : Store) (body : PayBody)
    (herr : (payBill env faults s body).res.status ≠ 200) :
    (payBill env faults s body).store = s := by
  unfold payBill at herr ⊢
  by_cases h1 : (!body.subscriber_no.truthy || !body.month.truthy) = true
  · simp [h1, reject]
  by_cases h2 : (!body.amount.truthy || (env.toNumber body.amount).le (.num 0)) = true
  · simp [h1, h2, reject]
  by_cases h3 : ((env.parseInt body.month).isNaN || (env.parseInt body.month).lt (.num 1)
      || (env.parseInt body.month).gt (.num 12)) = true
  · simp [h1, h2, h3, reject]
  simp only [h1, h2, h3, if_false] at herr ⊢
  exact payBillTransaction_store_eq_of_error env faults s body _ _ herr

/-- With an amount that `parseFloat` reads as `a ≥ 0`, a successful `payBill`
keeps `0 ≤ paid_amount ≤ total_amount` on the bill. -/
theorem payBill_keeps_bounds_of_nonneg (env : Env) (faults : Faults) (s : Store)
    (body : PayBody) (bill : Bill) (a : ℚ)
    (hbill : selectBill env s.bills body.subscriber_no (env.parseInt body.month)
      (yearOf env body) = some bill)
    (hinv : 0 ≤ bill.paid_amount ∧ bill.paid_amount ≤ bill.total_amount)
    (hamount : env.parseFloat body.amount = .num a) (ha : 0 ≤ a)
    (hok : (payBill env faults s body).res.status = 200) :
    ∃ b, selectBill env (payBill env faults s body).store.bills body.subscriber_no
          (env.parseInt body.month) (yearOf env body) = some b ∧
        0 ≤ b.paid_amount ∧ b.paid_amount ≤ b.total_amount := by
  rw [payBill_success_eq env faults s body bill a hbill hamount hok]
  refine ⟨_, selectBill_updateBill_self env s.bills bill _ _ _ _ _ hbill, ?_, ?_⟩
  · exact le_min (by linarith [hinv.1]) (by linarith [hinv.1, hinv.2])
  · exact min_le_right _ _

/-! ## The claims -/

/-- C2: a payment with `paid_amount + a > total_amount` on an existing bill is
not refused: `payBill` answers with success, `remaining_amount = 0` and
`bill_status = "fully_paid"`, and the stored `paid_amount` is `total_amount`,
not `paid_amount + a`. -/
theorem payBill_overpayment_is_clamped (env : Env) (faults : Faults) (s : Store)
    (body : PayBody) (bill : Bill) (a : ℚ)
    (hreq : namesBill env body) (hf : faults.payPathClear)
    (hbill : selectBill env s.bills body.subscriber_no (env.parseInt body.month)
      (yearOf env body) = some bill)
    (hamount : body.amount = .number (.num a))
    (hdom : 0 < a ∨ bill.paid_amount ≤ bill.total_amount)
    (hover : bill.total_amount < bill.paid_amount + a) :
    (∃ d, (payBill env faults s body).res = .success d ∧ d.amount_paid = .num a ∧
        d.remaining_amount = .num 0 ∧ d.bill_status = "fully_paid") ∧
      selectBill env (payBill env faults s body).store.bills body.subscriber_no
          (env.parseInt body.month) (yearOf env body)
        = some { bill with paid_amount := bill.total_amount, paid_status := true } := by
  have ha : 0 < a := by
    rcases hdom with h | h
    · exact h
    · linarith
  have hv := passesValidation_of_pos env body a hreq hamount ha
  have hpf : env.parseFloat body.amount = .num a := by rw [hamount]; rfl
  rw [payBill_eq_paidOutcome env faults s body bill a hv hf hbill hpf]
  have hfull : bill.total_amount ≤ bill.paid_amount + a := le_of_lt hover
  refine ⟨⟨_, rfl, rfl, ?_, ?_⟩, ?_⟩
  · simp [hfull]
  · simp [hfull]
  · have h := selectBill_updateBill_self env s.bills bill
      (min (bill.paid_amount + a) bill.total_amount)
      (decide (bill.total_amount ≤ bill.paid_amount + a)) _ _ _ hbill
    simpa [paidOutcome, hfull] using h

/-- C3: a pay request that gives subscriber and month and whose amount is a
number `a ≤ 0` is answered with the invalid-amount error, and no store
operation is performed: the store is unchanged, no transaction is opened and
the list of issued operations is empty. -/
theorem payBill_nonpositive_amount_rejected (env : Env) (faults : Faults) (s : Store)
    (body : PayBody) (a : ℚ)
    (hsub : body.subscriber_no.truthy = true) (hmonth : body.month.truthy = true)
    (hamount : body.amount = .number (.num a)) (ha : a ≤ 0) :
    payBill env faults s body =
      { res := .error 400 "amount is required and must be greater than 0."
        store := s, session := .notOpened, ops := [] } := by
  simp [payBill, reject, hsub, hmonth, hamount, Env.toNumber, JsNum.le, ha]

theorem payBill_overpayment_is_clamped_witness :
    namesBill decimalEnv (sampleBody (.number (.num 250))) ∧ noFaults.payPathClear ∧
      (∃ d, (payBill decimalEnv noFaults sampleStore (sampleBody (.number (.num 250)))).res
          = .success d ∧ d.amount_paid = .num 250 ∧
          d.remaining_amount = .num 0 ∧ d.bill_status = "fully_paid") ∧
      selectBill decimalEnv
          (payBill decimalEnv noFaults sampleStore (sampleBody (.number (.num 250)))).store.bills
          (sampleBody (.number (.num 250))).subscriber_no
          (decimalEnv.parseInt (sampleBody (.number (.num 250))).month)
          (yearOf decimalEnv (sampleBody (.number (.num 250))))
        = some { sampleBill with paid_amount := sampleBill.total_amount, paid_status := true } :=
  ⟨by decide!, by decide!,
    payBill_overpayment_is_clamped decimalEnv noFaults sampleStore
      (sampleBody (.number (.num 250))) sampleBill 250 (by decide!) (by decide!) (by decide!)
      rfl (Or.inl (by norm_num)) (by decide!)⟩

theorem payBill_nonpositive_amount_rejected_witness :
    (sampleBody (.number (.num (-5)))).subscriber_no.truthy = true ∧
      (sampleBody (.number (.num (-5)))).month.truthy = true ∧
      payBill decimalEnv noFaults sampleStore (sampleBody (.number (.num (-5)))) =
        { res := .error 400 "amount is required and must be greater than 0."
          store := sampleStore, session := .notOpened, ops := [] } :=
  ⟨by decide!, by decide!,
    payBill_nonpositive_amount_rejected decimalEnv noFaults sampleStore
      (sampleBody (.number (.num (-5)))) (-5) (by decide!) (by decide!) rfl (by norm_num)⟩

/-- C5: on a successful `payBill` the inserted transaction record and the
`amount_paid` of the response both carry the requested amount `a` (the amount
as `parseFloat` reads it, the amount itself when it is a number), not the
clamped balance; exactly one record is appended. -/
theorem payBill_records_requested_amount (env : Env) (faults : Faults) (s : Store)
    (body : PayBody) (a : ℚ) (hamount : env.parseFloat body.amount = .num a)
    (hok : (payBill env faults s body).res.status = 200) :
    (∃ d, (payBill env faults s body).res = .success d ∧ d.amount_paid = .num a) ∧
      ∃ t, (payBill env faults s body).store.transactions = s.transactions ++ [t] ∧
        t.amount = a ∧ t.status = "completed" := by
  obtain ⟨_, _, bill, a', hbill, ha'⟩ := payBill_success_inv env faults s body hok
  rw [payBill_success_eq env faults s body bill a hbill hamount hok]
  exact ⟨⟨_, rfl, rfl⟩, _, rfl, rfl, rfl⟩

theorem payBill_records_requested_amount_witness :
    decimalEnv.parseFloat (sampleBody (.number (.num 250))).amount = .num 250 ∧
      (payBill decimalEnv noFaults sampleStore (sampleBody (.number (.num 250)))).res.status
        = 200 ∧
      (∃ d, (payBill decimalEnv noFaults sampleStore (sampleBody (.number (.num 250)))).res
          = .success d ∧ d.amount_paid = .num 250) ∧
      ∃ t, (payBill decimalEnv noFaults sampleStore
            (sampleBody (.number (.num 250)))).store.transactions
          = sampleStore.transactions ++ [t] ∧ t.amount = 250 ∧ t.status = "completed" :=
  ⟨by decide!, by decide!,
    payBill_records_requested_amount decimalEnv noFaults sampleStore
      (sampleBody (.number (.num 250))) 250 (by decide!) (by decide!)⟩

/-- C6: after a successful `payBill` the stored `paid_status` of the bill is
true if and only if its stored `paid_amount` equals its `total_amount`, and the
returned `bill_status` is `"fully_paid"` in exactly that case. -/
theorem payBill_status_iff_paid_in_full (env : Env) (faults : Faults) (s : Store)
    (body : PayBody) (hok : (payBill env faults s body).res.status = 200) :
    ∃ b d, selectBill env (payBill env faults s body).store.bills body.subscriber_no
          (env.parseInt body.month) (yearOf env body) = some b ∧
        (payBill env faults s body).res = .success d ∧
        (b.paid_status = true ↔ b.paid_amount = b.total_amount) ∧
        (d.bill_status = "fully_paid" ↔ b.paid_amount = b.total_amount) := by
  obtain ⟨_, _, bill, a, hbill, ha⟩ := payBill_success_inv env faults s body hok
  rw [payBill_success_eq env faults s body bill a hbill ha hok]
  refine ⟨_, _, selectBill_updateBill_self env s.bills bill _ _ _ _ _ hbill, rfl, ?_, ?_⟩
  · simp
  · by_cases h : bill.total_amount ≤ bill.paid_amount + a <;> simp [h]

theorem payBill_status_iff_paid_in_full_witness :
    (payBill decimalEnv noFaults sampleStore (sampleBody (.number (.num 80)))).res.status = 200 ∧
      ∃ b d, selectBill decimalEnv
            (payBill decimalEnv noFaults sampleStore (sampleBody (.number (.num 80)))).store.bills
            (sampleBody (.number (.num 80))).subscriber_no
            (decimalEnv.parseInt (sampleBody (.number (.num 80))).month)
            (yearOf decimalEnv (sampleBody (.number (.num 80)))) = some b ∧
        (payBill decimalEnv noFaults sampleStore (sampleBody (.number (.num 80)))).res
          = .success d ∧
        (b.paid_status = true ↔ b.paid_amount = b.total_amount) ∧
        (d.bill_status = "fully_paid" ↔ b.paid_amount = b.total_amount) :=
  ⟨by decide!,
    payBill_status_iff_paid_in_full decimalEnv noFaults sampleStore
      (sampleBody (.number (.num 80))) (by decide!)⟩

/-- C8 fails on the code: the guard tests `amount <= 0` on the raw value,
which is false for the string `"-50 TL"` (it converts to `NaN`), while the
balance is computed from `parseFloat(amount) = -50`.  On a bill with
`0 ≤ paid_amount ≤ total_amount` the request is accepted and the stored
`paid_amount` becomes `-50`. -/
theorem payBill_negative_amount_accepted :
    (0 ≤ sampleBill.paid_amount ∧ sampleBill.paid_amount ≤ sampleBill.total_amount) ∧
      (payBill decimalEnv noFaults sampleStore (sampleBody (.string "-50 TL"))).res
        = .success
            { transaction_id := 1, transaction_status := "completed", bill_id := 1
              amount_paid := .num (-50), remaining_amount := .num 250
              bill_status := "partially_paid" } ∧
      selectBill decimalEnv
          (payBill decimalEnv noFaults sampleStore (sampleBody (.string "-50 TL"))).store.bills
          (sampleBody (.string "-50 TL")).subscriber_no
          (decimalEnv.parseInt (sampleBody (.string "-50 TL")).month)
          (yearOf decimalEnv (sampleBody (.string "-50 TL")))
        = some { sampleBill with paid_amount := -50 } ∧
      ¬ (0 : ℚ) ≤ -50 := by
  decide!

/-- C9: a pay request with a valid amount and month for which the bill query
finds no bill leaves the store unchanged and issues no write (so no bill is
created or changed and no transaction record is inserted); when the store
steps on that path do not fail, the answer is the not-found error and the
transaction is rolled back. -/
theorem payBill_bill_not_found (env : Env) (faults : Faults) (s : Store) (body : PayBody)
    (a : ℚ) (hreq : namesBill env body) (hamount : body.amount = .number (.num a))
    (ha : 0 < a)
    (hnone : selectBill env s.bills body.subscriber_no (env.parseInt body.month)
      (yearOf env body) = none) :
    (payBill env faults s body).store = s ∧
      (∀ op ∈ (payBill env faults s body).ops, op.isWrite = false) ∧
      (faults .connect = false → faults .begin = false → faults .select = false →
        faults .rollbackNotFound = false →
        payBill env faults s body =
          { res := .error 404 "Bill not found for the specified subscriber and month."
            store := s, session := .rolledBack
            ops := [.connect, .begin,
              .select body.subscriber_no (env.parseInt body.month) (yearOf env body),
              .rollback, .release] }) := by
  have hv := passesValidation_of_pos env body a hreq hamount ha
  simp only [passesValidation, Bool.and_eq_true, Bool.not_eq_true', Bool.or_eq_false_iff] at hv
  obtain ⟨⟨⟨⟨v1, v2⟩, v3⟩, v4⟩, ⟨v5, v6⟩, v7⟩ := hv
  have hpay : payBill env faults s body
      = payBillTransaction env faults s body (env.parseInt body.month) (yearOf env body) := by
    simp [payBill, v1, v2, v3, v4, v5, v6, v7]
  rw [hpay]
  unfold payBillTransaction
  refine ⟨?_, ?_, ?_⟩
  · simp only [hnone]; split_ifs <;> rfl
  · simp only [hnone]
    split_ifs <;> simp [payBillCatch, Op.isWrite]
  · intro f1 f2 f3 f4
    simp [hnone, f1, f2, f3, f4]

theorem payBill_bill_not_found_witness :
    (namesBill decimalEnv (sampleBody (.number (.num 80))) ∧
      selectBill decimalEnv ([] : List Bill) (sampleBody (.number (.num 80))).subscriber_no
        (decimalEnv.parseInt (sampleBody (.number (.num 80))).month)
        (yearOf decimalEnv (sampleBody (.number (.num 80)))) = none) ∧
    ((payBill decimalEnv noFaults { bills := [], transactions := [] }
          (sampleBody (.number (.num 80)))).store = { bills := [], transactions := [] } ∧
      (∀ op ∈ (payBill decimalEnv noFaults { bills := [], transactions := [] }
          (sampleBody (.number (.num 80)))).ops, op.isWrite = false) ∧
      (noFaults .connect = false → noFaults .begin = false → noFaults .select = false →
        noFaults .rollbackNotFound = false →
        payBill decimalEnv noFaults { bills := [], transactions := [] }
            (sampleBody (.number (.num 80))) =
          { res := .error 404 "Bill not found for the specified subscriber and month."
            store := { bills := [], transactions := [] }, session := .rolledBack
            ops := [.connect, .begin,
              .select (sampleBody (.number (.num 80))).subscriber_no
                (decimalEnv.parseInt (sampleBody (.number (.num 80))).month)
                (yearOf decimalEnv (sampleBody (.number (.num 80)))),
              .rollback, .release] })) :=
  ⟨⟨by decide!, by decide!⟩,
    payBill_bill_not_found decimalEnv noFaults { bills := [], transactions := [] }
      (sampleBody (.number (.num 80))) 80 (by decide!) rfl (by norm_num) (by decide!)⟩

/-- C10: when the bill has been located and the `UPDATE` or the `INSERT` step
fails, `payBill` answers with the error 500 and the durable store is what it
was before the call: nothing is committed, and the transaction is rolled back
whenever the `ROLLBACK` step itself succeeds. -/
theorem payBill_atomic_on_failure (env : Env) (faults : Faults) (s : Store) (body : PayBody)
    (bill : Bill) (hv : passesValidation env body = true)
    (hconnect : faults .connect = false) (hbegin : faults .begin = false)
    (hselect : faults .select = false)
    (hbill : selectBill env s.bills body.subscriber_no (env.parseInt body.month)
      (yearOf env body) = some bill)
    (hfail : faults .update = true ∨ faults .insert = true) :
    (payBill env faults s body).res
        = .error 500 "An error occurred while processing the payment." ∧
      (payBill env faults s body).store = s ∧
      (payBill env faults s body).session ≠ .committed ∧
      (faults .rollback = false → (payBill env faults s body).session = .rolledBack) := by
  simp only [passesValidation, Bool.and_eq_true, Bool.not_eq_true', Bool.or_eq_false_iff] at hv
  obtain ⟨⟨⟨⟨v1, v2⟩, v3⟩, v4⟩, ⟨v5, v6⟩, v7⟩ := hv
  have hpay : payBill env faults s body
      = payBillFound env faults s body [.connect, .begin,
          .select body.subscriber_no (env.parseInt body.month) (yearOf env body)] bill := by
    simp [payBill, payBillTransaction, v1, v2, v3, v4, v5, v6, v7, hconnect, hbegin, hselect,
      hbill]
  rw [hpay]
  unfold payBillFound
  cases hp : env.parseFloat body.amount with
  | nan =>
    simp only [JsNum.add, JsNum.min]
    exact payBillCatch_spec faults s s _
  | num a =>
    simp only [JsNum.add, JsNum.min]
    by_cases f4 : faults .update = true
    · simp only [f4, if_true]
      exact payBillCatch_spec faults s s _
    · have f5 : faults .insert = true := by
        rcases hfail with h | h
        · exact absurd h f4
        · exact h
      simp only [f4, f5, if_true, if_false]
      exact payBillCatch_spec faults s _ _

theorem payBill_atomic_on_failure_witness :
    (passesValidation decimalEnv (sampleBody (.number (.num 80))) = true ∧
      failsAt .insert .connect = false ∧ failsAt .insert .begin = false ∧
      failsAt .insert .select = false ∧
      selectBill decimalEnv sampleStore.bills (sampleBody (.number (.num 80))).subscriber_no
        (decimalEnv.parseInt (sampleBody (.number (.num 80))).month)
        (yearOf decimalEnv (sampleBody (.number (.num 80)))) = some sampleBill ∧
      (failsAt .insert .update = true ∨ failsAt .insert .insert = true)) ∧
    ((payBill decimalEnv (failsAt .insert) sampleStore (sampleBody (.number (.num 80)))).res
        = .error 500 "An error occurred while processing the payment." ∧
      (payBill decimalEnv (failsAt .insert) sampleStore (sampleBody (.number (.num 80)))).store
        = sampleStore ∧
      (payBill decimalEnv (failsAt .insert) sampleStore (sampleBody (.number (.num 80)))).session
        ≠ .committed ∧
      (failsAt .insert .rollback = false →
        (payBill decimalEnv (failsAt .insert) sampleStore
          (sampleBody (.number (.num 80)))).session = .rolledBack)) ∧
    (payBill decimalEnv (failsAt .insert) sampleStore (sampleBody (.number (.num 80)))).ops
      = [.connect, .begin,
          .select (.string "5551234567") (.num 3) (.number (.num 2024)),
          .update (.num 80) false 1, .insert 1 (.string "5551234567") (.num 80),
          .rollback, .release] :=
  ⟨⟨by decide!, by decide!, by decide!, by decide!, by decide!, Or.inr (by decide!)⟩,
    payBill_atomic_on_failure decimalEnv (failsAt .insert) sampleStore
      (sampleBody (.number (.num 80))) sampleBill (by decide!) (by decide!) (by decide!)
      (by decide!) (by decide!) (Or.inr (by decide!)),
    by decide!⟩

/-! ## The daily quota: lemmas -/

/-- Incrementing counters does not change which rows a key selects. -/
theorem checkRows_incrementRows (table : List RateLimitRow) (v : JsValue) (e d : String) :
    checkRows (incrementRows table v e d) v e d
      = (checkRows table v e d).map fun r => { r with call_count := r.call_count + 1 } := by
  unfold checkRows incrementRows
  induction table with
  | nil => rfl
  | cons r rest ih =>
    by_cases hm : rateKeyMatches v e d r = true
    · have hm' : rateKeyMatches v e d { r with call_count := r.call_count + 1 } = true := hm
      simp only [List.map_cons, hm, if_true, List.filter_cons, hm']
      exact congrArg _ ih
    · have hm2 : rateKeyMatches v e d r = false := by simpa using hm
      simp only [List.map_cons, List.filter_cons, hm2, Bool.false_eq_true, if_false]
      exact ih

/-- The row inserted for a key is selected by that key. -/
theorem rateKeyMatches_new (v : JsValue) (e d : String) (c : Int) :
    rateKeyMatches v e d { subscriber_no := v, endpoint := e, date := d, call_count := c }
      = true := by
  simp [rateKeyMatches]

/-- What an admitted call with `currentCount < LIMIT` does when no statement fails. -/
theorem rateLimiterWith_admit (LIMIT : Int) (faults : LimiterFaults) (today : String)
    (table : List RateLimitRow) (req : LimiterRequest) (v : JsValue)
    (hsub : subscriberNoOf req = some v) (htruthy : v.truthy = true)
    (hf : ∀ step, faults step = false)
    (hlt : currentCountOf (checkRows table v req.path today) < LIMIT) :
    (rateLimiterWith LIMIT faults today table req).res = none ∧
      (rateLimiterWith LIMIT faults today table req).nextCalls = 1 ∧
      (rateLimiterWith LIMIT faults today table req).headers
        = some { limit := LIMIT
                 remaining := max 0 (LIMIT - currentCountOf (checkRows table v req.path today) - 1) } ∧
      currentCountOf (checkRows (rateLimiterWith LIMIT faults today table req).table v
          req.path today)
        = currentCountOf (checkRows table v req.path today) + 1 ∧
      (checkRows table v req.path today = [] →
        (rateLimiterWith LIMIT faults today table req).table
          = table ++ [{ subscriber_no := v, endpoint := req.path, date := today
                        call_count := 1 }]) := by
  have hnle : ¬ LIMIT ≤ currentCountOf (checkRows table v req.path today) := not_le.mpr hlt
  cases hrows : checkRows table v req.path today with
  | nil =>
    rw [hrows] at hnle
    simp only [currentCountOf] at hnle
    have hnew : checkRows
        (table ++ [{ subscriber_no := v, endpoint := req.path, date := today, call_count := 1 }])
        v req.path today
        = [{ subscriber_no := v, endpoint := req.path, date := today, call_count := 1 }] := by
      unfold checkRows at hrows ⊢
      rw [List.filter_append, hrows]
      simp [rateKeyMatches_new]
    simp [rateLimiterWith, hsub, htruthy, hf, hrows, hnle, hnew, currentCountOf]
  | cons r rest =>
    rw [hrows] at hnle
    simp only [currentCountOf] at hnle
    have hinc := checkRows_incrementRows table v req.path today
    rw [hrows] at hinc
    simp [rateLimiterWith, hsub, htruthy, hf, hrows, hnle, hinc, currentCountOf]

/-- What a call with `currentCount ≥ LIMIT` does when the check succeeds. -/
theorem rateLimiterWith_deny (LIMIT : Int) (faults : LimiterFaults) (today : String)
    (table : List RateLimitRow) (req : LimiterRequest) (v : JsValue)
    (hsub : subscriberNoOf req = some v) (htruthy : v.truthy = true)
    (hcheck : faults .check = false)
    (hge : LIMIT ≤ currentCountOf (checkRows table v req.path today)) :
    rateLimiterWith LIMIT faults today table req =
      { res := some { status := 429
                      message := "Rate limit exceeded. Maximum " ++ toString LIMIT ++
                        " calls per subscriber per day."
                      limit := some LIMIT, remaining := some 0 }
        nextCalls := 0, headers := none, table := table
        ops := [.check v req.path today] } := by
  simp [rateLimiterWith, hsub, htruthy, hcheck, hge]

/-- Successive calls from a count `c` with `c + n = L`: `n` admitted calls, then a denial. -/
theorem rateLimiterSeq_decisions (L : Int) (today : String) (req : LimiterRequest) (v : JsValue)
    (hsub : subscriberNoOf req = some v) (htruthy : v.truthy = true) :
    ∀ (n : Nat) (table : List RateLimitRow),
      currentCountOf (checkRows table v req.path today) + n = L →
      (rateLimiterSeq L today req (n + 1) table).map (·.decision)
        = (List.range n).map (fun i => some
            { allow := true, limit := L
              remaining := L - 1 - currentCountOf (checkRows table v req.path today) - i })
          ++ [some { allow := false, limit := L, remaining := 0 }] := by
  intro n
  induction n with
  | zero =>
    intro table hc
    have hge : L ≤ currentCountOf (checkRows table v req.path today) := by
      simp at hc; omega
    simp [rateLimiterSeq, rateLimiterWith_deny L noLimiterFaults today table req v hsub htruthy
      rfl hge, LimiterOutcome.decision]
  | succ n ih =>
    intro table hc
    have hlt : currentCountOf (checkRows table v req.path today) < L := by
      push_cast at hc; omega
    obtain ⟨h1, h2, h3, h4, _⟩ :=
      rateLimiterWith_admit L noLimiterFaults today table req v hsub htruthy (fun _ => rfl) hlt
    have hrest := ih (rateLimiterWith L noLimiterFaults today table req).table
      (by rw [h4]; push_cast at hc; omega)
    rw [rateLimiterSeq, List.map_cons, hrest, List.range_succ_eq_map, List.map_cons,
      List.map_map, List.cons_append]
    congr 1
    · have hmax : max 0 (L - currentCountOf (checkRows table v req.path today) - 1)
          = L - 1 - currentCountOf (checkRows table v req.path today) - ((0 : Nat) : Int) := by
        rw [max_eq_right (by omega)]; push_cast; omega
      simp [LimiterOutcome.decision, h1, h2, h3, hmax]
    · congr 1
      apply List.map_congr_left
      intro i _
      simp only [Function.comp, h4]
      congr 2
      push_cast
      omega

/-! ## The daily quota: claims -/

/-- C11: for a daily quota with ceiling `L` and no row yet for today's key,
`L + 1` successive `rateLimiter` calls for the same subscriber, endpoint and
day are admitted for calls `1..L` with remaining values `L-1, L-2, ..., 0`,
and call `L + 1` is denied with `limit = L` and `remaining = 0`.  The source
fixes `L = 100`. -/
theorem rateLimiter_quota_sequence (L : Nat) (today : String) (table : List RateLimitRow)
    (req : LimiterRequest) (v : JsValue)
    (hsub : subscriberNoOf req = some v) (htruthy : v.truthy = true)
    (hnone : checkRows table v req.path today = []) :
    (rateLimiterSeq L today req (L + 1) table).map (·.decision)
      = (List.range L).map (fun i => some
          { allow := true, limit := L, remaining := (L : Int) - 1 - i })
        ++ [some { allow := false, limit := L, remaining := 0 }] := by
  have h := rateLimiterSeq_decisions (L : Int) today req v hsub htruthy L table
    (by simp [hnone, currentCountOf])
  simpa [hnone, currentCountOf] using h

theorem rateLimiter_quota_sequence_witness :
    (subscriberNoOf sampleQuery = some (.string "5551234567") ∧
      (JsValue.string "5551234567").truthy = true ∧
      checkRows [] (.string "5551234567") sampleQuery.path "2024-03-15" = []) ∧
    (rateLimiterSeq (3 : Nat) "2024-03-15" sampleQuery (3 + 1) []).map (·.decision)
      = (List.range 3).map (fun i => some
          { allow := true, limit := (3 : Nat), remaining := ((3 : Nat) : Int) - 1 - i })
        ++ [some { allow := false, limit := (3 : Nat), remaining := 0 }] ∧
    (rateLimiterSeq 3 "2024-03-15" sampleQuery 4 []).map
        (fun o => o.decision.map fun d => (d.allow, d.remaining))
      = [some (true, 2), some (true, 1), some (true, 0), some (false, 0)] ∧
    ((rateLimiterSeq LIMIT "2024-03-15" sampleQuery 101 []).take 100).all
        (fun o => o.decision.map (·.allow) == some true) = true ∧
    ((rateLimiterSeq LIMIT "2024-03-15" sampleQuery 101 []).map (·.decision)).getLast?
      = some (some { allow := false, limit := 100, remaining := 0 }) :=
  ⟨⟨by decide, by decide, by decide⟩,
    rateLimiter_quota_sequence 3 "2024-03-15" [] sampleQuery (.string "5551234567")
      (by decide) (by decide) (by decide),
    by decide!, by decide!, by decide!⟩

/-- C12: a single `rateLimiter` call with a subscriber number and a working
store.  If the stored count for today's key is at least the ceiling, the call
is denied with status 429, `limit` = ceiling and `remaining = 0`, `next` is
not called and the table is unchanged.  Otherwise the call is admitted
(`next` is called once, no response is sent) and the count of the key is one
more than before; when no row existed, a row with count 1 is inserted. -/
theorem rateLimiter_single_call (ceiling : Int) (faults : LimiterFaults) (today : String)
    (table : List RateLimitRow) (req : LimiterRequest) (v : JsValue)
    (hsub : subscriberNoOf req = some v) (htruthy : v.truthy = true)
    (hf : ∀ step, faults step = false) :
    (ceiling ≤ currentCountOf (checkRows table v req.path today) →
      (rateLimiterWith ceiling faults today table req).res.map
          (fun r => (r.status, r.limit, r.remaining)) = some (429, some ceiling, some 0) ∧
        (rateLimiterWith ceiling faults today table req).nextCalls = 0 ∧
        (rateLimiterWith ceiling faults today table req).table = table) ∧
    (currentCountOf (checkRows table v req.path today) < ceiling →
      (rateLimiterWith ceiling faults today table req).res = none ∧
        (rateLimiterWith ceiling faults today table req).nextCalls = 1 ∧
        currentCountOf (checkRows (rateLimiterWith ceiling faults today table req).table v
            req.path today)
          = currentCountOf (checkRows table v req.path today) + 1 ∧
        (checkRows table v req.path today = [] →
          (rateLimiterWith ceiling faults today table req).table
            = table ++ [{ subscriber_no := v, endpoint := req.path, date := today
                          call_count := 1 }])) := by
  constructor
  · intro hge
    rw [rateLimiterWith_deny ceiling faults today table req v hsub htruthy (hf _) hge]
    exact ⟨rfl, rfl, rfl⟩
  · intro hlt
    obtain ⟨h1, h2, _, h4, h5⟩ :=
      rateLimiterWith_admit ceiling faults today table req v hsub htruthy hf hlt
    exact ⟨h1, h2, h4, h5⟩

theorem rateLimiter_single_call_witness :
    (subscriberNoOf sampleQuery = some (.string "5551234567") ∧
      (JsValue.string "5551234567").truthy = true ∧
      ∀ step, noLimiterFaults step = false) ∧
    ((LIMIT ≤ currentCountOf (checkRows [] (.string "5551234567") sampleQuery.path
          "2024-03-15") →
      (rateLimiterWith LIMIT noLimiterFaults "2024-03-15" [] sampleQuery).res.map
          (fun r => (r.status, r.limit, r.remaining)) = some (429, some LIMIT, some 0) ∧
        (rateLimiterWith LIMIT noLimiterFaults "2024-03-15" [] sampleQuery).nextCalls = 0 ∧
        (rateLimiterWith LIMIT noLimiterFaults "2024-03-15" [] sampleQuery).table = []) ∧
    (currentCountOf (checkRows [] (.string "5551234567") sampleQuery.path "2024-03-15")
        < LIMIT →
      (rateLimiterWith LIMIT noLimiterFaults "2024-03-15" [] sampleQuery).res = none ∧
        (rateLimiterWith LIMIT noLimiterFaults "2024-03-15" [] sampleQuery).nextCalls = 1 ∧
        currentCountOf (checkRows
            (rateLimiterWith LIMIT noLimiterFaults "2024-03-15" [] sampleQuery).table
            (.string "5551234567") sampleQuery.path "2024-03-15")
          = currentCountOf (checkRows [] (.string "5551234567") sampleQuery.path
              "2024-03-15") + 1 ∧
        (checkRows [] (.string "5551234567") sampleQuery.path "2024-03-15" = [] →
          (rateLimiterWith LIMIT noLimiterFaults "2024-03-15" [] sampleQuery).table
            = [] ++ [{ subscriber_no := .string "5551234567", endpoint := sampleQuery.path
                       date := "2024-03-15", call_count := 1 }]))) ∧
    (rateLimiter noLimiterFaults "2024-03-15"
        [{ subscriber_no := .string "5551234567", endpoint := "/query", date := "2024-03-15"
           call_count := 100 }] sampleQuery).res.map (fun r => (r.status, r.limit, r.remaining))
      = some (429, some 100, some 0) :=
  ⟨⟨by decide, by decide, fun _ => rfl⟩,
    rateLimiter_single_call LIMIT noLimiterFaults "2024-03-15" [] sampleQuery
      (.string "5551234567") (by decide) (by decide) (fun _ => rfl),
    by decide!⟩

/-- C13 fails on the code: the handler `queryBill` is documented with
"Rate Limit: 3 per subscriber per day", but `rateLimiter` compares the count
with `LIMIT = 100`.  After three admitted calls of one subscriber on one day
the fourth call is admitted as well (no 429, `next` is called, remaining 96). -/
theorem rateLimiter_fourth_call_admitted :
    (rateLimiterSeq LIMIT "2024-03-15" sampleQuery 4 []).map
        (fun o => (o.res.map (·.status), o.nextCalls, o.decision))
      = [(none, 1, some { allow := true, limit := 100, remaining := 99 }),
         (none, 1, some { allow := true, limit := 100, remaining := 98 }),
         (none, 1, some { allow := true, limit := 100, remaining := 97 }),
         (none, 1, some { allow := true, limit := 100, remaining := 96 })] ∧
      rateLimiter noLimiterFaults "2024-03-15"
          [{ subscriber_no := .string "5551234567", endpoint := "/query", date := "2024-03-15"
             call_count := 3 }] sampleQuery
        = { res := none, nextCalls := 1
            headers := some { limit := 100, remaining := 96 }
            table := [{ subscriber_no := .string "5551234567", endpoint := "/query"
                        date := "2024-03-15", call_count := 4 }]
            ops := [.check (.string "5551234567") "/query" "2024-03-15",
                    .update (.string "5551234567") "/query" "2024-03-15"] } := by
  decide!

/-- C14: the daily quota fails open.  For a call with a subscriber number in
which the counter read fails, or the counter write of an admitted call fails,
`next` is called exactly once, no response is sent by the middleware and the
table is unchanged. -/
theorem rateLimiter_fails_open (ceiling : Int) (faults : LimiterFaults) (today : String)
    (table : List RateLimitRow) (req : LimiterRequest) (v : JsValue)
    (hsub : subscriberNoOf req = some v) (htruthy : v.truthy = true)
    (hfail : faults .check = true ∨
      (currentCountOf (checkRows table v req.path today) < ceiling ∧
        faults (writeStep (checkRows table v req.path today)) = true)) :
    (rateLimiterWith ceiling faults today table req).nextCalls = 1 ∧
      (rateLimiterWith ceiling faults today table req).res = none ∧
      (rateLimiterWith ceiling faults today table req).table = table := by
  by_cases hc : faults .check = true
  · simp [rateLimiterWith, hsub, htruthy, hc, limiterCatch]
  · rcases hfail with h | ⟨hlt, hw⟩
    · exact absurd h hc
    · have hnle : ¬ ceiling ≤ currentCountOf (checkRows table v req.path today) :=
        not_le.mpr hlt
      cases hrows : checkRows table v req.path today with
      | nil =>
        rw [hrows] at hnle hw
        simp only [currentCountOf] at hnle
        simp only [writeStep] at hw
        simp [rateLimiterWith, hsub, htruthy, hc, hrows, hnle, hw, limiterCatch,
          currentCountOf]
      | cons r rest =>
        rw [hrows] at hnle hw
        simp only [currentCountOf] at hnle
        simp only [writeStep] at hw
        simp [rateLimiterWith, hsub, htruthy, hc, hrows, hnle, hw, limiterCatch,
          currentCountOf]

theorem rateLimiter_fails_open_witness :
    (subscriberNoOf sampleQuery = some (.string "5551234567") ∧
      (JsValue.string "5551234567").truthy = true ∧
      ((fun step => decide (step = LimiterStep.check)) .check = true ∨
        (currentCountOf (checkRows [] (.string "5551234567") sampleQuery.path "2024-03-15")
            < LIMIT ∧
          (fun step => decide (step = LimiterStep.check))
            (writeStep (checkRows [] (.string "5551234567") sampleQuery.path "2024-03-15"))
            = true))) ∧
    ((rateLimiterWith LIMIT (fun step => decide (step = LimiterStep.check)) "2024-03-15" []
          sampleQuery).nextCalls = 1 ∧
      (rateLimiterWith LIMIT (fun step => decide (step = LimiterStep.check)) "2024-03-15" []
          sampleQuery).res = none ∧
      (rateLimiterWith LIMIT (fun step => decide (step = LimiterStep.check)) "2024-03-15" []
          sampleQuery).table = []) ∧
    (rateLimiter (fun step => decide (step = LimiterStep.insert)) "2024-03-15" []
        sampleQuery).nextCalls = 1 :=
  ⟨⟨by decide, by decide, Or.inl (by decide)⟩,
    rateLimiter_fails_open LIMIT (fun step => decide (step = LimiterStep.check)) "2024-03-15" []
      sampleQuery (.string "5551234567") (by decide) (by decide) (Or.inl (by decide)),
    by decide⟩

/-! ## Further claims on `payBill` -/

/-- C15 fails on the code: for the amount `'abc'` the guard
`!amount || amount <= 0` is false (`'abc'` is truthy and converts to `NaN`),
so the request is not answered with the invalid-amount error.  `payBill`
opens a transaction, queries the bill and attempts the `UPDATE` with
`parseFloat('abc') = NaN`; the answer is the error 500. -/
theorem payBill_non_numeric_amount_reaches_store :
    passesValidation decimalEnv (sampleBody (.string "abc")) = true ∧
      payBill decimalEnv noFaults sampleStore (sampleBody (.string "abc"))
        = { res := .error 500 "An error occurred while processing the payment."
            store := sampleStore, session := .rolledBack
            ops := [.connect, .begin,
              .select (.string "5551234567") (.num 3) (.number (.num 2024)),
              .update .nan false 1, .rollback, .release] } ∧
      (payBill decimalEnv noFaults sampleStore (sampleBody (.string "abc"))).res
        ≠ .error 400 "amount is required and must be greater than 0." := by
  decide!

/-- C16 as stated fails: on a bill whose `total_amount` is 0 a payment of 5
succeeds, and the stored `paid_amount` afterwards is 0 (with `paid_status`
true and `bill_status = "fully_paid"`). -/
theorem payBill_zero_total_keeps_zero_paid :
    (payBill decimalEnv noFaults { bills := [zeroBill], transactions := [] }
        (zeroBody (.number (.num 5)))).res
      = .success
          { transaction_id := 1, transaction_status := "completed", bill_id := 2
            amount_paid := .num 5, remaining_amount := .num 0, bill_status := "fully_paid" } ∧
      (payBill decimalEnv noFaults { bills := [zeroBill], transactions := [] }
          (zeroBody (.number (.num 5)))).store.bills
        = [{ zeroBill with paid_amount := 0, paid_status := true }] := by
  decide!

/-- C16 as amended: after a successful `payBill` with an amount read as
`a > 0` on a bill with `0 ≤ paid_amount ≤ total_amount`, the returned
`bill_status` is never `"unpaid"`; the stored `paid_amount` is greater than 0
when `total_amount > 0`, and it is 0 with `paid_status` true when
`total_amount = 0`. -/
theorem payBill_paid_amount_positive (env : Env) (faults : Faults) (s : Store)
    (body : PayBody) (bill : Bill) (a : ℚ)
    (hbill : selectBill env s.bills body.subscriber_no (env.parseInt body.month)
      (yearOf env body) = some bill)
    (hinv : 0 ≤ bill.paid_amount ∧ bill.paid_amount ≤ bill.total_amount)
    (hamount : env.parseFloat body.amount = .num a) (ha : 0 < a)
    (hok : (payBill env faults s body).res.status = 200) :
    ∃ b d, selectBill env (payBill env faults s body).store.bills body.subscriber_no
          (env.parseInt body.month) (yearOf env body) = some b ∧
        (payBill env faults s body).res = .success d ∧
        d.bill_status ≠ "unpaid" ∧
        (0 < bill.total_amount → 0 < b.paid_amount) ∧
        (bill.total_amount = 0 → b.paid_amount = 0 ∧ b.paid_status = true) := by
  rw [payBill_success_eq env faults s body bill a hbill hamount hok]
  refine ⟨_, _, selectBill_updateBill_self env s.bills bill _ _ _ _ _ hbill, rfl, ?_, ?_, ?_⟩
  · by_cases h : bill.total_amount ≤ bill.paid_amount + a <;> simp [h]
  · intro ht
    exact lt_min (by linarith [hinv.1]) ht
  · intro ht
    have h0 : bill.paid_amount = 0 := le_antisymm (ht ▸ hinv.2) hinv.1
    constructor
    · show min (bill.paid_amount + a) bill.total_amount = 0
      rw [ht, h0]
      exact min_eq_right (by linarith)
    · show decide (bill.total_amount ≤ bill.paid_amount + a) = true
      rw [ht, h0]
      simpa using le_of_lt ha

theorem payBill_paid_amount_positive_witness :
    (selectBill decimalEnv sampleStore.bills (sampleBody (.number (.num 80))).subscriber_no
        (decimalEnv.parseInt (sampleBody (.number (.num 80))).month)
        (yearOf decimalEnv (sampleBody (.number (.num 80)))) = some sampleBill ∧
      (0 ≤ sampleBill.paid_amount ∧ sampleBill.paid_amount ≤ sampleBill.total_amount) ∧
      decimalEnv.parseFloat (sampleBody (.number (.num 80))).amount = .num 80 ∧
      (0 : ℚ) < 80 ∧
      (payBill decimalEnv noFaults sampleStore (sampleBody (.number (.num 80)))).res.status
        = 200) ∧
    ∃ b d, selectBill decimalEnv
          (payBill decimalEnv noFaults sampleStore (sampleBody (.number (.num 80)))).store.bills
          (sampleBody (.number (.num 80))).subscriber_no
          (decimalEnv.parseInt (sampleBody (.number (.num 80))).month)
          (yearOf decimalEnv (sampleBody (.number (.num 80)))) = some b ∧
        (payBill decimalEnv noFaults sampleStore (sampleBody (.number (.num 80)))).res
          = .success d ∧
        d.bill_status ≠ "unpaid" ∧
        (0 < sampleBill.total_amount → 0 < b.paid_amount) ∧
        (sampleBill.total_amount = 0 → b.paid_amount = 0 ∧ b.paid_status = true) :=
  ⟨⟨by decide!, by decide!, by decide!, by norm_num, by decide!⟩,
    payBill_paid_amount_positive decimalEnv noFaults sampleStore
      (sampleBody (.number (.num 80))) sampleBill 80 (by decide!) (by decide!) (by decide!)
      (by norm_num) (by decide!)⟩

/-- C20 as stated fails: when the `SELECT ... FOR UPDATE` step throws (as on a
lock wait timeout or an aborted transaction), `payBill` answers 500 after a
single attempt, although the same request on a store that does not fail
succeeds: no second attempt is made. -/
theorem payBill_conflict_not_retried :
    payBill decimalEnv (failsAt .select) sampleStore (sampleBody (.number (.num 80)))
        = { res := .error 500 "An error occurred while processing the payment."
            store := sampleStore, session := .rolledBack
            ops := [.connect, .begin,
              .select (.string "5551234567") (.num 3) (.number (.num 2024)),
              .rollback, .release] } ∧
      (payBill decimalEnv noFaults sampleStore (sampleBody (.number (.num 80)))).res.status
        = 200 := by
  decide!

/-- C20 as amended: a store failure is never retried.  When a request passes
validation and the bill exists, a failure of any store step on the payment's
path (connect, `BEGIN`, `SELECT`, `UPDATE`, `INSERT` or `COMMIT`) makes
`payBill` answer 500 at once: the durable store is unchanged and at most one
transaction has been opened (`connect` occurs at most once among the issued
operations, and no statement is issued twice except `ROLLBACK`). -/
theorem payBill_failure_surfaces_without_retry (env : Env) (faults : Faults) (s : Store)
    (body : PayBody) (bill : Bill) (hv : passesValidation env body = true)
    (hbill : selectBill env s.bills body.subscriber_no (env.parseInt body.month)
      (yearOf env body) = some bill)
    (hfail : ¬ faults.payPathClear) :
    (payBill env faults s body).res
        = .error 500 "An error occurred while processing the payment." ∧
      (payBill env faults s body).store = s ∧
      (payBill env faults s body).ops.count .connect = 1 ∧
      (payBill env faults s body).ops.count .begin ≤ 1 ∧
      (payBill env faults s body).ops.count .commit ≤ 1 ∧
      ((payBill env faults s body).ops.filter Op.isWrite).length ≤ 2 := by
  simp only [passesValidation, Bool.and_eq_true, Bool.not_eq_true', Bool.or_eq_false_iff] at hv
  obtain ⟨⟨⟨⟨v1, v2⟩, v3⟩, v4⟩, ⟨v5, v6⟩, v7⟩ := hv
  have hpay : payBill env faults s body
      = payBillTransaction env faults s body (env.parseInt body.month) (yearOf env body) := by
    simp [payBill, v1, v2, v3, v4, v5, v6, v7]
  rw [hpay]
  unfold payBillTransaction
  by_cases f1 : faults .connect = true
  · simp [f1, List.count_cons, Op.isWrite]
  by_cases f2 : faults .begin = true
  · simp [f1, f2, payBillCatch, List.count_cons, Op.isWrite]
  by_cases f3 : faults .select = true
  · simp [f1, f2, f3, payBillCatch, List.count_cons, Op.isWrite]
  simp only [Bool.not_eq_true] at f1 f2 f3
  simp only [f1, f2, f3, hbill]
  unfold payBillFound
  cases hp : env.parseFloat body.amount with
  | nan => simp [JsNum.add, JsNum.min, payBillCatch, List.count_cons, Op.isWrite]
  | num a =>
    simp only [JsNum.add, JsNum.min]
    by_cases f4 : faults .update = true
    · simp [f4, payBillCatch, List.count_cons, Op.isWrite]
    by_cases f5 : faults .insert = true
    · simp [f4, f5, payBillCatch, List.count_cons, Op.isWrite]
    by_cases f6 : faults .commit = true
    · simp [f4, f5, f6, payBillCatch, List.count_cons, Op.isWrite]
    · simp only [Bool.not_eq_true] at f4 f5 f6
      exact absurd ⟨f1, f2, f3, f4, f5, f6⟩ hfail

theorem payBill_failure_surfaces_without_retry_witness :
    (passesValidation decimalEnv (sampleBody (.number (.num 80))) = true ∧
      selectBill decimalEnv sampleStore.bills (sampleBody (.number (.num 80))).subscriber_no
        (decimalEnv.parseInt (sampleBody (.number (.num 80))).month)
        (yearOf decimalEnv (sampleBody (.number (.num 80)))) = some sampleBill ∧
      ¬ (failsAt .select).payPathClear) ∧
    ((payBill decimalEnv (failsAt .select) sampleStore (sampleBody (.number (.num 80)))).res
        = .error 500 "An error occurred while processing the payment." ∧
      (payBill decimalEnv (failsAt .select) sampleStore (sampleBody (.number (.num 80)))).store
        = sampleStore ∧
      (payBill decimalEnv (failsAt .select) sampleStore
        (sampleBody (.number (.num 80)))).ops.count .connect = 1 ∧
      (payBill decimalEnv (failsAt .select) sampleStore
        (sampleBody (.number (.num 80)))).ops.count .begin ≤ 1 ∧
      (payBill decimalEnv (failsAt .select) sampleStore
        (sampleBody (.number (.num 80)))).ops.count .commit ≤ 1 ∧
      ((payBill decimalEnv (failsAt .select) sampleStore
        (sampleBody (.number (.num 80)))).ops.filter Op.isWrite).length ≤ 2) :=
  ⟨⟨by decide!, by decide!, by decide!⟩,
    payBill_failure_surfaces_without_retry decimalEnv (failsAt .select) sampleStore
      (sampleBody (.number (.num 80))) sampleBill (by decide!) (by decide!) (by decide!)⟩

/-! ## The gateway: lemmas and claims -/

/-- One `globalRateLimiter` call, in terms of the window the request falls into. -/
theorem globalRateLimiter_eq (state : ThrottleState) (ip : String) (t : Nat) (w : RateWindow)
    (hlive : liveWindow globalRateLimiterOptions state ip t = w) :
    globalRateLimiter state ip t =
      if 100 ≤ w.count then
        { decision := { allow := false, limit := 100, remaining := 0
                        resetAt := w.windowStart + 15 * 60 * 1000 }
          res := some (.error 429 "Too many requests from this IP, please try again later.")
          nextCalls := 0, state := Function.update state ip (some w) }
      else
        { decision := { allow := true, limit := 100, remaining := 100 - (w.count + 1)
                        resetAt := w.windowStart + 15 * 60 * 1000 }
          res := none, nextCalls := 1
          state := Function.update state ip (some { w with count := w.count + 1 }) } := by
  unfold globalRateLimiter fixedWindowAdmit
  rw [hlive]
  by_cases hc : 100 ≤ w.count
  · simp [hc, globalRateLimiterOptions]
  · simp [hc, globalRateLimiterOptions]

/-- Requests of one client inside its recorded window: request `i` is admitted
exactly while the count has not reached 100, and every decision carries the
end of the window as reset time. -/
theorem globalRateLimiterSeq_in_window (ip : String) :
    ∀ (ts : List Nat) (state : ThrottleState) (w : RateWindow), state ip = some w →
      (∀ t ∈ ts, t < w.windowStart + 15 * 60 * 1000) →
      (globalRateLimiterSeq state ip ts).map
          (fun o => (o.decision.allow, o.decision.resetAt, o.res.map Response.status,
            o.nextCalls))
        = (List.range ts.length).map fun i =>
            if w.count + i < 100 then (true, w.windowStart + 15 * 60 * 1000, none, 1)
            else (false, w.windowStart + 15 * 60 * 1000, some 429, 0) := by
  intro ts
  induction ts with
  | nil => intro state w _ _; rfl
  | cons t rest ih =>
    intro state w hw hts
    have ht : t < w.windowStart + 15 * 60 * 1000 := hts t (List.mem_cons_self _ _)
    have hrest : ∀ u ∈ rest, u < w.windowStart + 15 * 60 * 1000 :=
      fun u hu => hts u (List.mem_cons_of_mem _ hu)
    have hlive : liveWindow globalRateLimiterOptions state ip t = w := by
      simp [liveWindow, hw, globalRateLimiterOptions, ht]
    have hstep := globalRateLimiter_eq state ip t w hlive
    rw [globalRateLimiterSeq, List.map_cons, List.length_cons, List.range_succ_eq_map,
      List.map_cons, List.map_map, hstep]
    by_cases hc : 100 ≤ w.count
    · have h0 : ¬ w.count + 0 < 100 := by omega
      simp only [hc, if_true, h0, if_false]
      rw [ih _ w (by simp) hrest]
      congr 1
      apply List.map_congr_left
      intro i _
      have h1 : ¬ w.count + i < 100 := by omega
      have h2 : ¬ w.count + (i + 1) < 100 := by omega
      simp [Function.comp, h1, h2]
    · have h0 : w.count + 0 < 100 := by omega
      simp only [hc, if_false, h0, if_true]
      rw [ih _ { w with count := w.count + 1 } (by simp) hrest]
      congr 1
      apply List.map_congr_left
      intro i _
      simp only [Function.comp, Nat.succ_eq_add_one]
      have : w.count + 1 + i = w.count + (i + 1) := by omega
      rw [this]

/-- C17: with the ceiling of 100 requests per 15-minute fixed window per
client IP, the first 100 requests of one client within a window are admitted
and the 101st within the same window is denied with status 429; its reset
time is the window start plus 15 minutes.  Here `t0` is the time of the
request that opens the window and `rest` are the times of the next 100. -/
theorem globalRateLimiter_window (state : ThrottleState) (ip : String) (t0 : Nat)
    (rest : List Nat)
    (hfresh : ∀ w, state ip = some w → w.windowStart + 15 * 60 * 1000 ≤ t0)
    (hlen : rest.length = 100)
    (hwin : ∀ t ∈ rest, t < t0 + 15 * 60 * 1000) :
    (globalRateLimiterSeq state ip (t0 :: rest)).map
        (fun o => (o.decision.allow, o.decision.resetAt, o.res.map Response.status,
          o.nextCalls))
      = (List.range 101).map fun i =>
          if i < 100 then (true, t0 + 15 * 60 * 1000, none, 1)
          else (false, t0 + 15 * 60 * 1000, some 429, 0) := by
  have hlive : liveWindow globalRateLimiterOptions state ip t0
      = { windowStart := t0, count := 0 } := by
    unfold liveWindow
    cases hs : state ip with
    | none => rfl
    | some w =>
      have h := hfresh w hs
      have hnlt : ¬ t0 < w.windowStart + 15 * 60 * 1000 := by omega
      simp [globalRateLimiterOptions, hnlt]
  have hstep := globalRateLimiter_eq state ip t0 _ hlive
  simp only [Nat.not_succ_le_zero, if_false] at hstep
  rw [globalRateLimiterSeq, List.map_cons, hstep,
    globalRateLimiterSeq_in_window ip rest _ { windowStart := t0, count := 1 } (by simp) hwin,
    hlen]
  rfl

theorem globalRateLimiter_window_witness :
    ((∀ w, (fun _ : String => (none : Option RateWindow)) "203.0.113.7" = some w →
        w.windowStart + 15 * 60 * 1000 ≤ 0) ∧
      (List.replicate 100 1).length = 100 ∧
      ∀ t ∈ List.replicate 100 1, t < 0 + 15 * 60 * 1000) ∧
    (globalRateLimiterSeq (fun _ => none) "203.0.113.7" (0 :: List.replicate 100 1)).map
        (fun o => (o.decision.allow, o.decision.resetAt, o.res.map Response.status,
          o.nextCalls))
      = (List.range 101).map fun i =>
          if i < 100 then (true, 0 + 15 * 60 * 1000, none, 1)
          else (false, 0 + 15 * 60 * 1000, some 429, 0) :=
  ⟨⟨fun _ h => by simp at h, by decide, by decide⟩,
    globalRateLimiter_window (fun _ => none) "203.0.113.7" 0 (List.replicate 100 1)
      (fun _ h => by simp at h) (by decide) (by decide)⟩

/-- C18: the `skip` option of `authRateLimiter` is true exactly when the
resolved address (`req.ip`, else the connection's remote address, else the
`x-forwarded-for` header) is one of `'::1'`, `'127.0.0.1'`, `'localhost'`;
for a request from one of these addresses the check is skipped. -/
theorem authRateLimiterSkip_iff (req : GatewayRequest) :
    authRateLimiterSkip req = true ↔
      ∃ a ∈ skippedAddresses,
        req.ip = .string a ∨
        (req.ip.truthy = false ∧ req.remoteAddress = .string a) ∨
        (req.ip.truthy = false ∧ req.remoteAddress.truthy = false ∧
          req.xForwardedFor = .string a) := by
  have hmem : ∀ v : JsValue,
      (v.isString "::1" || v.isString "127.0.0.1" || v.isString "localhost") = true ↔
        ∃ a ∈ skippedAddresses, v = .string a := by
    intro v
    simp [JsValue.isString, skippedAddresses, or_assoc]
  have htruthy : ∀ a ∈ skippedAddresses, (JsValue.string a).truthy = true := by
    intro a ha
    simp only [skippedAddresses, List.mem_cons, List.mem_singleton, List.not_mem_nil,
      or_false] at ha
    rcases ha with rfl | rfl | rfl <;> decide
  unfold authRateLimiterSkip
  simp only [hmem, JsValue.or]
  by_cases h1 : req.ip.truthy = true
  · simp only [h1, if_true]
    constructor
    · rintro ⟨a, ha, h⟩
      exact ⟨a, ha, Or.inl h⟩
    · rintro ⟨a, ha, h | ⟨h, _⟩ | ⟨h, _⟩⟩
      · exact ⟨a, ha, h⟩
      · exact absurd h (by decide)
      · exact absurd h (by decide)
  · have h1' : req.ip.truthy = false := by simpa using h1
    by_cases h2 : req.remoteAddress.truthy = true
    · simp only [h1', h2, if_true, Bool.false_eq_true, if_false]
      constructor
      · rintro ⟨a, ha, h⟩
        exact ⟨a, ha, Or.inr (Or.inl ⟨trivial, h⟩)⟩
      · rintro ⟨a, ha, h | ⟨_, h⟩ | ⟨_, h, _⟩⟩
        · have := htruthy a ha
          rw [← h, h1'] at this
          exact absurd this (by decide)
        · exact ⟨a, ha, h⟩
        · exact absurd h (by decide)
    · have h2' : req.remoteAddress.truthy = false := by simpa using h2
      simp only [h1', h2', Bool.false_eq_true, if_false]
      constructor
      · rintro ⟨a, ha, h⟩
        exact ⟨a, ha, Or.inr (Or.inr ⟨trivial, trivial, h⟩)⟩
      · rintro ⟨a, ha, h | ⟨_, h⟩ | ⟨_, _, h⟩⟩
        · have := htruthy a ha
          rw [← h, h1'] at this
          exact absurd this (by decide)
        · have := htruthy a ha
          rw [← h, h2'] at this
          exact absurd this (by decide)
        · exact ⟨a, ha, h⟩

/-- C19 fails on the code: `globalRateLimiter` is mounted on `/api` only, while
`server.js` also mounts the routers on `/v1/...` and the gateway mounts the
application at the root.  A `POST /v1/bills/pay` sent to the gateway reaches
`payBill` without passing `globalRateLimiter`; the sibling path
`POST /api/v1/bills/pay` passes it first. -/
theorem gateway_v1_path_skips_global_throttle :
    gateway { method := .POST, path := ["v1", "bills", "pay"] }
        = [.gatewayLogger, .requestLogger, .payBill] ∧
      Stage.globalRateLimiter ∉
        stagesBeforeHandler (gateway { method := .POST, path := ["v1", "bills", "pay"] }) ∧
      gateway { method := .POST, path := ["api", "v1", "bills", "pay"] }
        = [.gatewayLogger, .globalRateLimiter, .requestLogger, .payBill] := by
  decide

/-! ## The daily quota: frame lemmas -/

/-- A row stored under two keys has the same key twice. -/
theorem rateKeyMatches_unique (v v' : JsValue) (e e' d d' : String) (r : RateLimitRow)
    (h : rateKeyMatches v e d r = true) (h' : rateKeyMatches v' e' d' r = true) :
    (v', e', d') = (v, e, d) := by
  simp only [rateKeyMatches, Bool.and_eq_true, decide_eq_true_eq] at h h'
  obtain ⟨⟨h1, h2⟩, h3⟩ := h
  obtain ⟨⟨h1', h2'⟩, h3'⟩ := h'
  rw [← h1, ← h2, ← h3, ← h1', ← h2', ← h3']

/-- Incrementing the rows of one key leaves the rows of every other key as they were. -/
theorem checkRows_incrementRows_other (table : List RateLimitRow) (v v' : JsValue)
    (e e' d d' : String) (hne : (v', e', d') ≠ (v, e, d)) :
    checkRows (incrementRows table v e d) v' e' d' = checkRows table v' e' d' := by
  unfold checkRows incrementRows
  induction table with
  | nil => rfl
  | cons r rest ih =>
    by_cases hm : rateKeyMatches v e d r = true
    · have hn : rateKeyMatches v' e' d' r = false := by
        by_contra hc
        simp only [Bool.not_eq_false] at hc
        exact hne (rateKeyMatches_unique v v' e e' d d' r hm hc)
      have hn' : rateKeyMatches v' e' d' { r with call_count := r.call_count + 1 } = false := hn
      simp only [List.map_cons, hm, if_true, List.filter_cons, hn, hn', Bool.false_eq_true,
        if_false]
      exact ih
    · have hm2 : rateKeyMatches v e d r = false := by simpa using hm
      simp only [List.map_cons, hm2, Bool.false_eq_true, if_false, List.filter_cons]
      rw [ih]

/-- Inserting a row for one key leaves the rows of every other key as they were. -/
theorem checkRows_append_other (table : List RateLimitRow) (v v' : JsValue)
    (e e' d d' : String) (c : Int) (hne : (v', e', d') ≠ (v, e, d)) :
    checkRows (table ++ [{ subscriber_no := v, endpoint := e, date := d, call_count := c }])
      v' e' d' = checkRows table v' e' d' := by
  have hn : rateKeyMatches v' e' d'
      { subscriber_no := v, endpoint := e, date := d, call_count := c } = false := by
    by_contra hc
    simp only [Bool.not_eq_false] at hc
    exact hne (rateKeyMatches_unique v v' e e' d d' _ (rateKeyMatches_new v e d c) hc)
  unfold checkRows
  rw [List.filter_append]
  simp [hn]

/-- The table after a call: unchanged, or the rows of the call's key
incremented (the count read was below the ceiling), or a row with count 1
appended for the call's key (no row was stored under it). -/
theorem rateLimiterWith_table_cases (LIMIT : Int) (faults : LimiterFaults) (today : String)
    (table : List RateLimitRow) (req : LimiterRequest) :
    (rateLimiterWith LIMIT faults today table req).table = table ∨
      (∃ v, subscriberNoOf req = some v ∧ keyCount table v req.path today < LIMIT ∧
        checkRows table v req.path today ≠ [] ∧
        (rateLimiterWith LIMIT faults today table req).table
          = incrementRows table v req.path today) ∨
      (∃ v, subscriberNoOf req = some v ∧ keyCount table v req.path today < LIMIT ∧
        checkRows table v req.path today = [] ∧
        (rateLimiterWith LIMIT faults today table req).table
          = table ++ [{ subscriber_no := v, endpoint := req.path, date := today
                        call_count := 1 }]) := by
  unfold rateLimiterWith
  cases hsub : subscriberNoOf req with
  | none => left; rfl
  | some v =>
    by_cases ht : v.truthy = true
    · by_cases hc : faults .check = true
      · left; simp [ht, hc, limiterCatch]
      · have hc' : faults .check = false := by simpa using hc
        by_cases hge : LIMIT ≤ currentCountOf (checkRows table v req.path today)
        · left; simp [ht, hc', hge]
        · have hlt : keyCount table v req.path today < LIMIT := not_le.mp hge
          cases hrows : checkRows table v req.path today with
          | nil =>
            rw [hrows] at hge
            by_cases hi : faults .insert = true
            · left; simp [ht, hc', hrows, hge, hi, limiterCatch]
            · right; right
              refine ⟨v, rfl, hlt, hrows, ?_⟩
              simp [ht, hc', hrows, hge, hi]
          | cons r rest =>
            rw [hrows] at hge
            by_cases hu : faults .update = true
            · left; simp [ht, hc', hrows, hge, hu, limiterCatch]
            · right; left
              refine ⟨v, rfl, hlt, by rw [hrows]; simp, ?_⟩
              simp [ht, hc', hrows, hge, hu]
    · left; simp [ht]

/-- A call changes the count of no key but its own. -/
theorem rateLimiterWith_keyCount_other (LIMIT : Int) (faults : LimiterFaults) (today : String)
    (table : List RateLimitRow) (req : LimiterRequest) (v' : JsValue) (e' d' : String)
    (hne : ∀ v, subscriberNoOf req = some v → (v', e', d') ≠ (v, req.path, today)) :
    checkRows (rateLimiterWith LIMIT faults today table req).table v' e' d'
      = checkRows table v' e' d' := by
  rcases rateLimiterWith_table_cases LIMIT faults today table req with
    h | ⟨v, hv, _, _, h⟩ | ⟨v, hv, _, _, h⟩
  · rw [h]
  · rw [h]; exact checkRows_incrementRows_other table v v' req.path e' today d' (hne v hv)
  · rw [h]; exact checkRows_append_other table v v' req.path e' today d' 1 (hne v hv)

/-- One call: the count of every key does not decrease, and stays at most the
ceiling when it was so before. -/
theorem rateLimiterWith_keyCount_step (LIMIT : Int) (faults : LimiterFaults) (today : String)
    (table : List RateLimitRow) (req : LimiterRequest) (v' : JsValue) (e' d' : String) :
    keyCount table v' e' d' ≤ keyCount (rateLimiterWith LIMIT faults today table req).table
        v' e' d' ∧
      (keyCount table v' e' d' ≤ LIMIT →
        keyCount (rateLimiterWith LIMIT faults today table req).table v' e' d' ≤ LIMIT) := by
  rcases rateLimiterWith_table_cases LIMIT faults today table req with
    h | ⟨v, hv, hlt, hrows, h⟩ | ⟨v, hv, hlt, hrows, h⟩
  · rw [h]; exact ⟨le_refl _, id⟩
  · rw [h]
    by_cases hk : (v', e', d') = (v, req.path, today)
    · simp only [Prod.mk.injEq] at hk
      obtain ⟨h1, h2, h3⟩ := hk
      rw [h1, h2, h3]
      have hinc := checkRows_incrementRows table v req.path today
      cases hr : checkRows table v req.path today with
      | nil => exact absurd hr hrows
      | cons r rest =>
        rw [hr] at hinc
        simp only [keyCount, hr, currentCountOf] at hlt
        simp only [keyCount, hinc, hr, currentCountOf, List.map_cons]
        constructor
        · omega
        · intro _; omega
    · simp only [keyCount]
      rw [checkRows_incrementRows_other table v v' req.path e' today d' hk]
      exact ⟨le_refl _, id⟩
  · rw [h]
    by_cases hk : (v', e', d') = (v, req.path, today)
    · simp only [Prod.mk.injEq] at hk
      obtain ⟨h1, h2, h3⟩ := hk
      rw [h1, h2, h3]
      have hnew : checkRows
          (table ++ [{ subscriber_no := v, endpoint := req.path, date := today, call_count := 1 }])
          v req.path today
          = [{ subscriber_no := v, endpoint := req.path, date := today, call_count := 1 }] := by
        unfold checkRows at hrows ⊢
        rw [List.filter_append, hrows]
        simp [rateKeyMatches_new]
      simp only [keyCount, hrows, currentCountOf] at hlt
      simp only [keyCount, hnew, hrows, currentCountOf]
      constructor
      · omega
      · intro _; omega
    · simp only [keyCount]
      rw [checkRows_append_other table v v' req.path e' today d' 1 hk]
      exact ⟨le_refl _, id⟩

/-- Successive calls, split in two parts. -/
theorem rateLimiterRun_append (LIMIT : Int) (table : List RateLimitRow)
    (xs ys : List (LimiterFaults × String × LimiterRequest)) :
    rateLimiterRun LIMIT table (xs ++ ys)
      = rateLimiterRun LIMIT (rateLimiterRun LIMIT table xs) ys := by
  induction xs generalizing table with
  | nil => rfl
  | cons c rest ih =>
    obtain ⟨faults, today, req⟩ := c
    simp only [List.cons_append, rateLimiterRun]
    exact ih _

/-- Successive calls never lower the count of a key. -/
theorem rateLimiterRun_mono (LIMIT : Int) (calls : List (LimiterFaults × String × LimiterRequest))
    (table : List RateLimitRow) (v : JsValue) (e d : String) :
    keyCount table v e d ≤ keyCount (rateLimiterRun LIMIT table calls) v e d := by
  induction calls generalizing table with
  | nil => exact le_refl _
  | cons c rest ih =>
    obtain ⟨faults, today, req⟩ := c
    simp only [rateLimiterRun]
    exact le_trans (rateLimiterWith_keyCount_step LIMIT faults today table req v e d).1 (ih _)

/-- Successive calls keep every count at most the ceiling. -/
theorem rateLimiterRun_bound (LIMIT : Int) (calls : List (LimiterFaults × String × LimiterRequest))
    (table : List RateLimitRow) (hstart : ∀ v e d, keyCount table v e d ≤ LIMIT) :
    ∀ v e d, keyCount (rateLimiterRun LIMIT table calls) v e d ≤ LIMIT := by
  induction calls generalizing table with
  | nil => exact hstart
  | cons c rest ih =>
    obtain ⟨faults, today, req⟩ := c
    simp only [rateLimiterRun]
    exact ih _ fun v e d =>
      (rateLimiterWith_keyCount_step LIMIT faults today table req v e d).2 (hstart v e d)

/-- In a table of one row every key has a count of at most `L` when the row has. -/
theorem keyCount_singleton_le (r : RateLimitRow) (L : Int) (h0 : 0 ≤ L)
    (hr : r.call_count ≤ L) (v : JsValue) (e d : String) : keyCount [r] v e d ≤ L := by
  unfold keyCount checkRows
  by_cases h : rateKeyMatches v e d r = true
  · simp only [List.filter_cons, h, if_true, List.filter_nil, currentCountOf]
    exact hr
  · have h2 : rateKeyMatches v e d r = false := by simpa using h
    simp only [List.filter_cons, h2, Bool.false_eq_true, if_false, List.filter_nil,
      currentCountOf]
    exact h0

/-- Every statement a call issues addresses the call's own key. -/
theorem rateLimiter_key_ops (LIMIT : Int) (faults : LimiterFaults) (today : String)
    (table : List RateLimitRow) (req : LimiterRequest) (v : JsValue)
    (hsub : subscriberNoOf req = some v) :
    ∀ op ∈ (rateLimiterWith LIMIT faults today table req).ops,
      op.key = (v, req.path, today) := by
  unfold rateLimiterWith
  simp only [hsub]
  by_cases ht : v.truthy = true
  · by_cases hc : faults .check = true
    · simp [ht, hc, limiterCatch, LimiterOp.key]
    · by_cases hge : LIMIT ≤ currentCountOf (checkRows table v req.path today)
      · simp [ht, hc, hge, LimiterOp.key]
      · cases hrows : checkRows table v req.path today with
        | nil =>
          rw [hrows] at hge
          by_cases hi : faults .insert = true
          · simp [ht, hc, hge, hi, limiterCatch, LimiterOp.key]
          · simp [ht, hc, hge, hi, LimiterOp.key]
        | cons r rest =>
          rw [hrows] at hge
          by_cases hu : faults .update = true
          · simp [ht, hc, hge, hu, limiterCatch, LimiterOp.key]
          · simp [ht, hc, hge, hu, LimiterOp.key]
  · simp [ht]

/-! ## The daily quota: further claims -/

/-- C23: for every sequence of `rateLimiter` calls on a table in which every
key has a count of at most the ceiling, the count of each key (subscriber,
endpoint, day) never decreases and never exceeds the ceiling: after `m` calls
it is at most what it is after `n ≥ m` calls, which is at most the ceiling.
This holds whether or not statements of the counter store fail. -/
theorem rateLimiter_counter_invariant (ceiling : Int) (table : List RateLimitRow)
    (calls : List (LimiterFaults × String × LimiterRequest))
    (hstart : ∀ v e d, keyCount table v e d ≤ ceiling) (m n : Nat) (hmn : m ≤ n)
    (v : JsValue) (e d : String) :
    keyCount (rateLimiterRun ceiling table (calls.take m)) v e d
        ≤ keyCount (rateLimiterRun ceiling table (calls.take n)) v e d ∧
      keyCount (rateLimiterRun ceiling table (calls.take n)) v e d ≤ ceiling := by
  constructor
  · have hsplit : calls.take n = calls.take m ++ (calls.take n).drop m := by
      have h := (List.take_append_drop m (calls.take n)).symm
      rwa [List.take_take, min_eq_left hmn] at h
    rw [hsplit, rateLimiterRun_append]
    exact rateLimiterRun_mono ceiling _ _ v e d
  · exact rateLimiterRun_bound ceiling _ table hstart v e d

theorem rateLimiter_counter_invariant_witness :
    (∀ v e d, keyCount [sampleRow "2024-03-15" 99] v e d ≤ LIMIT) ∧
    (1 ≤ 3) ∧
    (keyCount (rateLimiterRun LIMIT [sampleRow "2024-03-15" 99]
          ((List.replicate 3 (noLimiterFaults, "2024-03-15", sampleQuery)).take 1))
          (.string "5551234567") "/query" "2024-03-15"
        ≤ keyCount (rateLimiterRun LIMIT [sampleRow "2024-03-15" 99]
          ((List.replicate 3 (noLimiterFaults, "2024-03-15", sampleQuery)).take 3))
          (.string "5551234567") "/query" "2024-03-15" ∧
      keyCount (rateLimiterRun LIMIT [sampleRow "2024-03-15" 99]
          ((List.replicate 3 (noLimiterFaults, "2024-03-15", sampleQuery)).take 3))
          (.string "5551234567") "/query" "2024-03-15" ≤ LIMIT) ∧
    keyCount (rateLimiterRun LIMIT [sampleRow "2024-03-15" 99]
        (List.replicate 3 (noLimiterFaults, "2024-03-15", sampleQuery)))
        (.string "5551234567") "/query" "2024-03-15" = 100 :=
  ⟨fun v e d => keyCount_singleton_le _ LIMIT (by decide) (by decide) v e d,
    by decide,
    rateLimiter_counter_invariant LIMIT [sampleRow "2024-03-15" 99]
      (List.replicate 3 (noLimiterFaults, "2024-03-15", sampleQuery))
      (fun v e d => keyCount_singleton_le _ LIMIT (by decide) (by decide) v e d)
      1 3 (by decide) (.string "5551234567") "/query" "2024-03-15",
    by decide!⟩

/-- C24: quota keys are independent.  A `rateLimiter` call for subscriber `v`,
endpoint `req.path` and date `today` leaves the rows of every other key as
they were, addresses only its own key in the statements it issues, and its
decision depends on the table only through the rows of its own key; with no
row under its key (the first call on a new date) it decides as on an empty
table, whatever is stored under other dates. -/
theorem rateLimiter_keys_independent (ceiling : Int) (faults : LimiterFaults) (today : String)
    (table : List RateLimitRow) (req : LimiterRequest) (v : JsValue)
    (hsub : subscriberNoOf req = some v) :
    (∀ v' e' d', (v', e', d') ≠ (v, req.path, today) →
        checkRows (rateLimiterWith ceiling faults today table req).table v' e' d'
          = checkRows table v' e' d') ∧
      (∀ op ∈ (rateLimiterWith ceiling faults today table req).ops,
        op.key = (v, req.path, today)) ∧
      (∀ table2, checkRows table2 v req.path today = checkRows table v req.path today →
        (rateLimiterWith ceiling faults today table2 req).res
            = (rateLimiterWith ceiling faults today table req).res ∧
          (rateLimiterWith ceiling faults today table2 req).nextCalls
            = (rateLimiterWith ceiling faults today table req).nextCalls ∧
          (rateLimiterWith ceiling faults today table2 req).headers
            = (rateLimiterWith ceiling faults today table req).headers) ∧
      (checkRows table v req.path today = [] →
        (rateLimiterWith ceiling faults today table req).res
            = (rateLimiterWith ceiling faults today [] req).res ∧
          (rateLimiterWith ceiling faults today table req).nextCalls
            = (rateLimiterWith ceiling faults today [] req).nextCalls ∧
          (rateLimiterWith ceiling faults today table req).headers
            = (rateLimiterWith ceiling faults today [] req).headers) := by
  have hdep : ∀ t1 t2 : List RateLimitRow,
      checkRows t2 v req.path today = checkRows t1 v req.path today →
      (rateLimiterWith ceiling faults today t2 req).res
          = (rateLimiterWith ceiling faults today t1 req).res ∧
        (rateLimiterWith ceiling faults today t2 req).nextCalls
          = (rateLimiterWith ceiling faults today t1 req).nextCalls ∧
        (rateLimiterWith ceiling faults today t2 req).headers
          = (rateLimiterWith ceiling faults today t1 req).headers := by
    intro t1 t2 h
    unfold rateLimiterWith
    simp only [hsub, h]
    by_cases ht : v.truthy = true
    · by_cases hc : faults .check = true
      · simp [ht, hc, limiterCatch]
      · by_cases hge : ceiling ≤ currentCountOf (checkRows t1 v req.path today)
        · simp [ht, hc, hge]
        · cases hrows : checkRows t1 v req.path today with
          | nil =>
            rw [hrows] at hge
            by_cases hi : faults .insert = true
            · simp [ht, hc, hge, hi, limiterCatch]
            · simp [ht, hc, hge, hi]
          | cons r rest =>
            rw [hrows] at hge
            by_cases hu : faults .update = true
            · simp [ht, hc, hge, hu, limiterCatch]
            · simp [ht, hc, hge, hu]
    · simp [ht]
  refine ⟨?_, ?_, fun table2 h => hdep table table2 h, fun h => ?_⟩
  · intro v' e' d' hne
    exact rateLimiterWith_keyCount_other ceiling faults today table req v' e' d'
      (fun w hw => by rw [hsub] at hw; cases hw; exact hne)
  · exact rateLimiter_key_ops ceiling faults today table req v hsub
  · exact hdep [] table (by rw [h]; rfl)

theorem rateLimiter_keys_independent_witness :
    subscriberNoOf sampleQuery = some (.string "5551234567") ∧
    ((∀ v' e' d', (v', e', d') ≠ (JsValue.string "5551234567", sampleQuery.path, "2024-03-16") →
        checkRows (rateLimiterWith LIMIT noLimiterFaults "2024-03-16"
            [sampleRow "2024-03-15" 100] sampleQuery).table v' e' d'
          = checkRows [sampleRow "2024-03-15" 100] v' e' d') ∧
      (∀ op ∈ (rateLimiterWith LIMIT noLimiterFaults "2024-03-16"
            [sampleRow "2024-03-15" 100] sampleQuery).ops,
        op.key = (JsValue.string "5551234567", sampleQuery.path, "2024-03-16")) ∧
      (∀ table2, checkRows table2 (.string "5551234567") sampleQuery.path "2024-03-16"
          = checkRows [sampleRow "2024-03-15" 100] (.string "5551234567") sampleQuery.path
              "2024-03-16" →
        (rateLimiterWith LIMIT noLimiterFaults "2024-03-16" table2 sampleQuery).res
            = (rateLimiterWith LIMIT noLimiterFaults "2024-03-16"
                [sampleRow "2024-03-15" 100] sampleQuery).res ∧
          (rateLimiterWith LIMIT noLimiterFaults "2024-03-16" table2 sampleQuery).nextCalls
            = (rateLimiterWith LIMIT noLimiterFaults "2024-03-16"
                [sampleRow "2024-03-15" 100] sampleQuery).nextCalls ∧
          (rateLimiterWith LIMIT noLimiterFaults "2024-03-16" table2 sampleQuery).headers
            = (rateLimiterWith LIMIT noLimiterFaults "2024-03-16"
                [sampleRow "2024-03-15" 100] sampleQuery).headers) ∧
      (checkRows [sampleRow "2024-03-15" 100] (.string "5551234567") sampleQuery.path
          "2024-03-16" = [] →
        (rateLimiterWith LIMIT noLimiterFaults "2024-03-16"
            [sampleRow "2024-03-15" 100] sampleQuery).res
            = (rateLimiterWith LIMIT noLimiterFaults "2024-03-16" [] sampleQuery).res ∧
          (rateLimiterWith LIMIT noLimiterFaults "2024-03-16"
            [sampleRow "2024-03-15" 100] sampleQuery).nextCalls
            = (rateLimiterWith LIMIT noLimiterFaults "2024-03-16" [] sampleQuery).nextCalls ∧
          (rateLimiterWith LIMIT noLimiterFaults "2024-03-16"
            [sampleRow "2024-03-15" 100] sampleQuery).headers
            = (rateLimiterWith LIMIT noLimiterFaults "2024-03-16" [] sampleQuery).headers)) ∧
    rateLimiter noLimiterFaults "2024-03-16" [sampleRow "2024-03-15" 100] sampleQuery
      = { res := none, nextCalls := 1, headers := some { limit := 100, remaining := 99 }
          table := [sampleRow "2024-03-15" 100, sampleRow "2024-03-16" 1]
          ops := [.check (.string "5551234567") "/query" "2024-03-16",
                  .insert (.string "5551234567") "/query" "2024-03-16"] } :=
  ⟨by decide,
    rateLimiter_keys_independent LIMIT noLimiterFaults "2024-03-16"
      [sampleRow "2024-03-15" 100] sampleQuery (.string "5551234567") (by decide),
    by decide!⟩

/-- The two parts of `rateLimiter`, run one after the other on the same table,
are the middleware. -/
theorem rateLimiterWith_eq_read_write (LIMIT : Int) (faults : LimiterFaults) (today : String)
    (table : List RateLimitRow) (req : LimiterRequest) :
    rateLimiterWith LIMIT faults today table req =
      match rateLimiterRead faults today table req with
      | .inl o => o
      | .inr (v, rows) => rateLimiterWrite LIMIT faults today table req v rows := by
  unfold rateLimiterWith rateLimiterRead rateLimiterWrite
  cases subscriberNoOf req with
  | none => rfl
  | some v =>
    by_cases ht : v.truthy = true
    · by_cases hc : faults .check = true
      · simp [ht, hc]
      · simp [ht, hc]
    · simp [ht]

/-- C22 fails on the code: the count is read by a `SELECT` and written by a
separate `UPDATE`, with no transaction or lock around the two.  With the
count at 99 (ceiling 100), two simultaneous calls that both run their
`SELECT` before either `UPDATE` both read 99 and are both admitted, and the
stored count ends at 101, above the ceiling. -/
theorem rateLimiter_race_admits_both :
    keyCount [sampleRow "2024-03-15" 99] (.string "5551234567") "/query" "2024-03-15"
        = LIMIT - 1 ∧
      ((rateLimiterRace LIMIT "2024-03-15" [sampleRow "2024-03-15" 99] sampleQuery
          sampleQuery).1.res = none ∧
        (rateLimiterRace LIMIT "2024-03-15" [sampleRow "2024-03-15" 99] sampleQuery
          sampleQuery).1.nextCalls = 1) ∧
      ((rateLimiterRace LIMIT "2024-03-15" [sampleRow "2024-03-15" 99] sampleQuery
          sampleQuery).2.res = none ∧
        (rateLimiterRace LIMIT "2024-03-15" [sampleRow "2024-03-15" 99] sampleQuery
          sampleQuery).2.nextCalls = 1) ∧
      (rateLimiterRace LIMIT "2024-03-15" [sampleRow "2024-03-15" 99] sampleQuery
          sampleQuery).2.table = [sampleRow "2024-03-15" 101] ∧
      LIMIT < keyCount (rateLimiterRace LIMIT "2024-03-15" [sampleRow "2024-03-15" 99]
          sampleQuery sampleQuery).2.table (.string "5551234567") "/query" "2024-03-15" := by
  decide!

/-- C30: a request that carries no subscriber number in its query string,
body or route parameters (each of the three is absent or falsy) is rejected
with status 400; `next` is not called and no statement is issued.  Otherwise
the subscriber number is the query-string value when given, else the body
value when given, else the route parameter, and every statement issued uses
it.  Here `req.body` is an object, as the body parsers of `server.js` leave
it. -/
theorem rateLimiter_subscriber_required (ceiling : Int) (faults : LimiterFaults)
    (today : String) (table : List RateLimitRow) (req : LimiterRequest) (b : JsValue)
    (hbody : req.body_subscriber_no = some b) :
    (req.query_subscriber_no.truthy = false → b.truthy = false →
        req.params_subscriber_no.truthy = false →
        rateLimiterWith ceiling faults today table req =
          { res := some { status := 400
                          message := "Subscriber number is required for rate limiting."
                          limit := none, remaining := none }
            nextCalls := 0, headers := none, table := table, ops := [] }) ∧
      subscriberNoOf req = some
        (if req.query_subscriber_no.truthy then req.query_subscriber_no
         else if b.truthy then b else req.params_subscriber_no) ∧
      ∀ op ∈ (rateLimiterWith ceiling faults today table req).ops,
        op.key.1 = (if req.query_subscriber_no.truthy then req.query_subscriber_no
          else if b.truthy then b else req.params_subscriber_no) := by
  have hsub : subscriberNoOf req = some
      (if req.query_subscriber_no.truthy then req.query_subscriber_no
       else if b.truthy then b else req.params_subscriber_no) := by
    unfold subscriberNoOf
    by_cases hq : req.query_subscriber_no.truthy = true
    · simp [hq]
    · simp [hq, hbody, JsValue.or]
  refine ⟨?_, hsub, ?_⟩
  · intro hq hb hp
    simp [rateLimiterWith, hsub, hq, hb, hp]
  · intro op hop
    have h := (rateLimiter_key_ops ceiling faults today table req _ hsub) op hop
    rw [h]

/-- C30, at concrete inputs: a request with no subscriber number anywhere is
rejected with 400 and no statement; with all three given the query-string
value is used, and with only body and route parameter the body value. -/
theorem rateLimiter_subscriber_required_witness :
    ({ query_subscriber_no := .undefined, body_subscriber_no := some .undefined
       params_subscriber_no := .undefined, path := "/query" } : LimiterRequest).body_subscriber_no
      = some .undefined ∧
    rateLimiterWith LIMIT noLimiterFaults "2024-03-15" []
        { query_subscriber_no := .undefined, body_subscriber_no := some .undefined
          params_subscriber_no := .undefined, path := "/query" } =
      { res := some { status := 400
                      message := "Subscriber number is required for rate limiting."
                      limit := none, remaining := none }
        nextCalls := 0, headers := none, table := [], ops := [] } ∧
    subscriberNoOf { query_subscriber_no := .string "111", body_subscriber_no := some (.string "222")
                     params_subscriber_no := .string "333", path := "/query" }
      = some (.string "111") ∧
    subscriberNoOf { query_subscriber_no := .undefined, body_subscriber_no := some (.string "222")
                     params_subscriber_no := .string "333", path := "/query" }
      = some (.string "222") ∧
    subscriberNoOf { query_subscriber_no := .undefined, body_subscriber_no := some .undefined
                     params_subscriber_no := .string "333", path := "/query" }
      = some (.string "333") :=
  ⟨rfl,
    (rateLimiter_subscriber_required LIMIT noLimiterFaults "2024-03-15" []
      { query_subscriber_no := .undefined, body_subscriber_no := some .undefined
        params_subscriber_no := .undefined, path := "/query" } .undefined rfl).1 rfl rfl rfl,
    by decide, by decide, by decide⟩

/-! ## Paying a bill that is paid in full -/

/-- C29 as stated fails: `zeroBill` has `paid_amount = total_amount` and is
stored with `paid_status = false`; paying it succeeds and the stored
`paid_status` becomes true, so the stored status is not left unchanged. -/
theorem payBill_zero_total_status_changes :
    zeroBill.paid_amount = zeroBill.total_amount ∧
      (selectBill decimalEnv [zeroBill] (zeroBody (.number (.num 5))).subscriber_no
          (decimalEnv.parseInt (zeroBody (.number (.num 5))).month)
          (yearOf decimalEnv (zeroBody (.number (.num 5))))).map (·.paid_status)
        = some false ∧
      (payBill decimalEnv noFaults { bills := [zeroBill], transactions := [] }
          (zeroBody (.number (.num 5)))).res.status = 200 ∧
      (selectBill decimalEnv
          (payBill decimalEnv noFaults { bills := [zeroBill], transactions := [] }
            (zeroBody (.number (.num 5)))).store.bills
          (zeroBody (.number (.num 5))).subscriber_no
          (decimalEnv.parseInt (zeroBody (.number (.num 5))).month)
          (yearOf decimalEnv (zeroBody (.number (.num 5))))).map (·.paid_status)
        = some true := by
  decide!

/-- C29 as amended: paying a bill with `paid_amount = total_amount` is
accepted.  For every amount `a > 0` (and store steps that do not fail)
`payBill` succeeds, returns `remaining_amount = 0` and `"fully_paid"`, leaves
the stored `paid_amount` unchanged and the stored status fully paid (so the
row is unchanged when it was already marked fully paid), and appends one
transaction record with the requested amount. -/
theorem payBill_on_settled_bill (env : Env) (faults : Faults) (s : Store)
    (body : PayBody) (bill : Bill) (a : ℚ)
    (hreq : namesBill env body) (hf : faults.payPathClear)
    (hbill : selectBill env s.bills body.subscriber_no (env.parseInt body.month)
      (yearOf env body) = some bill)
    (hamount : body.amount = .number (.num a)) (ha : 0 < a)
    (hpaid : bill.paid_amount = bill.total_amount) :
    (∃ d, (payBill env faults s body).res = .success d ∧ d.amount_paid = .num a ∧
        d.remaining_amount = .num 0 ∧ d.bill_status = "fully_paid") ∧
      selectBill env (payBill env faults s body).store.bills body.subscriber_no
          (env.parseInt body.month) (yearOf env body)
        = some { bill with paid_status := true } ∧
      (bill.paid_status = true →
        selectBill env (payBill env faults s body).store.bills body.subscriber_no
          (env.parseInt body.month) (yearOf env body) = some bill) ∧
      ∃ t, (payBill env faults s body).store.transactions = s.transactions ++ [t] ∧
        t.amount = a := by
  have hv := passesValidation_of_pos env body a hreq hamount ha
  have hpf : env.parseFloat body.amount = .num a := by rw [hamount]; rfl
  rw [payBill_eq_paidOutcome env faults s body bill a hv hf hbill hpf]
  have hfull : bill.total_amount ≤ bill.paid_amount + a := by rw [hpaid]; linarith
  have hmin : min (bill.paid_amount + a) bill.total_amount = bill.paid_amount := by
    rw [min_eq_right hfull, hpaid]
  have hsel := selectBill_updateBill_self env s.bills bill
    (min (bill.paid_amount + a) bill.total_amount)
    (decide (bill.total_amount ≤ bill.paid_amount + a)) _ _ _ hbill
  have hsel2 : selectBill env (paidOutcome env s body bill a).store.bills body.subscriber_no
      (env.parseInt body.month) (yearOf env body) = some { bill with paid_status := true } := by
    have hdec : decide (bill.total_amount ≤ bill.paid_amount + a) = true := by
      simpa using hfull
    rw [hmin, hdec] at hsel
    simp only [paidOutcome]
    rw [hmin, hdec]
    exact hsel
  refine ⟨⟨_, rfl, rfl, ?_, ?_⟩, hsel2, ?_, _, rfl, rfl⟩
  · simp [hfull]
  · simp [hfull]
  · intro hst
    rw [hsel2]
    cases bill
    simp only [Option.some.injEq, Bill.mk.injEq, true_and, and_true]
    exact hst.symm

theorem payBill_on_settled_bill_witness :
    (namesBill decimalEnv (sampleBody (.number (.num 80))) ∧ noFaults.payPathClear ∧
      selectBill decimalEnv
        [{ sampleBill with paid_amount := 200, paid_status := true }]
        (sampleBody (.number (.num 80))).subscriber_no
        (decimalEnv.parseInt (sampleBody (.number (.num 80))).month)
        (yearOf decimalEnv (sampleBody (.number (.num 80))))
        = some { sampleBill with paid_amount := 200, paid_status := true } ∧
      (0 : ℚ) < 80 ∧
      ({ sampleBill with paid_amount := 200, paid_status := true } : Bill).paid_amount
        = ({ sampleBill with paid_amount := 200, paid_status := true } : Bill).total_amount) ∧
    ((∃ d, (payBill decimalEnv noFaults
          { bills := [{ sampleBill with paid_amount := 200, paid_status := true }]
            transactions := [] } (sampleBody (.number (.num 80)))).res = .success d ∧
        d.amount_paid = .num 80 ∧ d.remaining_amount = .num 0 ∧
        d.bill_status = "fully_paid") ∧
      selectBill decimalEnv (payBill decimalEnv noFaults
          { bills := [{ sampleBill with paid_amount := 200, paid_status := true }]
            transactions := [] } (sampleBody (.number (.num 80)))).store.bills
          (sampleBody (.number (.num 80))).subscriber_no
          (decimalEnv.parseInt (sampleBody (.number (.num 80))).month)
          (yearOf decimalEnv (sampleBody (.number (.num 80))))
        = some { ({ sampleBill with paid_amount := 200, paid_status := true } : Bill) with
            paid_status := true } ∧
      (({ sampleBill with paid_amount := 200, paid_status := true } : Bill).paid_status = true →
        selectBill decimalEnv (payBill decimalEnv noFaults
          { bills := [{ sampleBill with paid_amount := 200, paid_status := true }]
            transactions := [] } (sampleBody (.number (.num 80)))).store.bills
          (sampleBody (.number (.num 80))).subscriber_no
          (decimalEnv.parseInt (sampleBody (.number (.num 80))).month)
          (yearOf decimalEnv (sampleBody (.number (.num 80))))
          = some { sampleBill with paid_amount := 200, paid_status := true }) ∧
      ∃ t, (payBill decimalEnv noFaults
          { bills := [{ sampleBill with paid_amount := 200, paid_status := true }]
            transactions := [] } (sampleBody (.number (.num 80)))).store.transactions
          = ([] : List Transaction) ++ [t] ∧ t.amount = 80) :=
  ⟨⟨by decide!, by decide!, by decide!, by norm_num, by decide!⟩,
    payBill_on_settled_bill decimalEnv noFaults
      { bills := [{ sampleBill with paid_amount := 200, paid_status := true }]
        transactions := [] }
      (sampleBody (.number (.num 80)))
      { sampleBill with paid_amount := 200, paid_status := true } 80
      (by decide!) (by decide!) (by decide!) rfl (by norm_num) (by decide!)⟩

/-! ## Pagination -/

/-- C26: a request with `page=0` is admitted, as page 1 with offset 0, and a
request with `limit=0` is admitted, as limit 10: `parseInt(...) || default`
replaces the 0 before the guards `page < 1` and `limit < 1` see it.  A page
of -1 and a limit of 101 are rejected with 400. -/
theorem pagination_zero_admitted :
    pagination decimalEnv (.string "0") .undefined
      = { res := none, nextCalls := 1
          pagination := some { page := 1, limit := 10, offset := 0 } } ∧
    pagination decimalEnv (.string "2") (.string "0")
      = { res := none, nextCalls := 1
          pagination := some { page := 2, limit := 10, offset := 10 } } ∧
    pagination decimalEnv (.string "-1") .undefined
      = { res := some (.error 400 "Page number must be greater than 0.")
          nextCalls := 0, pagination := none } ∧
    pagination decimalEnv .undefined (.string "101")
      = { res := some (.error 400 "Limit must be between 1 and 100.")
          nextCalls := 0, pagination := none } := by
  decide!

/-- C27 as stated fails: for `page=99999999999999999999` the middleware sets
page 1e20 and limit 10 and lets the request through, and the offset it
computes in double precision is 1e21, which is not `(page - 1) * limit`: the
double nearest to `1e20 - 1` is 1e20. -/
theorem pagination_offset_rounded :
    pagination decimalEnv (.string "99999999999999999999") .undefined
      = { res := none, nextCalls := 1
          pagination := some
            { page := 100000000000000000000, limit := 10
              offset := 1000000000000000000000 } } ∧
    (1000000000000000000000 : ℚ) ≠ (100000000000000000000 - 1) * 10 := by
  decide!

/-- C27 as amended: when the pagination middleware lets a request through,
it has sent no response and set `req.pagination` to the page
`parseInt(page) || 1`, the limit `parseInt(limit) || 10` and the offset
`(page - 1) * limit` computed in double precision, with `page ≥ 1`,
`1 ≤ limit ≤ 100` and `offset ≥ 0`; the offset is `(page - 1) * limit` itself
whenever page and limit are integers and that product is below `2 ^ 53`.  A
request without `page` and `limit` is let through with page 1, limit 10,
offset 0. -/
theorem pagination_admitted_bounds (env : Env) (queryPage queryLimit : JsValue)
    (hnext : (pagination env queryPage queryLimit).nextCalls = 1) :
    ((pagination env queryPage queryLimit).res = none ∧
      (pagination env queryPage queryLimit).pagination
        = some { page := env.parseIntOr queryPage 1, limit := env.parseIntOr queryLimit 10
                 offset := roundDouble (roundDouble (env.parseIntOr queryPage 1 - 1)
                   * env.parseIntOr queryLimit 10) } ∧
      1 ≤ env.parseIntOr queryPage 1 ∧ 1 ≤ env.parseIntOr queryLimit 10 ∧
      env.parseIntOr queryLimit 10 ≤ 100 ∧
      0 ≤ roundDouble (roundDouble (env.parseIntOr queryPage 1 - 1)
        * env.parseIntOr queryLimit 10) ∧
      ∀ k l : ℤ, env.parseIntOr queryPage 1 = k → env.parseIntOr queryLimit 10 = l →
        (k - 1) * l < 2 ^ 53 →
        roundDouble (roundDouble (env.parseIntOr queryPage 1 - 1)
            * env.parseIntOr queryLimit 10)
          = (env.parseIntOr queryPage 1 - 1) * env.parseIntOr queryLimit 10) ∧
    pagination env .undefined .undefined
      = { res := none, nextCalls := 1
          pagination := some { page := 1, limit := 10, offset := 0 } } := by
  refine ⟨?_, by simp [pagination, Env.parseIntOr, Env.parseInt, roundDouble]; norm_num⟩
  unfold pagination at hnext ⊢
  by_cases h1 : env.parseIntOr queryPage 1 < 1
  · simp [h1] at hnext
  · by_cases h2 : env.parseIntOr queryLimit 10 < 1 ∨ env.parseIntOr queryLimit 10 > 100
    · simp [h1, h2] at hnext
    · rw [if_neg h1, if_neg h2]
      push_neg at h1 h2
      have hp0 : (0 : ℚ) ≤ env.parseIntOr queryPage 1 - 1 := by linarith
      have hl0 : (0 : ℚ) ≤ env.parseIntOr queryLimit 10 := by linarith [h2.1]
      refine ⟨rfl, rfl, h1, h2.1, h2.2, ?_, ?_⟩
      · exact roundDouble_nonneg _ (mul_nonneg (roundDouble_nonneg _ hp0) hl0)
      · intro k l hk hl hprod
        rw [hk] at h1
        rw [hl] at h2
        rw [hk, hl]
        have hk1 : (1 : ℤ) ≤ k := by exact_mod_cast h1
        have hl1 : (1 : ℤ) ≤ l := by exact_mod_cast h2.1
        have hkl : k - 1 ≤ (k - 1) * l := by nlinarith
        have hnn : 0 ≤ (k - 1) * l := by nlinarith
        have e1 : roundDouble ((k : ℚ) - 1) = ((k - 1 : ℤ) : ℚ) := by
          have h := roundDouble_intCast (k - 1) (by rw [abs_lt]; constructor <;> omega)
          push_cast at h ⊢
          exact h
        rw [e1]
        have e2 := roundDouble_intCast ((k - 1) * l) (by rw [abs_lt]; constructor <;> omega)
        push_cast at e2 ⊢
        exact e2

/-- C27 as amended, at a concrete input: `page=3&limit=20` gives page 3,
limit 20 and offset `(3 - 1) * 20 = 40`. -/
theorem pagination_admitted_bounds_witness :
    (pagination decimalEnv (.string "3") (.string "20")).nextCalls = 1 ∧
    decimalEnv.parseIntOr (.string "3") 1 = ((3 : ℤ) : ℚ) ∧
    decimalEnv.parseIntOr (.string "20") 10 = ((20 : ℤ) : ℚ) ∧
    (pagination decimalEnv (.string "3") (.string "20")).pagination
      = some { page := 3, limit := 20, offset := 40 } ∧
    roundDouble (roundDouble (decimalEnv.parseIntOr (.string "3") 1 - 1)
        * decimalEnv.parseIntOr (.string "20") 10)
      = (decimalEnv.parseIntOr (.string "3") 1 - 1) * decimalEnv.parseIntOr (.string "20") 10 :=
  ⟨by decide!, by decide!, by decide!, by decide!,
    (pagination_admitted_bounds decimalEnv (.string "3") (.string "20") (by decide!)).1.2.2.2.2.2.2
      3 20 (by decide!) (by decide!) (by norm_num)⟩

/-! ## The month guard -/

/-- After the bill was found, no further bill query is issued. -/
theorem payBillFound_select_mem (env : Env) (faults : Faults) (s : Store) (body : PayBody)
    (ops : List Op) (bill : Bill) (sub : JsValue) (m : JsNum) (y : JsValue)
    (h : Op.select sub m y ∈ (payBillFound env faults s body ops bill).ops) :
    Op.select sub m y ∈ ops := by
  unfold payBillFound at h
  cases hp : env.parseFloat body.amount with
  | nan => simpa [hp, JsNum.add, JsNum.min, payBillCatch] using h
  | num a =>
    simp only [hp, JsNum.add, JsNum.min] at h
    by_cases f4 : faults .update = true
    · simpa [f4, payBillCatch] using h
    by_cases f5 : faults .insert = true
    · simpa [f4, f5, payBillCatch] using h
    by_cases f6 : faults .commit = true
    · simpa [f4, f5, f6, payBillCatch] using h
    · simpa [f4, f5, f6] using h

/-- The transaction of `payBill` queries the bill with the month it was given. -/
theorem payBillTransaction_select_mem (env : Env) (faults : Faults) (s : Store)
    (body : PayBody) (monthNum : JsNum) (year : JsValue) (sub : JsValue) (m : JsNum)
    (y : JsValue)
    (h : Op.select sub m y ∈ (payBillTransaction env faults s body monthNum year).ops) :
    m = monthNum := by
  unfold payBillTransaction at h
  by_cases hc : faults .connect = true
  · simp [hc] at h
  by_cases hb : faults .begin = true
  · simp [hc, hb, payBillCatch] at h
  by_cases hs : faults .select = true
  · simp [hc, hb, hs, payBillCatch] at h
    exact h.2.1
  simp only [hc, hb, hs, if_false] at h
  cases hsel : selectBill env s.bills body.subscriber_no monthNum year with
  | none =>
    rw [hsel] at h
    by_cases hr : faults .rollbackNotFound = true
    · simp [hr, payBillCatch] at h
      exact h.2.1
    · simp [hr] at h
      exact h.2.1
  | some bill =>
    rw [hsel] at h
    have h2 := payBillFound_select_mem env faults s body _ bill sub m y h
    simp at h2
    exact h2.2.1

/-- A runtime whose `parseInt` reads strings and exponent forms as `NaN` or an
integer reads every value so. -/
theorem parseInt_integral (env : Env) (hint : env.parseIntIntegral) (v : JsValue) :
    env.parseInt v = .nan ∨ ∃ k : ℤ, env.parseInt v = .num (k : ℚ) := by
  cases v with
  | undefined => exact Or.inl rfl
  | null => exact Or.inl rfl
  | bool b => exact Or.inl rfl
  | string s => exact hint.1 s
  | number n =>
    cases n with
    | nan => exact Or.inl rfl
    | num q =>
      simp only [Env.parseInt]
      by_cases h : q = 0 ∨ ((1 : ℚ) / 1000000 ≤ |q| ∧ |q| < 1000000000000000000000)
      · rw [if_pos h]
        exact Or.inr ⟨_, rfl⟩
      · rw [if_neg h]
        exact hint.2 q

/-- A month that passes the guard is read by `parseInt` as an integer from 1
to 12, when `parseInt` returns `NaN` or an integer. -/
theorem month_of_not_rejected (env : Env) (hint : env.parseIntIntegral) (month : JsValue)
    (h : monthRejected env month = false) :
    ∃ k : ℤ, env.parseInt month = .num (k : ℚ) ∧ 1 ≤ k ∧ k ≤ 12 := by
  unfold monthRejected at h
  rcases parseInt_integral env hint month with hn | ⟨k, hk⟩
  · simp [hn, JsNum.isNaN] at h
  · refine ⟨k, hk, ?_, ?_⟩
    · simp [hk, JsNum.isNaN, JsNum.lt, JsNum.gt] at h
      exact_mod_cast h.1.2
    · simp [hk, JsNum.isNaN, JsNum.lt, JsNum.gt] at h
      exact_mod_cast h.2

/-- The decimal runtime reads integers. -/
theorem decimalEnv_parseIntIntegral : decimalEnv.parseIntIntegral := by
  refine ⟨fun s => ?_, fun q => Or.inl rfl⟩
  show decimalParseInt s = .nan ∨ ∃ k : ℤ, decimalParseInt s = .num (k : ℚ)
  unfold decimalParseInt
  simp only
  split_ifs with h0 hneg
  · exact Or.inl rfl
  · obtain ⟨k, hk⟩ := roundDouble_intCast_isInt (-((readDigits (readSign s.data).2 0 0).1 : ℤ))
    exact Or.inr ⟨k, by rw [← hk]; push_cast; rfl⟩
  · obtain ⟨k, hk⟩ := roundDouble_intCast_isInt ((readDigits (readSign s.data).2 0 0).1 : ℤ)
    exact Or.inr ⟨k, by rw [← hk]; push_cast; rfl⟩

/-- A request whose month the guard rejects is answered by `payBill` with 400
before any store operation. -/
theorem payBill_month_rejected (env : Env) (faults : Faults) (s : Store) (body : PayBody)
    (h : monthRejected env body.month = true) :
    (payBill env faults s body).res.status = 400 ∧ (payBill env faults s body).ops = [] ∧
      (payBill env faults s body).store = s := by
  unfold payBill
  by_cases h1 : (!body.subscriber_no.truthy || !body.month.truthy) = true
  · simp [h1, reject, Response.status]
  by_cases h2 : (!body.amount.truthy || (env.toNumber body.amount).le (.num 0)) = true
  · simp [h1, h2, reject, Response.status]
  by_cases h3 : ((env.parseInt body.month).isNaN || (env.parseInt body.month).lt (.num 1)
      || (env.parseInt body.month).gt (.num 12)) = true
  · simp [h1, h2, h3, reject, Response.status]
  · exfalso
    unfold monthRejected at h
    simp only [Bool.or_eq_true, Bool.not_eq_true', not_or, Bool.not_eq_true,
      Bool.not_eq_false] at h h1 h3
    rcases h with ((h | h) | h) | h
    · rw [h1.2] at h; exact Bool.noConfusion h
    · rw [h3.1.1] at h; exact Bool.noConfusion h
    · rw [h3.1.2] at h; exact Bool.noConfusion h
    · rw [h3.2] at h; exact Bool.noConfusion h

/-- Every bill query of `payBill` carries the month read by `parseInt`. -/
theorem payBill_select_mem (env : Env) (faults : Faults) (s : Store) (body : PayBody)
    (sub : JsValue) (m : JsNum) (y : JsValue)
    (h : Op.select sub m y ∈ (payBill env faults s body).ops) :
    m = env.parseInt body.month := by
  unfold payBill at h
  by_cases h1 : (!body.subscriber_no.truthy || !body.month.truthy) = true
  · simp [h1, reject] at h
  by_cases h2 : (!body.amount.truthy || (env.toNumber body.amount).le (.num 0)) = true
  · simp [h1, h2, reject] at h
  by_cases h3 : ((env.parseInt body.month).isNaN || (env.parseInt body.month).lt (.num 1)
      || (env.parseInt body.month).gt (.num 12)) = true
  · simp [h1, h2, h3, reject] at h
  simp only [h1, h2, h3, if_false] at h
  exact payBillTransaction_select_mem env faults s body _ _ sub m y h

/-- A request whose month the guard rejects is answered by `queryBill` with
400 before the bill query. -/
theorem queryBill_month_rejected (env : Env) (fails : Bool) (bills : List Bill)
    (query : BillQuery) (h : monthRejected env query.month = true) :
    (queryBill env fails bills query).res.status = 400 ∧
      (queryBill env fails bills query).ops = [] := by
  unfold queryBill
  by_cases h1 : (!query.subscriber_no.truthy || !query.month.truthy) = true
  · simp [h1, QueryResponse.status]
  by_cases h3 : ((env.parseInt query.month).isNaN || (env.parseInt query.month).lt (.num 1)
      || (env.parseInt query.month).gt (.num 12)) = true
  · simp [h1, h3, QueryResponse.status]
  · exfalso
    unfold monthRejected at h
    simp only [Bool.or_eq_true, Bool.not_eq_true', not_or, Bool.not_eq_true,
      Bool.not_eq_false] at h h1 h3
    rcases h with ((h | h) | h) | h
    · rw [h1.2] at h; exact Bool.noConfusion h
    · rw [h3.1.1] at h; exact Bool.noConfusion h
    · rw [h3.1.2] at h; exact Bool.noConfusion h
    · rw [h3.2] at h; exact Bool.noConfusion h

/-- A request whose month the guard rejects is answered by `queryBillDetailed`
with 400 before the bill query. -/
theorem queryBillDetailed_month_rejected (env : Env) (failsBill failsDetails failsCount : Bool)
    (bills : List Bill) (details : List BillDetail) (query : BillQuery)
    (paging : Option Pagination) (h : monthRejected env query.month = true) :
    (queryBillDetailed env failsBill failsDetails failsCount bills details query paging).res.status
        = 400 ∧
      (queryBillDetailed env failsBill failsDetails failsCount bills details query paging).ops
        = [] := by
  unfold queryBillDetailed
  by_cases h1 : (!query.subscriber_no.truthy || !query.month.truthy) = true
  · simp [h1, QueryResponse.status]
  by_cases h3 : ((env.parseInt query.month).isNaN || (env.parseInt query.month).lt (.num 1)
      || (env.parseInt query.month).gt (.num 12)) = true
  · simp [h1, h3, QueryResponse.status]
  · exfalso
    unfold monthRejected at h
    simp only [Bool.or_eq_true, Bool.not_eq_true', not_or, Bool.not_eq_true,
      Bool.not_eq_false] at h h1 h3
    rcases h with ((h | h) | h) | h
    · rw [h1.2] at h; exact Bool.noConfusion h
    · rw [h3.1.1] at h; exact Bool.noConfusion h
    · rw [h3.1.2] at h; exact Bool.noConfusion h
    · rw [h3.2] at h; exact Bool.noConfusion h

/-- The bill query of `queryBill` carries the month read by `parseInt`. -/
theorem queryBill_bill_mem (env : Env) (fails : Bool) (bills : List Bill)
    (query : BillQuery) (sub : JsValue) (m : JsNum) (y : JsValue)
    (h : QueryOp.bill sub m y ∈ (queryBill env fails bills query).ops) :
    m = env.parseInt query.month := by
  unfold queryBill at h
  by_cases h1 : (!query.subscriber_no.truthy || !query.month.truthy) = true
  · simp [h1] at h
  by_cases h3 : ((env.parseInt query.month).isNaN || (env.parseInt query.month).lt (.num 1)
      || (env.parseInt query.month).gt (.num 12)) = true
  · simp [h1, h3] at h
  simp only [h1, h3, if_false] at h
  cases fails with
  | true => simp at h; exact h.2.1
  | false =>
    cases hsel : selectBill env bills query.subscriber_no (env.parseInt query.month)
        (queryYear env query) with
    | none => rw [hsel] at h; simp at h; exact h.2.1
    | some bill => rw [hsel] at h; simp at h; exact h.2.1

/-- The bill query of `queryBillDetailed` carries the month read by `parseInt`. -/
theorem queryBillDetailed_bill_mem (env : Env) (failsBill failsDetails failsCount : Bool)
    (bills : List Bill) (details : List BillDetail) (query : BillQuery)
    (paging : Option Pagination) (sub : JsValue) (m : JsNum) (y : JsValue)
    (h : QueryOp.bill sub m y ∈
      (queryBillDetailed env failsBill failsDetails failsCount bills details query paging).ops) :
    m = env.parseInt query.month := by
  unfold queryBillDetailed at h
  by_cases h1 : (!query.subscriber_no.truthy || !query.month.truthy) = true
  · simp [h1] at h
  by_cases h3 : ((env.parseInt query.month).isNaN || (env.parseInt query.month).lt (.num 1)
      || (env.parseInt query.month).gt (.num 12)) = true
  · simp [h1, h3] at h
  simp only [h1, h3, if_false] at h
  cases failsBill with
  | true => simp at h; exact h.2.1
  | false =>
    cases hsel : selectBill env bills query.subscriber_no (env.parseInt query.month)
        (queryYear env query) with
    | none => rw [hsel] at h; simp at h; exact h.2.1
    | some bill =>
      rw [hsel] at h
      cases paging with
      | none => simp at h; exact h.2.1
      | some p =>
        by_cases hf : (failsDetails || failsCount) = true
        · simp [hf] at h; exact h.2.1
        · simp [hf] at h; exact h.2.1

/-- C25 fails on the code: the guard answers `Month must be a number between
1 and 12.` only when `parseInt(month)` is `NaN` or out of range.  The month
`"3abc"` is not a number (`Number("3abc")` is `NaN`), yet `parseInt` reads it
as 3 and `payBill` pays the bill of March with status 200; the month 12.9 is
not between 1 and 12, yet `parseInt` reads it as 12 and `payBill` and
`queryBill` query the store for month 12 and answer 404, not 400. -/
theorem payBill_month_lenient :
    decimalEnv.toNumber (.string "3abc") = .nan ∧
    (payBill decimalEnv noFaults sampleStore (sampleMonthBody (.string "3abc"))).res.status
      = 200 ∧
    (payBill decimalEnv noFaults sampleStore (sampleMonthBody (.string "3abc"))).ops
      = [.connect, .begin, .select (.string "5551234567") (.num 3) (.number (.num 2024)),
          .update (.num 80) false 1, .insert 1 (.string "5551234567") (.num 80),
          .commit, .release] ∧
    (payBill decimalEnv noFaults sampleStore
      (sampleMonthBody (.number (.num (129 / 10))))).res.status = 404 ∧
    (payBill decimalEnv noFaults sampleStore (sampleMonthBody (.number (.num (129 / 10))))).ops
      = [.connect, .begin, .select (.string "5551234567") (.num 12) (.number (.num 2024)),
          .rollback, .release] ∧
    queryBill decimalEnv false sampleStore.bills (sampleBillQuery (.string "12.9"))
      = { res := .error 404 "Bill not found for the specified subscriber and month."
          ops := [.bill (.string "5551234567") (.num 12) (.number (.num 2024))] } := by
  decide!

/-- What the month guard does secure: `payBill`, `queryBill` and
`queryBillDetailed` answer with 400, before any store operation, every request
whose month is missing or is read by `parseInt` as `NaN` or as a number
outside 1 to 12.  When `parseInt` returns `NaN` or an integer, a request that
reaches the store does so with the month `parseInt` read, an integer from 1 to
12, and every bill query carries that month. -/
theorem month_guard_before_store (env : Env) (faults : Faults) (s : Store) (body : PayBody)
    (fails failsBill failsDetails failsCount : Bool) (bills : List Bill)
    (details : List BillDetail) (query : BillQuery) (paging : Option Pagination) :
    (monthRejected env body.month = true →
      (payBill env faults s body).res.status = 400 ∧ (payBill env faults s body).ops = [] ∧
        (payBill env faults s body).store = s) ∧
    (monthRejected env query.month = true →
      (queryBill env fails bills query).res.status = 400 ∧
      (queryBill env fails bills query).ops = [] ∧
      (queryBillDetailed env failsBill failsDetails failsCount bills details query
        paging).res.status = 400 ∧
      (queryBillDetailed env failsBill failsDetails failsCount bills details query
        paging).ops = []) ∧
    (env.parseIntIntegral →
      ((payBill env faults s body).ops ≠ [] →
        ∃ k : ℤ, 1 ≤ k ∧ k ≤ 12 ∧ env.parseInt body.month = .num (k : ℚ) ∧
          ∀ sub m y, Op.select sub m y ∈ (payBill env faults s body).ops →
            m = .num (k : ℚ)) ∧
      ((queryBill env fails bills query).ops ≠ [] ∨
          (queryBillDetailed env failsBill failsDetails failsCount bills details query
            paging).ops ≠ [] →
        ∃ k : ℤ, 1 ≤ k ∧ k ≤ 12 ∧ env.parseInt query.month = .num (k : ℚ) ∧
          (∀ sub m y, QueryOp.bill sub m y ∈ (queryBill env fails bills query).ops →
            m = .num (k : ℚ)) ∧
          ∀ sub m y, QueryOp.bill sub m y ∈
              (queryBillDetailed env failsBill failsDetails failsCount bills details query
                paging).ops →
            m = .num (k : ℚ))) := by
  refine ⟨payBill_month_rejected env faults s body, fun h => ?_, fun hint => ⟨fun h => ?_, fun h => ?_⟩⟩
  · exact ⟨(queryBill_month_rejected env fails bills query h).1,
      (queryBill_month_rejected env fails bills query h).2,
      (queryBillDetailed_month_rejected env failsBill failsDetails failsCount bills details
        query paging h).1,
      (queryBillDetailed_month_rejected env failsBill failsDetails failsCount bills details
        query paging h).2⟩
  · have hrej : monthRejected env body.month = false := by
      cases hr : monthRejected env body.month with
      | false => rfl
      | true => exact absurd (payBill_month_rejected env faults s body hr).2.1 h
    obtain ⟨k, hk, h1, h12⟩ := month_of_not_rejected env hint body.month hrej
    refine ⟨k, h1, h12, hk, fun sub m y hm => ?_⟩
    rw [payBill_select_mem env faults s body sub m y hm, hk]
  · have hrej : monthRejected env query.month = false := by
      cases hr : monthRejected env query.month with
      | false => rfl
      | true =>
        rcases h with h | h
        · exact absurd (queryBill_month_rejected env fails bills query hr).2 h
        · exact absurd (queryBillDetailed_month_rejected env failsBill failsDetails
            failsCount bills details query paging hr).2 h
    obtain ⟨k, hk, h1, h12⟩ := month_of_not_rejected env hint query.month hrej
    refine ⟨k, h1, h12, hk, fun sub m y hm => ?_, fun sub m y hm => ?_⟩
    · rw [queryBill_bill_mem env fails bills query sub m y hm, hk]
    · rw [queryBillDetailed_bill_mem env failsBill failsDetails failsCount bills details
        query paging sub m y hm, hk]

/-- The month guard at concrete inputs: the month `"13"` is rejected by the
three handlers with 400 and no store operation; with the month `"3abc"` the
handlers reach the store, with the integer month 3. -/
theorem month_guard_before_store_witness :
    monthRejected decimalEnv (.string "13") = true ∧
    ((payBill decimalEnv noFaults sampleStore (sampleMonthBody (.string "13"))).res.status
        = 400 ∧
      (payBill decimalEnv noFaults sampleStore (sampleMonthBody (.string "13"))).ops = [] ∧
      (payBill decimalEnv noFaults sampleStore (sampleMonthBody (.string "13"))).store
        = sampleStore) ∧
    ((queryBill decimalEnv false sampleStore.bills (sampleBillQuery (.string "13"))).res.status
        = 400 ∧
      (queryBill decimalEnv false sampleStore.bills (sampleBillQuery (.string "13"))).ops
        = [] ∧
      (queryBillDetailed decimalEnv false false false sampleStore.bills sampleDetails
        (sampleBillQuery (.string "13"))
        (some { page := 1, limit := 2, offset := 0 })).res.status = 400 ∧
      (queryBillDetailed decimalEnv false false false sampleStore.bills sampleDetails
        (sampleBillQuery (.string "13"))
        (some { page := 1, limit := 2, offset := 0 })).ops = []) ∧
    (payBill decimalEnv noFaults sampleStore (sampleMonthBody (.string "3abc"))).ops ≠ [] ∧
    (∃ k : ℤ, 1 ≤ k ∧ k ≤ 12 ∧
      decimalEnv.parseInt (sampleMonthBody (.string "3abc")).month = .num (k : ℚ) ∧
      ∀ sub m y, Op.select sub m y ∈
          (payBill decimalEnv noFaults sampleStore (sampleMonthBody (.string "3abc"))).ops →
        m = .num (k : ℚ)) ∧
    decimalEnv.parseInt (.string "3abc") = .num 3 :=
  ⟨by decide!,
    (month_guard_before_store decimalEnv noFaults sampleStore (sampleMonthBody (.string "13"))
      false false false false sampleStore.bills sampleDetails (sampleBillQuery (.string "13"))
      (some { page := 1, limit := 2, offset := 0 })).1 (by decide!),
    (month_guard_before_store decimalEnv noFaults sampleStore (sampleMonthBody (.string "13"))
      false false false false sampleStore.bills sampleDetails (sampleBillQuery (.string "13"))
      (some { page := 1, limit := 2, offset := 0 })).2.1 (by decide!),
    by decide!,
    ((month_guard_before_store decimalEnv noFaults sampleStore
      (sampleMonthBody (.string "3abc")) false false false false sampleStore.bills
      sampleDetails (sampleBillQuery (.string "3abc"))
      (some { page := 1, limit := 2, offset := 0 })).2.2 decimalEnv_parseIntIntegral).1
      (by decide!),
    by decide!⟩

/-! ## Pagination metadata -/

/-- The success response of `queryBillDetailed` carries the metadata computed
by `paginationMeta` from `req.pagination` and the number of details. -/
theorem queryBillDetailed_meta (env : Env) (bills : List Bill) (details : List BillDetail)
    (query : BillQuery) (p : Pagination) (t : JsNum) (items : List DetailItem)
    (m : PaginationMeta)
    (h : (queryBillDetailed env false false false bills details query (some p)).res
      = .detailed t items m) :
    ∃ bill, selectBill env bills query.subscriber_no (env.parseInt query.month)
        (queryYear env query) = some bill ∧
      m = paginationMeta p.page p.limit (countDetails details bill.bill_id) := by
  unfold queryBillDetailed at h
  by_cases h1 : (!query.subscriber_no.truthy || !query.month.truthy) = true
  · simp [h1] at h
  by_cases h3 : ((env.parseInt query.month).isNaN || (env.parseInt query.month).lt (.num 1)
      || (env.parseInt query.month).gt (.num 12)) = true
  · simp [h1, h3] at h
  simp only [h1, h3, if_false] at h
  cases hsel : selectBill env bills query.subscriber_no (env.parseInt query.month)
      (queryYear env query) with
  | none => rw [hsel] at h; simp at h
  | some bill =>
    rw [hsel] at h
    simp at h
    exact ⟨bill, rfl, h.2.2.symm⟩

/-- C28: the pagination metadata of `queryBillDetailed`, for an integer page
(so for every page `≥ 1`), an integer limit `≥ 1` (so for every limit from 1
to 100) and `total` items: `totalPages` is `ceil(total / limit)`, the least
number of pages of `limit` items that hold `total` items; `hasNext` is true
exactly when `page * limit < total`; `hasPrev` is true exactly when
`page > 1`. -/
theorem paginationMeta_spec (page limit : ℤ) (total : Nat) (hlimit : 1 ≤ limit) :
    (paginationMeta page limit total).totalPages = ⌈(total : ℚ) / (limit : ℚ)⌉ ∧
    (total : ℤ) ≤ (paginationMeta page limit total).totalPages * limit ∧
    (∀ n : ℤ, (total : ℤ) ≤ n * limit → (paginationMeta page limit total).totalPages ≤ n) ∧
    0 ≤ (paginationMeta page limit total).totalPages ∧
    ((paginationMeta page limit total).hasNext = true ↔ page * limit < total) ∧
    ((paginationMeta page limit total).hasPrev = true ↔ 1 < page) ∧
    (paginationMeta page limit total).page = page ∧
    (paginationMeta page limit total).limit = limit ∧
    (paginationMeta page limit total).total = total := by
  have hl : (0 : ℚ) < (limit : ℚ) := by exact_mod_cast (by omega : (0 : ℤ) < limit)
  refine ⟨rfl, ?_, ?_, ?_, ?_, ?_, rfl, rfl, rfl⟩
  · have h := Int.le_ceil ((total : ℚ) / (limit : ℚ))
    rw [div_le_iff₀ hl] at h
    show (total : ℤ) ≤ ⌈(total : ℚ) / (limit : ℚ)⌉ * limit
    exact_mod_cast h
  · intro n hn
    show ⌈(total : ℚ) / (limit : ℚ)⌉ ≤ n
    rw [Int.ceil_le, div_le_iff₀ hl]
    exact_mod_cast hn
  · show 0 ≤ ⌈(total : ℚ) / (limit : ℚ)⌉
    exact Int.ceil_nonneg (div_nonneg (by positivity) hl.le)
  · show decide (((page : ℤ) : ℚ) < ((⌈(total : ℚ) / (limit : ℚ)⌉ : ℤ) : ℚ)) = true ↔ _
    rw [decide_eq_true_iff, Int.cast_lt, Int.lt_ceil, lt_div_iff₀ hl]
    constructor
    · intro h; exact_mod_cast h
    · intro h; exact_mod_cast h
  · show decide (((page : ℤ) : ℚ) > 1) = true ↔ _
    rw [decide_eq_true_iff]
    constructor
    · intro h; exact_mod_cast h
    · intro h; exact_mod_cast h

/-- C28, at a concrete input: three details, two per page.  Page 1 of 2 has a
next page and no previous one, page 2 has a previous page and no next one, as
the handler answers. -/
theorem paginationMeta_spec_witness :
    (1 : ℤ) ≤ 2 ∧
    (paginationMeta (1 : ℤ) (2 : ℤ) 3).totalPages = 2 ∧
    ((paginationMeta (1 : ℤ) (2 : ℤ) 3).hasNext = true ↔ (1 : ℤ) * 2 < (3 : ℕ)) ∧
    ((paginationMeta (1 : ℤ) (2 : ℤ) 3).hasPrev = true ↔ (1 : ℤ) < 1) ∧
    (queryBillDetailed decimalEnv false false false sampleStore.bills sampleDetails
        (sampleBillQuery (.string "3")) (some { page := 1, limit := 2, offset := 0 })).res
      = .detailed (.num 200)
          [{ service_type := "voice", description := "Calls", amount := .num 150 },
           { service_type := "sms", description := "SMS", amount := .num 20 }]
          { page := 1, limit := 2, total := 3, totalPages := 2
            hasNext := true, hasPrev := false } ∧
    (queryBillDetailed decimalEnv false false false sampleStore.bills sampleDetails
        (sampleBillQuery (.string "3")) (some { page := 2, limit := 2, offset := 2 })).res
      = .detailed (.num 200)
          [{ service_type := "data", description := "Internet", amount := .num 30 }]
          { page := 2, limit := 2, total := 3, totalPages := 2
            hasNext := false, hasPrev := true } :=
  ⟨by decide, by decide!,
    (paginationMeta_spec 1 2 3 (by decide)).2.2.2.2.1,
    (paginationMeta_spec 1 2 3 (by decide)).2.2.2.2.2.1,
    by decide!, by decide!⟩

/-! ## payBill in double precision: lemmas and claims -/

/-- When no conversion and no operation rounds, the handler in double
precision does what the handler in exact arithmetic does. -/
theorem payBillFoundDouble_eq_of_exact (env : Env) (faults : Faults) (s : Store)
    (body : PayBody) (ops : List Op) (bill : Bill) (a : ℚ)
    (hamount : env.parseFloat body.amount = .num a)
    (hpaid : roundDouble bill.paid_amount = bill.paid_amount)
    (htotal : roundDouble bill.total_amount = bill.total_amount)
    (hsum : roundDouble (bill.paid_amount + a) = bill.paid_amount + a)
    (hdiff : roundDouble (bill.total_amount - min (bill.paid_amount + a) bill.total_amount)
      = bill.total_amount - min (bill.paid_amount + a) bill.total_amount) :
    payBillFoundDouble env faults s body ops bill = payBillFound env faults s body ops bill := by
  unfold payBillFoundDouble payBillFound
  simp only [hamount, hpaid, htotal, JsNum.addDouble, JsNum.add, hsum, JsNum.min,
    JsNum.subDouble, JsNum.sub, hdiff]

/-- On whole amounts below `2 ^ 51` double arithmetic is exact: a payment of
the whole amount `a` on a bill with whole amounts is handled in double
precision as it is in exact arithmetic. -/
theorem payBillFoundDouble_eq_of_whole (env : Env) (faults : Faults) (s : Store)
    (body : PayBody) (ops : List Op) (bill : Bill) (a p t : ℤ)
    (hamount : env.parseFloat body.amount = .num (a : ℚ))
    (hp : bill.paid_amount = p) (ht : bill.total_amount = t)
    (ha : |a| < 2 ^ 51) (hpb : |p| < 2 ^ 51) (htb : |t| < 2 ^ 51) :
    payBillFoundDouble env faults s body ops bill = payBillFound env faults s body ops bill := by
  have hap := abs_lt.mp ha
  have hpp := abs_lt.mp hpb
  have htt := abs_lt.mp htb
  apply payBillFoundDouble_eq_of_exact env faults s body ops bill (a : ℚ) hamount
  · rw [hp]; exact roundDouble_intCast p (by rw [abs_lt]; constructor <;> omega)
  · rw [ht]; exact roundDouble_intCast t (by rw [abs_lt]; constructor <;> omega)
  · rw [hp]
    have h := roundDouble_intCast (p + a) (by rw [abs_lt]; constructor <;> omega)
    push_cast at h
    exact h
  · rw [hp, ht]
    have hmin : min ((p : ℚ) + (a : ℚ)) (t : ℚ) = ((min (p + a) t : ℤ) : ℚ) := by
      push_cast; rfl
    rw [hmin]
    have hb : |t - min (p + a) t| < 2 ^ 53 := by
      rw [abs_lt]
      rcases min_cases (p + a) t with ⟨h1, _⟩ | ⟨h1, _⟩ <;> rw [h1] <;> constructor <;> omega
    have h := roundDouble_intCast (t - min (p + a) t) hb
    push_cast at h ⊢
    exact h

/-- C1 fails on the code: a bill of 0.80 with 0.70 paid receives a payment of
0.10.  The handler adds the doubles 0.7 and 0.1, which gives
0.7999999999999999, below the double 0.8: it sends that number and
`paid_status = false` to the `UPDATE` and answers `partially_paid` with
`remaining_amount` 1.1102230246251565e-16, where
`min (0.70 + 0.10) 0.80 = 0.80` is the full amount. -/
theorem payBillDouble_settling_payment_short :
    min ((7 : ℚ) / 10 + 1 / 10) (4 / 5) = 4 / 5 ∧
    (payBillDouble decimalEnv noFaults (decimalStore (4 / 5) (7 / 10))
        (decimalBody (1 / 10))).res
      = .success
          { transaction_id := 1, transaction_status := "completed", bill_id := 1
            amount_paid := .num (roundDouble (1 / 10))
            remaining_amount := .num (1 / 9007199254740992)
            bill_status := "partially_paid" } ∧
    (payBillDouble decimalEnv noFaults (decimalStore (4 / 5) (7 / 10))
        (decimalBody (1 / 10))).store.bills
      = [{ decimalBill (4 / 5) (7 / 10) with
            paid_amount := 7205759403792793 / 9007199254740992, paid_status := false }] ∧
    (7205759403792793 : ℚ) / 9007199254740992 < roundDouble (4 / 5) ∧
    roundDouble (4 / 5) = 3602879701896397 / 4503599627370496 := by
  decide!

/-- C4 fails on the code: three successive payments of 10.10 on a bill of
30.30 with nothing paid.  The stored balance goes 10.1, 20.2,
30.299999999999997: after the third call the bill is still not marked as
paid, where `min (0 + (10.10 + 10.10 + 10.10)) 30.30 = 30.30` settles it.
The three records carry the requested amounts. -/
theorem payBillDouble_successive_payments_short :
    min ((0 : ℚ) + (101 / 10 + 101 / 10 + 101 / 10)) (303 / 10) = 303 / 10 ∧
    (storeAfterDouble decimalEnv (decimalStore (303 / 10) 0)
        [(noFaults, decimalBody (101 / 10)), (noFaults, decimalBody (101 / 10)),
         (noFaults, decimalBody (101 / 10))]).bills
      = [{ decimalBill (303 / 10) 0 with
            paid_amount := 2132172948583219 / 70368744177664, paid_status := false }] ∧
    (2132172948583219 : ℚ) / 70368744177664 < roundDouble (303 / 10) ∧
    (storeAfterDouble decimalEnv (decimalStore (303 / 10) 0)
        [(noFaults, decimalBody (101 / 10)), (noFaults, decimalBody (101 / 10)),
         (noFaults, decimalBody (101 / 10))]).transactions.map (·.amount)
      = [roundDouble (101 / 10), roundDouble (101 / 10), roundDouble (101 / 10)] ∧
    (payBillDouble decimalEnv noFaults
        (storeAfterDouble decimalEnv (decimalStore (303 / 10) 0)
          [(noFaults, decimalBody (101 / 10)), (noFaults, decimalBody (101 / 10))])
        (decimalBody (101 / 10))).res.data?.map (·.bill_status) = some "partially_paid" := by
  decide!

/-- C7 fails on the code: a payment of 10.30 on a bill of 200.10 with nothing
paid.  The handler stores the double 10.3 and returns
`remaining_amount` 189.79999999999998, the rounded difference of the doubles
200.1 and 10.3: it is neither their difference nor 189.80, nor the double
189.8. -/
theorem payBillDouble_remaining_amount_rounded :
    (payBillDouble decimalEnv noFaults (decimalStore (2001 / 10) 0)
        (decimalBody (103 / 10))).res
      = .success
          { transaction_id := 1, transaction_status := "completed", bill_id := 1
            amount_paid := .num (roundDouble (103 / 10))
            remaining_amount := .num (6677993822460313 / 35184372088832)
            bill_status := "partially_paid" } ∧
    (payBillDouble decimalEnv noFaults (decimalStore (2001 / 10) 0)
        (decimalBody (103 / 10))).store.bills
      = [{ decimalBill (2001 / 10) 0 with
            paid_amount := roundDouble (103 / 10), paid_status := false }] ∧
    (6677993822460313 : ℚ) / 35184372088832
      ≠ roundDouble (2001 / 10) - roundDouble (103 / 10) ∧
    (6677993822460313 : ℚ) / 35184372088832 ≠ 2001 / 10 - 103 / 10 ∧
    (6677993822460313 : ℚ) / 35184372088832 < roundDouble (1898 / 10) := by
  decide!

/-- C21 fails on the code: two payments of 10.10 and 10.20 against a bill of
20.30 with nothing paid.  Run one after the other, in either order, they leave
the balance 20.299999999999997 and the bill not marked as paid, with two
records; so does every interleaving that the store serialises, and none ends
with `min (0 + 10.10 + 10.20) 20.30 = 20.30`. -/
theorem payBillDouble_two_payments_short :
    min ((0 : ℚ) + 101 / 10 + 51 / 5) (203 / 10) = 203 / 10 ∧
    (storeAfterDouble decimalEnv (decimalStore (203 / 10) 0)
        [(noFaults, decimalBody (101 / 10)), (noFaults, decimalBody (51 / 5))]).bills
      = [{ decimalBill (203 / 10) 0 with
            paid_amount := 1428485506806579 / 70368744177664, paid_status := false }] ∧
    (storeAfterDouble decimalEnv (decimalStore (203 / 10) 0)
        [(noFaults, decimalBody (51 / 5)), (noFaults, decimalBody (101 / 10))]).bills
      = [{ decimalBill (203 / 10) 0 with
            paid_amount := 1428485506806579 / 70368744177664, paid_status := false }] ∧
    (1428485506806579 : ℚ) / 70368744177664 < roundDouble (203 / 10) ∧
    ((storeAfterDouble decimalEnv (decimalStore (203 / 10) 0)
        [(noFaults, decimalBody (101 / 10)), (noFaults, decimalBody (51 / 5))]).transactions.map
        (·.amount)) = [roundDouble (101 / 10), roundDouble (51 / 5)] ∧
    ((storeAfterDouble decimalEnv (decimalStore (203 / 10) 0)
        [(noFaults, decimalBody (51 / 5)), (noFaults, decimalBody (101 / 10))]).transactions.map
        (·.amount)) = [roundDouble (51 / 5), roundDouble (101 / 10)] := by
  decide!

/-- On a store whose bills carry whole amounts below `2 ^ 51`, a payment of a
whole amount below `2 ^ 51` is handled in double precision exactly as in exact
arithmetic: what is proved of `payBill` holds of the handler in double
precision there. -/
theorem payBillDouble_eq_of_whole (env : Env) (faults : Faults) (s : Store) (body : PayBody)
    (a : ℤ) (hamount : env.parseFloat body.amount = .num (a : ℚ)) (ha : |a| < 2 ^ 51)
    (hbills : ∀ b ∈ s.bills, ∃ p t : ℤ, b.paid_amount = p ∧ b.total_amount = t ∧
      |p| < 2 ^ 51 ∧ |t| < 2 ^ 51) :
    payBillDouble env faults s body = payBill env faults s body := by
  unfold payBillDouble payBill payBillTransactionDouble payBillTransaction
  cases hsel : selectBill env s.bills body.subscriber_no (env.parseInt body.month)
      (yearOf env body) with
  | none => simp only [hsel]
  | some bill =>
    have hmem : bill ∈ s.bills := List.mem_of_find?_eq_some hsel
    obtain ⟨p, t, hp, ht, hpb, htb⟩ := hbills bill hmem
    simp only [hsel, payBillFoundDouble_eq_of_whole env faults s body _ bill a p t hamount hp ht
      ha hpb htb]
end BillPay
